import Mathlib

/-!
# GLVis geometry batching and transform-feedback clipping

A shallow embedding of `lib/aux_gl3.hpp` (the classes `GlBuilder`,
`VertexBuffer`, `TextBuffer` and `GlDrawable`) and of
`lib/gl/renderer_core.cpp`: the transform-feedback capture
(`XFBPostTransform`, `CoreGLDevice::processTriangleXfbBuffer`,
`CoreGLDevice::processLineXfbBuffer`, `CoreGLDevice::captureXfbBuffer`), the
shader program builder (`formatShaderString`, `CoreGLDevice::compileShaders`)
and the device buffer manager (`CoreGLDevice::bufferToDevice`,
`CoreGLDevice::drawDeviceBuffer`), followed by theorems about them.

Conventions of the embedding.

* A C++ `float`/`double` value is a rational number and arithmetic on it is
  exact; narrowing a `double` argument to `float` is the identity.  (The
  products `v * 256.` of the colour packing are exact in binary floating
  point as well, so nothing is lost there.)  There is no NaN and no infinity.
* A `float`-sized storage slot of a vertex array either holds a number or the
  four bytes written through the `uint8_t*` alias of the colour packing.
* The conversion `(uint8_t)(d)` of a floating value discards the fractional
  part (rounds toward zero).  It has a value only when the truncated value
  lies in `[0, 255]`; outside that range the C++ conversion is undefined, and
  the byte is `none`.
* The build is the one with `GLVIS_OGL3` defined and `__EMSCRIPTEN__`
  undefined unless said otherwise.  Text written to `cerr` is not part of the
  modelled state.
* A `std::string` is the list of its characters.  Every regex of the source
  matches one literal text, and the replacement texts are taken to hold no
  `$`, so that `std::regex_replace` is the replacement of all occurrences
  from left to right.
* The calls of the graphics API are recorded as the list of commands issued,
  in order; the set of enabled vertex-attribute arrays is read off that list.
-/

namespace gl3

/-! ## `lib/aux_gl3.hpp` -/

/-- The OpenGL enumeration type `GLenum` (an unsigned integer). -/
abbrev GLenum := ℕ

/-- The OpenGL constant `GL_LINES` (0x0001), declared in the platform headers. -/
def GL_LINES : GLenum := 1
/-- The OpenGL constant `GL_LINE_LOOP` (0x0002), declared in the platform headers. -/
def GL_LINE_LOOP : GLenum := 2
/-- The OpenGL constant `GL_LINE_STRIP` (0x0003), declared in the platform headers. -/
def GL_LINE_STRIP : GLenum := 3
/-- The OpenGL constant `GL_TRIANGLES` (0x0004), declared in the platform headers. -/
def GL_TRIANGLES : GLenum := 4

/-- A C array `float[3]`. -/
abbrev Float3 := ℚ × ℚ × ℚ
/-- A C array `float[4]`. -/
abbrev Float4 := ℚ × ℚ × ℚ × ℚ

/-- One element of a `std::vector<float>` holding vertex data: a number, or
the four bytes `b0 b1 b2 b3` (in memory order) of a packed colour; a byte is
`none` when the conversion that computes it is undefined. -/
inductive FloatSlot where
  | num (v : ℚ)
  | rgba8 (b0 b1 b2 b3 : Option ℕ)
deriving DecidableEq, Repr

/-- The integer obtained from a floating value by discarding its fractional
part, as the C++ floating-to-integer conversion does. -/
def truncToInt (q : ℚ) : ℤ :=
  if 0 ≤ q then ⌊q⌋ else ⌈q⌉

/-- The cast `(uint8_t)(d)`: the truncated value when it can be represented
in `uint8_t`, that is when it lies in `[0, 255]`; for any other value the C++
conversion is undefined and there is no result. -/
def toUint8 (q : ℚ) : Option ℕ :=
  if 0 ≤ truncToInt q ∧ truncToInt q < 2 ^ 8 then some (truncToInt q).toNat else none

/-- The channel expression `(c >= 1.0) ? 255 : (uint8_t)(c * 256.)` used by
every colour packing site. -/
def packChannel (c : ℚ) : Option ℕ :=
  if c ≥ 1 then some 255 else toUint8 (c * 256)

/-- The four assignments to `((uint8_t*) &pack_rgba)[0..3]`: channel `i` of
`rgba` is written to byte `i` of the slot. -/
def packRgba (rgba : Float4) : FloatSlot :=
  FloatSlot.rgba8 (packChannel rgba.1) (packChannel rgba.2.1)
    (packChannel rgba.2.2.1) (packChannel rgba.2.2.2)

/-- The members of `class GlBuilder` that the inline member functions use
(`parent_buf` is only used by the out-of-line `glEnd`). -/
structure GlBuilder where
  render_as : GLenum
  pts : List FloatSlot
  count : ℤ
  is_line : Bool
  use_color : Bool
  use_color_tex : Bool
  norm : Float3
  color : Float4
  texcoord : ℚ
deriving DecidableEq, Repr

namespace GlBuilder

/-- The constructor `GlBuilder(GlDrawable*)`: it initialises `count` and the
three flags; `render_as`, `norm`, `color` and `texcoord` are left with the
indeterminate values given here as arguments. -/
def new (render_as : GLenum) (norm : Float3) (color : Float4) (texcoord : ℚ) :
    GlBuilder :=
  { render_as := render_as, pts := [], count := 0, is_line := false,
    use_color := false, use_color_tex := false,
    norm := norm, color := color, texcoord := texcoord }

/-- The member `GlBuilder::glBegin(GLenum e)`. -/
def glBegin (b : GlBuilder) (e : GLenum) : GlBuilder :=
  let b1 : GlBuilder :=
    if e = GL_LINES ∨ e = GL_LINE_STRIP ∨ e = GL_LINE_LOOP then
      { b with is_line := true }
    else
      { b with is_line := false }
  { b1 with render_as := e, count := 0 }

/-- The member `GlBuilder::glVertex3d(double x, double y, double z)`,
statement by statement. -/
def glVertex3d (b : GlBuilder) (x y z : ℚ) : GlBuilder :=
  -- duplicate the last stored vertex inside a strip or loop
  let pts0 : List FloatSlot :=
    if b.count ≥ 2 ∧ (b.render_as = GL_LINE_STRIP ∨ b.render_as = GL_LINE_LOOP) then
      let offset := 4
      let last_vtx := b.pts.drop (b.pts.length - offset)
      b.pts ++ last_vtx
    else b.pts
  let pts1 := pts0 ++ [FloatSlot.num x] ++ [FloatSlot.num y] ++ [FloatSlot.num z]
  let pts2 :=
    if !b.is_line then
      pts1 ++ [FloatSlot.num b.norm.1, FloatSlot.num b.norm.2.1, FloatSlot.num b.norm.2.2]
    else pts1
  let pts3 :=
    if b.use_color then pts2 ++ [packRgba b.color]
    else if b.use_color_tex then pts2 ++ [FloatSlot.num b.texcoord]
    else pts2
  let pts4 :=
    if b.is_line != (b.use_color || b.use_color_tex) then pts3 ++ [FloatSlot.num 0]
    else pts3
  { b with pts := pts4, count := b.count + 1 }

/-- The member `GlBuilder::glVertex3dv(const double*)`. -/
def glVertex3dv (b : GlBuilder) (d : Float3) : GlBuilder :=
  glVertex3d b d.1 d.2.1 d.2.2

/-- The member `GlBuilder::glNormal3d`. -/
def glNormal3d (b : GlBuilder) (nx ny nz : ℚ) : GlBuilder :=
  { b with norm := (nx, ny, nz) }

/-- The member `GlBuilder::glNormal3dv`. -/
def glNormal3dv (b : GlBuilder) (d : Float3) : GlBuilder :=
  { b with norm := (d.1, d.2.1, d.2.2) }

/-- The member `GlBuilder::glColor3f`. -/
def glColor3f (b : GlBuilder) (r g bl : ℚ) : GlBuilder :=
  { b with color := (r, g, bl, 1) }

/-- The member `GlBuilder::glColor4fv`. -/
def glColor4fv (b : GlBuilder) (rgba : Float4) : GlBuilder :=
  let b1 : GlBuilder :=
    if b.pts.isEmpty then { b with use_color := true, use_color_tex := false } else b
  { b1 with color := rgba }

/-- The member `GlBuilder::glTexCoord1f`. -/
def glTexCoord1f (b : GlBuilder) (coord : ℚ) : GlBuilder :=
  let b1 : GlBuilder :=
    if b.pts.isEmpty then { b with use_color_tex := true, use_color := false } else b
  { b1 with texcoord := coord }

end GlBuilder

/-- The enumeration `VertexBuffer::array_layout`, in declaration order. -/
inductive array_layout where
  | LAYOUT_VTX
  | LAYOUT_VTX_NORMAL
  | LAYOUT_VTX_COLOR
  | LAYOUT_VTX_TEXTURE0
  | LAYOUT_VTX_NORMAL_COLOR
  | LAYOUT_VTX_NORMAL_TEXTURE0
deriving DecidableEq, Repr

open array_layout

/-- The data members of `class VertexBuffer`; `_handle` is the buffer name
held by the owned `GLuint`. -/
structure VertexBuffer where
  _layout : array_layout
  _handle : ℕ
  _pt_data : List FloatSlot
  _buffered_size : ℤ
  _allocated_size : ℤ
deriving DecidableEq, Repr

namespace VertexBuffer

/-- The constructor `VertexBuffer(array_layout layout)`; `handle` is the name
that `glGenBuffers` writes. -/
def new (layout : array_layout) (handle : ℕ) : VertexBuffer :=
  { _layout := layout, _handle := handle, _pt_data := [],
    _buffered_size := 0, _allocated_size := 0 }

/-- The member `VertexBuffer::clear()`. -/
def clear (vb : VertexBuffer) : VertexBuffer :=
  { vb with _pt_data := [], _buffered_size := 0 }

/-- The member `VertexBuffer::getArrayLayout()`. -/
def getArrayLayout (vb : VertexBuffer) : array_layout := vb._layout

/-- The overload `addVertex(std::array<float, 3>&& vtx)`. -/
def addVertex (vb : VertexBuffer) (vtx : Float3) : VertexBuffer :=
  if vb._layout ≠ LAYOUT_VTX then vb
  else
    let d1 := vb._pt_data ++ [FloatSlot.num vtx.1, FloatSlot.num vtx.2.1, FloatSlot.num vtx.2.2]
    { vb with _pt_data := d1 ++ [FloatSlot.num 0] }

/-- The overload `addVertex(float (&vtx)[3])`, which forwards to the
`std::array` overload. -/
def addVertexRef (vb : VertexBuffer) (vtx : Float3) : VertexBuffer :=
  addVertex vb (vtx.1, vtx.2.1, vtx.2.2)

/-- The overload `addVertex(std::array<float, 3>&& vtx, std::array<float, 4>&& rgba)`. -/
def addVertexColor (vb : VertexBuffer) (vtx : Float3) (rgba : Float4) : VertexBuffer :=
  if vb._layout ≠ LAYOUT_VTX_COLOR then vb
  else
    let d1 := vb._pt_data ++ [FloatSlot.num vtx.1, FloatSlot.num vtx.2.1, FloatSlot.num vtx.2.2]
    let pack_rgba := packRgba rgba
    { vb with _pt_data := d1 ++ [pack_rgba] }

/-- The overload `addVertex(float (&vtx)[3], float (&rgba)[4])`, which
forwards to the `std::array` overload. -/
def addVertexColorRef (vb : VertexBuffer) (vtx : Float3) (rgba : Float4) : VertexBuffer :=
  addVertexColor vb (vtx.1, vtx.2.1, vtx.2.2) (rgba.1, rgba.2.1, rgba.2.2.1, rgba.2.2.2)

/-- The overload `addVertex(std::array<float, 3>&& vtx, float colorTexCoord)`. -/
def addVertexTex (vb : VertexBuffer) (vtx : Float3) (colorTexCoord : ℚ) : VertexBuffer :=
  if vb._layout ≠ LAYOUT_VTX_TEXTURE0 then vb
  else
    let d1 := vb._pt_data ++ [FloatSlot.num vtx.1, FloatSlot.num vtx.2.1, FloatSlot.num vtx.2.2]
    { vb with _pt_data := d1 ++ [FloatSlot.num colorTexCoord] }

/-- The overload `addVertex(float (&vtx)[3], float colorTexCoord)`, which
forwards to the `std::array` overload. -/
def addVertexTexRef (vb : VertexBuffer) (vtx : Float3) (colorTexCoord : ℚ) : VertexBuffer :=
  addVertexTex vb (vtx.1, vtx.2.1, vtx.2.2) colorTexCoord

/-- The member `addVertexNorm(std::array<float, 3>&& vtx, std::array<float, 3>&& norm)`. -/
def addVertexNorm (vb : VertexBuffer) (vtx norm : Float3) : VertexBuffer :=
  if vb._layout ≠ LAYOUT_VTX_NORMAL then vb
  else
    let d1 := vb._pt_data ++ [FloatSlot.num vtx.1, FloatSlot.num vtx.2.1, FloatSlot.num vtx.2.2]
    { vb with _pt_data :=
        d1 ++ [FloatSlot.num norm.1, FloatSlot.num norm.2.1, FloatSlot.num norm.2.2] }

/-- The overload `addVertex(float (&vtx)[3], float (&norm)[3], float (&rgba)[4])`. -/
def addVertexNormColor (vb : VertexBuffer) (vtx norm : Float3) (rgba : Float4) :
    VertexBuffer :=
  if vb._layout ≠ LAYOUT_VTX_NORMAL_COLOR then vb
  else
    let d1 := vb._pt_data ++ [FloatSlot.num vtx.1, FloatSlot.num vtx.2.1, FloatSlot.num vtx.2.2]
    let d2 := d1 ++ [FloatSlot.num norm.1, FloatSlot.num norm.2.1, FloatSlot.num norm.2.2]
    let pack_rgba := packRgba rgba
    { vb with _pt_data := d2 ++ [pack_rgba] ++ [FloatSlot.num 0] }

/-- The overload `addVertex(float (&vtx)[3], float (&norm)[3], float colorTexCoord)`. -/
def addVertexNormTex (vb : VertexBuffer) (vtx norm : Float3) (colorTexCoord : ℚ) :
    VertexBuffer :=
  if vb._layout ≠ LAYOUT_VTX_NORMAL_TEXTURE0 then vb
  else
    let d1 := vb._pt_data ++ [FloatSlot.num vtx.1, FloatSlot.num vtx.2.1, FloatSlot.num vtx.2.2]
    let d2 := d1 ++ [FloatSlot.num norm.1, FloatSlot.num norm.2.1, FloatSlot.num norm.2.2]
    { vb with _pt_data := d2 ++ [FloatSlot.num colorTexCoord] ++ [FloatSlot.num 0] }

end VertexBuffer

/-! ## `lib/gl/renderer_core.cpp`: the transform-feedback clipper -/

/-- The value type `glm::vec3`. -/
structure Vec3 where
  x : ℚ
  y : ℚ
  z : ℚ
deriving DecidableEq, Repr, Inhabited

/-- The value type `glm::vec4`; a C array `float[4]` read through
`glm::make_vec4` has its element `[3]` in `w`. -/
structure Vec4 where
  x : ℚ
  y : ℚ
  z : ℚ
  w : ℚ
deriving DecidableEq, Repr, Inhabited

namespace Vec4

/-- The product `v * s` of a vector and a scalar. -/
def scale (v : Vec4) (s : ℚ) : Vec4 := ⟨v.x * s, v.y * s, v.z * s, v.w * s⟩

/-- The difference `u - v` of two vectors. -/
def sub (u v : Vec4) : Vec4 := ⟨u.x - v.x, u.y - v.y, u.z - v.z, u.w - v.w⟩

/-- The quotient `v / s` of a vector by a scalar. -/
def divScalar (v : Vec4) (s : ℚ) : Vec4 := ⟨v.x / s, v.y / s, v.z / s, v.w / s⟩

end Vec4

/-- Modelled from the spec: the record `CoreGLDevice::ShaderXfbVertex` of the
missing header, a clip-space vertex with homogeneous position `float pos[4]`,
colour `float color[4]` and the scalar signed distance `clipCoord` to the
active clip plane. -/
structure ShaderXfbVertex where
  pos : Vec4
  color : Vec4
  clipCoord : ℚ
deriving DecidableEq, Repr, Inhabited

/-- Modelled from the spec: the record `FeedbackVertex` of the missing header,
a device-space position with a colour. -/
structure FeedbackVertex where
  position : Vec3
  color : Vec4
deriving DecidableEq, Repr, Inhabited

/-- Modelled from the spec: the constructor of `FeedbackVertex` taking a
`glm::vec4` position, of which the device-space part `x, y, z` is kept. -/
def FeedbackVertex.ofVec4 (pos color : Vec4) : FeedbackVertex :=
  { position := ⟨pos.x, pos.y, pos.z⟩, color := color }

/-- Modelled from the spec: the record `CaptureBuffer` of the missing header,
holding the list of clipped line vertices and the list of clipped triangle
vertices. -/
structure CaptureBuffer where
  lines : List FeedbackVertex
  triangles : List FeedbackVertex
deriving DecidableEq, Repr

/-- The members of `CoreGLDevice` that the clip routines read. -/
structure CoreGLDevice where
  _vp_width : ℚ
  _vp_height : ℚ
  _use_clip_plane : Bool
deriving DecidableEq, Repr

/-- The function `XFBPostTransform`: perspective divide, then the remap of
`x` and `y` to device coordinates. -/
def XFBPostTransform (v : ShaderXfbVertex) (half_w half_h : ℚ) : FeedbackVertex :=
  let coord : Vec3 := ⟨v.pos.x, v.pos.y, v.pos.z⟩
  let color : Vec4 := v.color
  -- clip coords -> ndc
  let coord : Vec3 := ⟨coord.x / v.pos.w, coord.y / v.pos.w, coord.z / v.pos.w⟩
  -- ndc -> device coords
  let coord : Vec3 := { coord with x := half_w * coord.x + half_w }
  let coord : Vec3 := { coord with y := half_h * coord.y + half_h }
  { position := coord, color := color }

/-- The statements applied to each `pos[i]` of the mixed-sign branch:
`pos /= pos.w; pos.x *= half_w; pos.x += half_w; pos.y *= half_h; pos.y += half_h`. -/
def clipPosToDevice (pos : Vec4) (half_w half_h : ℚ) : Vec4 :=
  let pos := pos.divScalar pos.w
  let pos : Vec4 := { pos with x := pos.x * half_w }
  let pos : Vec4 := { pos with x := pos.x + half_w }
  let pos : Vec4 := { pos with y := pos.y * half_h }
  let pos : Vec4 := { pos with y := pos.y + half_h }
  pos

/-- The statement `cbuf.triangles.emplace_back(v)`. -/
def CaptureBuffer.pushTriangle (cbuf : CaptureBuffer) (v : FeedbackVertex) : CaptureBuffer :=
  { cbuf with triangles := cbuf.triangles ++ [v] }

/-- The statement `cbuf.lines.emplace_back(v)`. -/
def CaptureBuffer.pushLine (cbuf : CaptureBuffer) (v : FeedbackVertex) : CaptureBuffer :=
  { cbuf with lines := cbuf.lines ++ [v] }

namespace CoreGLDevice

/-- The inner loop `for (vert_i ...)` of the mixed-sign branch of
`processTriangleXfbBuffer`, run over the remaining values of `vert_i`; the
first pair `a, b` on the same side emits and leaves the loop (`break`). -/
def clipMixedTriangle (half_w half_h : ℚ) (verts : List ShaderXfbVertex) (t_i : ℕ)
    (cbuf : CaptureBuffer) : List ℕ → CaptureBuffer
  | [] => cbuf
  | vert_i :: rest =>
    let i_a := 3 * t_i + vert_i
    let i_b := 3 * t_i + ((vert_i + 1) % 3)
    let i_c := 3 * t_i + ((vert_i + 2) % 3)
    let va := verts.getD i_a default
    let vb := verts.getD i_b default
    let vc := verts.getD i_c default
    if decide (va.clipCoord < 0) = decide (vb.clipCoord < 0) then
      let c_w_a := va.clipCoord / va.pos.w
      let c_w_b := vb.clipCoord / vb.pos.w
      let c_w_c := vc.clipCoord / vc.pos.w
      -- a --- n_0 --- c
      let pos0 := (va.pos.scale vc.clipCoord).sub (vc.pos.scale va.clipCoord)
      let color0 := ((va.color.scale c_w_c).sub (vc.color.scale c_w_a)).divScalar (c_w_c - c_w_a)
      -- b --- n_1 --- c
      let pos1 := (vb.pos.scale vc.clipCoord).sub (vc.pos.scale vb.clipCoord)
      let color1 := ((vb.color.scale c_w_c).sub (vc.color.scale c_w_b)).divScalar (c_w_c - c_w_b)
      let pos0 := clipPosToDevice pos0 half_w half_h
      let pos1 := clipPosToDevice pos1 half_w half_h
      if vc.clipCoord < 0 then
        -- create quadrilateral a -- n_0 -- n_1 -- b
        let cbuf := cbuf.pushTriangle (XFBPostTransform va half_w half_h)
        let cbuf := cbuf.pushTriangle (FeedbackVertex.ofVec4 pos0 color0)
        let cbuf := cbuf.pushTriangle (FeedbackVertex.ofVec4 pos1 color1)
        let cbuf := cbuf.pushTriangle (XFBPostTransform va half_w half_h)
        let cbuf := cbuf.pushTriangle (FeedbackVertex.ofVec4 pos1 color1)
        cbuf.pushTriangle (XFBPostTransform vb half_w half_h)
      else
        -- add triangle c -- n_0 -- n_1
        let cbuf := cbuf.pushTriangle (XFBPostTransform vc half_w half_h)
        let cbuf := cbuf.pushTriangle (FeedbackVertex.ofVec4 pos0 color0)
        cbuf.pushTriangle (FeedbackVertex.ofVec4 pos1 color1)
    else
      clipMixedTriangle half_w half_h verts t_i cbuf rest

/-- The body of the loop `for (t_i ...)` of `processTriangleXfbBuffer` for the
triangle of index `t_i`. -/
def clipTriangle (half_w half_h : ℚ) (verts : List ShaderXfbVertex)
    (cbuf : CaptureBuffer) (t_i : ℕ) : CaptureBuffer :=
  let v0 := verts.getD (t_i * 3) default
  let v1 := verts.getD (t_i * 3 + 1) default
  let v2 := verts.getD (t_i * 3 + 2) default
  if v0.clipCoord ≥ 0 ∧ v1.clipCoord ≥ 0 ∧ v2.clipCoord ≥ 0 then
    -- triangle fully in the unclipped region
    (List.range 3).foldl
      (fun cb vert_i =>
        cb.pushTriangle (XFBPostTransform (verts.getD (t_i * 3 + vert_i) default) half_w half_h))
      cbuf
  else if v0.clipCoord < 0 ∧ v1.clipCoord < 0 ∧ v2.clipCoord < 0 then
    -- triangle fully in clipped region
    cbuf
  else
    -- clip through middle of triangle
    clipMixedTriangle half_w half_h verts t_i cbuf [0, 1, 2]

/-- The member `CoreGLDevice::processTriangleXfbBuffer(cbuf, verts)`. -/
def processTriangleXfbBuffer (dev : CoreGLDevice) (cbuf : CaptureBuffer)
    (verts : List ShaderXfbVertex) : CaptureBuffer :=
  let half_w := dev._vp_width * (1 / 2)
  let half_h := dev._vp_height * (1 / 2)
  if !dev._use_clip_plane then
    -- all triangles into capture buf
    (List.range verts.length).foldl
      (fun cb i => cb.pushTriangle (XFBPostTransform (verts.getD i default) half_w half_h))
      cbuf
  else
    -- clipping needed
    (List.range (verts.length / 3)).foldl (clipTriangle half_w half_h verts) cbuf

/-- The body of the loop of `processLineXfbBuffer` for the segment starting at
the even index `i`. -/
def clipLine (use_clip_plane : Bool) (half_w half_h : ℚ) (verts : List ShaderXfbVertex)
    (cbuf : CaptureBuffer) (i : ℕ) : CaptureBuffer :=
  let v0 := verts.getD i default
  let v1 := verts.getD (i + 1) default
  if !use_clip_plane ∨ (v0.clipCoord ≥ 0 ∧ v1.clipCoord ≥ 0) then
    let cbuf := cbuf.pushLine (XFBPostTransform v0 half_w half_h)
    cbuf.pushLine (XFBPostTransform v1 half_w half_h)
  else if v0.clipCoord < 0 ∧ v1.clipCoord < 0 then
    -- outside of clip plane
    cbuf
  else
    let idx : ℕ × ℕ :=
      if v0.clipCoord < 0 then
        -- vertex i lies in clipped region
        (i + 1, i)
      else
        -- vertex i+1 lies in clipped region
        (i, i + 1)
    let i_a := idx.1
    let i_b := idx.2
    let va := verts.getD i_a default
    let vb := verts.getD i_b default
    -- compute new vertex (CbVa - CaVb), where Vb lies in the clipped region
    let c_w_a := va.clipCoord / va.pos.w
    let c_w_b := vb.clipCoord / vb.pos.w
    let clip_vert : ShaderXfbVertex :=
      { pos := (va.pos.scale vb.clipCoord).sub (vb.pos.scale va.clipCoord),
        color := ((va.color.scale c_w_b).sub (vb.color.scale c_w_a)).divScalar (c_w_b - c_w_a),
        -- never assigned in the source and never read afterwards
        clipCoord := 0 }
    let cbuf := cbuf.pushLine (XFBPostTransform clip_vert half_w half_h)
    cbuf.pushLine (XFBPostTransform va half_w half_h)

/-- The member `CoreGLDevice::processLineXfbBuffer(cbuf, verts)`: the loop
index runs over `0, 2, 4, ...` below `verts.size()`.  On an input of odd
length the source reads one element past the end; the embedding reads the
default vertex there. -/
def processLineXfbBuffer (dev : CoreGLDevice) (cbuf : CaptureBuffer)
    (verts : List ShaderXfbVertex) : CaptureBuffer :=
  let half_w := dev._vp_width * (1 / 2)
  let half_h := dev._vp_height * (1 / 2)
  ((List.range ((verts.length + 1) / 2)).map (fun k => 2 * k)).foldl
    (clipLine dev._use_clip_plane half_w half_h verts) cbuf

end CoreGLDevice

/-! ## Vocabulary of the properties -/

open array_layout

/-- The record length in floats that the layout table assigns to a layout:
4 for `VTX`, `VTX_COLOR`, `VTX_TEXTURE0`, 6 for `VTX_NORMAL`, and 8 for
`VTX_NORMAL_COLOR` and `VTX_NORMAL_TEXTURE0`. -/
def strideFloats : array_layout → ℕ
  | LAYOUT_VTX => 4
  | LAYOUT_VTX_NORMAL => 6
  | LAYOUT_VTX_COLOR => 4
  | LAYOUT_VTX_TEXTURE0 => 4
  | LAYOUT_VTX_NORMAL_COLOR => 8
  | LAYOUT_VTX_NORMAL_TEXTURE0 => 8

/-- A call of a mutating member of `VertexBuffer`, with its arguments. -/
inductive VertexBufferCall where
  | addVertex (vtx : Float3)
  | addVertexRef (vtx : Float3)
  | addVertexColor (vtx : Float3) (rgba : Float4)
  | addVertexColorRef (vtx : Float3) (rgba : Float4)
  | addVertexTex (vtx : Float3) (colorTexCoord : ℚ)
  | addVertexTexRef (vtx : Float3) (colorTexCoord : ℚ)
  | addVertexNorm (vtx norm : Float3)
  | addVertexNormColor (vtx norm : Float3) (rgba : Float4)
  | addVertexNormTex (vtx norm : Float3) (colorTexCoord : ℚ)
  | clear
deriving DecidableEq, Repr

namespace VertexBufferCall

/-- The effect of a call on the buffer it is made on. -/
def apply (vb : VertexBuffer) : VertexBufferCall → VertexBuffer
  | addVertex vtx => vb.addVertex vtx
  | addVertexRef vtx => vb.addVertexRef vtx
  | addVertexColor vtx rgba => vb.addVertexColor vtx rgba
  | addVertexColorRef vtx rgba => vb.addVertexColorRef vtx rgba
  | addVertexTex vtx t => vb.addVertexTex vtx t
  | addVertexTexRef vtx t => vb.addVertexTexRef vtx t
  | addVertexNorm vtx norm => vb.addVertexNorm vtx norm
  | addVertexNormColor vtx norm rgba => vb.addVertexNormColor vtx norm rgba
  | addVertexNormTex vtx norm t => vb.addVertexNormTex vtx norm t
  | clear => vb.clear

/-- The layout an overload is for: the one named in its warning text;
`clear` adds no vertex. -/
def layoutFor : VertexBufferCall → Option array_layout
  | addVertex _ => some LAYOUT_VTX
  | addVertexRef _ => some LAYOUT_VTX
  | addVertexColor _ _ => some LAYOUT_VTX_COLOR
  | addVertexColorRef _ _ => some LAYOUT_VTX_COLOR
  | addVertexTex _ _ => some LAYOUT_VTX_TEXTURE0
  | addVertexTexRef _ _ => some LAYOUT_VTX_TEXTURE0
  | addVertexNorm _ _ => some LAYOUT_VTX_NORMAL
  | addVertexNormColor _ _ _ => some LAYOUT_VTX_NORMAL_COLOR
  | addVertexNormTex _ _ _ => some LAYOUT_VTX_NORMAL_TEXTURE0
  | clear => none

/-- The buffer after a sequence of calls, made in list order. -/
def run (vb : VertexBuffer) (calls : List VertexBufferCall) : VertexBuffer :=
  calls.foldl apply vb

/-- The number of vertices a buffer of layout `L` has accepted since the last
`clear`, counted along the calls starting from `n`: a vertex is accepted when
its overload is the one for `L`. -/
def acceptedFrom (L : array_layout) (n : ℕ) (calls : List VertexBufferCall) : ℕ :=
  calls.foldl
    (fun k c => if c = clear then 0 else if c.layoutFor = some L then k + 1 else k) n

/-- The number of accepted vertices since the last `clear`, for calls made on
an empty buffer. -/
def acceptedSinceClear (L : array_layout) (calls : List VertexBufferCall) : ℕ :=
  acceptedFrom L 0 calls

end VertexBufferCall

namespace GlBuilder

/-- The floats duplicated by the first statement of `glVertex3d`: the last
four stored floats inside a strip or loop once two vertices were emitted. -/
def stripDup (b : GlBuilder) : List FloatSlot :=
  if b.count ≥ 2 ∧ (b.render_as = GL_LINE_STRIP ∨ b.render_as = GL_LINE_LOOP) then
    b.pts.drop (b.pts.length - 4)
  else []

/-- The colour or texture-coordinate slot of a record: the packed colour in
colour mode, else the texture coordinate in texcoord mode, else nothing. -/
def attrPart (b : GlBuilder) : List FloatSlot :=
  if b.use_color then [packRgba b.color]
  else if b.use_color_tex then [FloatSlot.num b.texcoord]
  else []

/-- The normal of a record: present for non-lines only. -/
def normalPart (b : GlBuilder) : List FloatSlot :=
  if b.is_line then []
  else [FloatSlot.num b.norm.1, FloatSlot.num b.norm.2.1, FloatSlot.num b.norm.2.2]

/-- The pad of a record: one zero float exactly when "is a line" disagrees
with "carries a colour or texcoord attribute". -/
def padPart (b : GlBuilder) : List FloatSlot :=
  if b.is_line = (b.use_color || b.use_color_tex) then [] else [FloatSlot.num 0]

/-- The record of one vertex as the specification lays it out: position,
normal, colour or texcoord slot, pad. -/
def vertexRecord (b : GlBuilder) (x y z : ℚ) : List FloatSlot :=
  [FloatSlot.num x, FloatSlot.num y, FloatSlot.num z] ++ b.normalPart ++ b.attrPart ++ b.padPart

/-- The fixed record length of a topology class and attribute mode: 4 for a
line, 6 for a non-line without colour or texcoord, 8 for a non-line with one. -/
def recordLength (is_line has_attr : Bool) : ℕ :=
  if is_line then 4 else if has_attr then 8 else 6

/-- The fourth slot of a line record: the packed colour, the texture
coordinate, or the zero pad. -/
def lineSlot (b : GlBuilder) : FloatSlot :=
  if b.use_color then packRgba b.color
  else if b.use_color_tex then FloatSlot.num b.texcoord
  else FloatSlot.num 0

/-- The 4-float record of a line vertex at the point `p`. -/
def lineRecord (b : GlBuilder) (p : Float3) : List FloatSlot :=
  [FloatSlot.num p.1, FloatSlot.num p.2.1, FloatSlot.num p.2.2, b.lineSlot]

/-- The builder after `glVertex3d` was called at each point of `ps` in order. -/
def emitAll (b : GlBuilder) (ps : List Float3) : GlBuilder :=
  ps.foldl (fun b p => b.glVertex3d p.1 p.2.1 p.2.2) b

end GlBuilder

/-- The independent segments equivalent to a strip: each pair of consecutive
elements, as two elements. -/
def stripExpand {α : Type} : List α → List α
  | a :: b :: rest => a :: b :: stripExpand (b :: rest)
  | _ => []

/-- The point `p` lies on the segment from `a` to `c`: it is `a + s (c - a)`
for a fraction `s` between 0 and 1. -/
def OnSegment (p a c : Vec3) : Prop :=
  ∃ s : ℚ, 0 ≤ s ∧ s ≤ 1 ∧
    p.x = a.x + s * (c.x - a.x) ∧ p.y = a.y + s * (c.y - a.y) ∧ p.z = a.z + s * (c.z - a.z)

/-- Twice the signed area of the triangle `p q r` in the device `(x, y)`
plane; positive for a counter-clockwise triangle. -/
def signedArea2 (p q r : Vec3) : ℚ :=
  (q.x - p.x) * (r.y - p.y) - (q.y - p.y) * (r.x - p.x)

/-- The vertex `n` that the mixed-sign branch of `processTriangleXfbBuffer`
synthesizes on the edge from `a` to `c`: the homogeneous position
`a.pos * c.clipCoord - c.pos * a.clipCoord` brought to device coordinates, and
the colour interpolated with the factors `clipCoord / pos[3]`. -/
def clipVertex (half_w half_h : ℚ) (va vc : ShaderXfbVertex) : FeedbackVertex :=
  let c_w_a := va.clipCoord / va.pos.w
  let c_w_c := vc.clipCoord / vc.pos.w
  FeedbackVertex.ofVec4
    (clipPosToDevice ((va.pos.scale vc.clipCoord).sub (vc.pos.scale va.clipCoord)) half_w half_h)
    (((va.color.scale c_w_c).sub (vc.color.scale c_w_a)).divScalar (c_w_c - c_w_a))

/-- The six vertices emitted when `c` is outside: the quadrilateral
`a -- n_0 -- n_1 -- b` as the triangles `a, n_0, n_1` and `a, n_1, b`. -/
def quadOut (half_w half_h : ℚ) (va vb vc : ShaderXfbVertex) : List FeedbackVertex :=
  [XFBPostTransform va half_w half_h, clipVertex half_w half_h va vc,
   clipVertex half_w half_h vb vc, XFBPostTransform va half_w half_h,
   clipVertex half_w half_h vb vc, XFBPostTransform vb half_w half_h]

/-- The three vertices emitted when `c` is inside: the triangle
`c -- n_0 -- n_1`. -/
def triOut (half_w half_h : ℚ) (va vb vc : ShaderXfbVertex) : List FeedbackVertex :=
  [XFBPostTransform vc half_w half_h, clipVertex half_w half_h va vc,
   clipVertex half_w half_h vb vc]

/-- The triple `(a, b, c)` is the triple `(v0, v1, v2)` rotated cyclically. -/
def IsRotation (a b c v0 v1 v2 : ShaderXfbVertex) : Prop :=
  (a = v0 ∧ b = v1 ∧ c = v2) ∨ (a = v1 ∧ b = v2 ∧ c = v0) ∨ (a = v2 ∧ b = v0 ∧ c = v1)

/-- Exactly one of the three clip distances is negative. -/
def OneOutside (v0 v1 v2 : ShaderXfbVertex) : Prop :=
  (v0.clipCoord < 0 ∧ 0 ≤ v1.clipCoord ∧ 0 ≤ v2.clipCoord) ∨
  (0 ≤ v0.clipCoord ∧ v1.clipCoord < 0 ∧ 0 ≤ v2.clipCoord) ∨
  (0 ≤ v0.clipCoord ∧ 0 ≤ v1.clipCoord ∧ v2.clipCoord < 0)

/-- Exactly one of the three clip distances is non-negative. -/
def OneInside (v0 v1 v2 : ShaderXfbVertex) : Prop :=
  (0 ≤ v0.clipCoord ∧ v1.clipCoord < 0 ∧ v2.clipCoord < 0) ∨
  (v0.clipCoord < 0 ∧ 0 ≤ v1.clipCoord ∧ v2.clipCoord < 0) ∨
  (v0.clipCoord < 0 ∧ v1.clipCoord < 0 ∧ 0 ≤ v2.clipCoord)

/-! ## Sample inputs -/

/-- A device with a 2 by 2 viewport (half-extents 1) and the clip plane active. -/
def sampleDevice : CoreGLDevice :=
  { _vp_width := 2, _vp_height := 2, _use_clip_plane := true }

/-- A clip-space vertex at the origin, inside the clip half-space. -/
def sampleA : ShaderXfbVertex :=
  { pos := ⟨0, 0, 0, 1⟩, color := ⟨1, 0, 0, 1⟩, clipCoord := 1 }

/-- A clip-space vertex on the x axis, inside the clip half-space. -/
def sampleB : ShaderXfbVertex :=
  { pos := ⟨1, 0, 0, 1⟩, color := ⟨0, 1, 0, 1⟩, clipCoord := 1 }

/-- A clip-space vertex on the y axis, outside the clip half-space. -/
def sampleC : ShaderXfbVertex :=
  { pos := ⟨0, 1, 0, 1⟩, color := ⟨0, 0, 1, 1⟩, clipCoord := -1 }

/-- A clip-space vertex on the y axis, on the clip plane itself. -/
def sampleD : ShaderXfbVertex :=
  { pos := ⟨0, 1, 0, 1⟩, color := ⟨0, 0, 1, 1⟩, clipCoord := 0 }

/-- A clip-space vertex on the x axis, outside the clip half-space. -/
def sampleE : ShaderXfbVertex :=
  { pos := ⟨1, 0, 0, 1⟩, color := ⟨0, 1, 0, 1⟩, clipCoord := -2 }

/-- The empty capture buffer. -/
def emptyCapture : CaptureBuffer := { lines := [], triangles := [] }

/-! ## Vocabulary of the clip formulas -/

/-- The point `p + t (q - p)` of the clip-space segment from `p` to `q`. -/
def Vec4.lerp (p q : Vec4) (t : ℚ) : Vec4 :=
  ⟨p.x + t * (q.x - p.x), p.y + t * (q.y - p.y), p.z + t * (q.z - p.z), p.w + t * (q.w - p.w)⟩

/-- The device position of a clip-space point: the position that
`XFBPostTransform` gives a vertex at that point. -/
def devicePos (P : Vec4) (half_w half_h : ℚ) : Vec3 :=
  (XFBPostTransform { pos := P, color := default, clipCoord := 0 } half_w half_h).position

/-- The vertex `clip_vert` that the mixed branch of `processLineXfbBuffer`
computes from the inside endpoint `a` and the outside endpoint `b`. -/
def lineClipVert (va vb : ShaderXfbVertex) : ShaderXfbVertex :=
  let c_w_a := va.clipCoord / va.pos.w
  let c_w_b := vb.clipCoord / vb.pos.w
  { pos := (va.pos.scale vb.clipCoord).sub (vb.pos.scale va.clipCoord),
    color := ((va.color.scale c_w_b).sub (vb.color.scale c_w_a)).divScalar (c_w_b - c_w_a),
    clipCoord := 0 }

/-- The perspective-correct interpolation of the colours `Cp`, `Cq` of two
endpoints with homogeneous `wp`, `wq` at the device-space fraction `s`:
`((1 - s) Cp / wp + s Cq / wq) / ((1 - s) / wp + s / wq)`, by channel. -/
def perspectiveCorrect (s : ℚ) (Cp : Vec4) (wp : ℚ) (Cq : Vec4) (wq : ℚ) : Vec4 :=
  let f : ℚ → ℚ → ℚ := fun cp cq =>
    ((1 - s) * cp / wp + s * cq / wq) / ((1 - s) / wp + s / wq)
  ⟨f Cp.x Cq.x, f Cp.y Cq.y, f Cp.z Cq.z, f Cp.w Cq.w⟩

/-- The device-space fraction from `p` to `q` at which the synthesized vertex
of a crossing edge lies: `d_p w_q / (d_p w_q - d_q w_p)`. -/
def deviceFraction (vp vq : ShaderXfbVertex) : ℚ :=
  vp.clipCoord * vq.pos.w / (vp.clipCoord * vq.pos.w - vq.clipCoord * vp.pos.w)

/-- The clip-space fraction from `p` to `q` at which the linearly
interpolated clip distance is zero: `d_p / (d_p - d_q)`. -/
def clipFraction (vp vq : ShaderXfbVertex) : ℚ :=
  vp.clipCoord / (vp.clipCoord - vq.clipCoord)

/-- The endpoints `p` and `q` lie on different sides of the clip plane: one
clip distance is non-negative and the other negative. -/
def Crossing (vp vq : ShaderXfbVertex) : Prop :=
  (0 ≤ vp.clipCoord ∧ vq.clipCoord < 0) ∨ (vp.clipCoord < 0 ∧ 0 ≤ vq.clipCoord)

/-- An endpoint of a segment with homogeneous `w = 1`, inside the clip
half-space at distance 2, red. -/
def sampleP : ShaderXfbVertex :=
  { pos := ⟨0, 0, 0, 1⟩, color := ⟨1, 0, 0, 1⟩, clipCoord := 2 }

/-- An endpoint of a segment with homogeneous `w = 2`, outside the clip
half-space at distance -1, blue. -/
def sampleQ : ShaderXfbVertex :=
  { pos := ⟨6, 0, 0, 2⟩, color := ⟨0, 0, 1, 1⟩, clipCoord := -1 }

/-- The vertices that the loop body of `processLineXfbBuffer` appends for the
segment with endpoints `v0`, `v1`. -/
def lineSegmentOut (use_clip_plane : Bool) (half_w half_h : ℚ) (v0 v1 : ShaderXfbVertex) :
    List FeedbackVertex :=
  (CoreGLDevice.clipLine use_clip_plane half_w half_h [v0, v1] emptyCapture 0).lines

/-- The per-segment outputs of the consecutive 2-vertex segments of a list,
concatenated in input order. -/
def lineOut (use_clip_plane : Bool) (half_w half_h : ℚ) :
    List ShaderXfbVertex → List FeedbackVertex
  | v0 :: v1 :: rest =>
    lineSegmentOut use_clip_plane half_w half_h v0 v1 ++ lineOut use_clip_plane half_w half_h rest
  | _ => []

/-- The sample device with the clip plane switched off. -/
def sampleDeviceNoClip : CoreGLDevice :=
  { _vp_width := 2, _vp_height := 2, _use_clip_plane := false }

/-! ## `lib/gl/renderer_core.cpp`: `captureXfbBuffer` -/

/-- Modelled from the spec: the interface `IVertexBuffer` of the missing
header, through the accessors the capture routine uses: `get_handle()`,
`get_shape()`, `count()` (the vertex count of the draw) and `get_stride()`. -/
structure IVertexBuffer where
  handle : ℕ
  shape : GLenum
  count : ℕ
  stride : ℕ
deriving DecidableEq, Repr

/-- Modelled from the spec: the value of `sizeof(ShaderXfbVertex)`, a record
of 4 + 4 + 1 floats of 4 bytes each. -/
def sizeofShaderXfbVertex : ℕ := 36

namespace CoreGLDevice

/-- The vector that `captureXfbBuffer` reads the feedback into:
`vector<ShaderXfbVertex> xfbBuf(buf_size)` is constructed with `buf_size`
value-initialised records, and `glGetBufferSubData(..., 0, buf_size, ...)`
then overwrites its first `buf_size` bytes, that is its first
`buf_size / sizeof(ShaderXfbVertex)` records, with the records `gpu` that the
feedback draw wrote. -/
def readBackXfb (buf : IVertexBuffer) (gpu : List ShaderXfbVertex) : List ShaderXfbVertex :=
  let buf_size := buf.count * sizeofShaderXfbVertex
  let xfbBuf := List.replicate buf_size (default : ShaderXfbVertex)
  let copied := gpu.take (buf_size / sizeofShaderXfbVertex)
  copied ++ xfbBuf.drop copied.length

/-- The member `CoreGLDevice::captureXfbBuffer(cbuf, layout, buf)` of the
build without `__EMSCRIPTEN__`; `gpu` is the content of the feedback buffer
after the draw.  The last branch only writes a warning. -/
def captureXfbBuffer (dev : CoreGLDevice) (cbuf : CaptureBuffer) (_layout : array_layout)
    (buf : IVertexBuffer) (gpu : List ShaderXfbVertex) : CaptureBuffer :=
  let xfbBuf := readBackXfb buf gpu
  if buf.shape = GL_TRIANGLES then
    processTriangleXfbBuffer dev cbuf xfbBuf
  else if buf.shape = GL_LINES then
    processLineXfbBuffer dev cbuf xfbBuf
  else
    cbuf

/-- The member `CoreGLDevice::captureXfbBuffer(cbuf, layout, buf)` of the
build with `__EMSCRIPTEN__` defined: it only writes the text "Not implemented
for WebGL." to `cerr`. -/
def captureXfbBufferWeb (_dev : CoreGLDevice) (cbuf : CaptureBuffer) (_layout : array_layout)
    (_buf : IVertexBuffer) : CaptureBuffer :=
  cbuf

end CoreGLDevice

/-- A source buffer of 3 vertices drawn as triangles. -/
def sampleSource : IVertexBuffer :=
  { handle := 1, shape := GL_TRIANGLES, count := 3, stride := 32 }

/-! ## `lib/aux_gl3.hpp`: `TextBuffer` and `GlDrawable` -/

/-- The record `TextBuffer::_entry`; the members `w` and `h` are not set by
its constructor and are `none` until assigned. -/
structure TextEntry where
  rx : ℚ
  ry : ℚ
  rz : ℚ
  text : String
  w : Option ℤ
  h : Option ℤ
deriving DecidableEq, Repr

/-- The data members of `class TextBuffer`; `_size` is not set by the
constructor and is `none` until assigned. -/
structure TextBuffer where
  _handle : ℕ
  _data : List TextEntry
  _size : Option ℕ
deriving DecidableEq, Repr

namespace TextBuffer

/-- The constructor `TextBuffer()`. -/
def new : TextBuffer := { _handle := 0, _data := [], _size := none }

/-- The member `TextBuffer::addText`. -/
def addText (t : TextBuffer) (x y z : ℚ) (text : String) : TextBuffer :=
  { t with _data := t._data ++ [{ rx := x, ry := y, rz := z, text := text, w := none, h := none }] }

/-- The member `TextBuffer::clear`. -/
def clear (t : TextBuffer) : TextBuffer :=
  { t with _data := [], _size := some 0 }

end TextBuffer

/-- The data members of `class GlDrawable`: the six maps `buffers[layout]`
from a shape to its vertex buffer, and the text buffer. -/
structure GlDrawable where
  buffers : array_layout → GLenum → Option VertexBuffer
  text_buffer : TextBuffer

namespace GlDrawable

/-- The drawable as constructed: no buffer, no text. -/
def new : GlDrawable := { buffers := fun _ _ => none, text_buffer := TextBuffer.new }

/-- The maps with the entry of `(layout, shape)` set to `vb`. -/
def setAt (bufs : array_layout → GLenum → Option VertexBuffer) (layout : array_layout)
    (shape : GLenum) (vb : VertexBuffer) : array_layout → GLenum → Option VertexBuffer :=
  fun l s => if l = layout ∧ s = shape then some vb else bufs l s

/-- The member `GlDrawable::getBuffer(layout, shape)`: the buffer found at
`(layout, shape)`, or else a buffer `VertexBuffer(layout)` emplaced there;
`handle` is the name `glGenBuffers` gives a new buffer.  Returned are the
buffer referred to and the drawable holding it. -/
def getBuffer (d : GlDrawable) (layout : array_layout) (shape : GLenum) (handle : ℕ) :
    VertexBuffer × GlDrawable :=
  match d.buffers layout shape with
  | some vb => (vb, d)
  | none =>
    (VertexBuffer.new layout handle,
     { d with buffers := setAt d.buffers layout shape (VertexBuffer.new layout handle) })

/-- A member call `getBuffer(layout, shape).f(...)` made through the
reference that `getBuffer` returns. -/
def onBuffer (d : GlDrawable) (layout : array_layout) (shape : GLenum) (handle : ℕ)
    (f : VertexBuffer → VertexBuffer) : GlDrawable :=
  let r := d.getBuffer layout shape handle
  { r.2 with buffers := setAt r.2.buffers layout shape (f r.1) }

/-- The member `GlDrawable::addText`. -/
def addText (d : GlDrawable) (x y z : ℚ) (text : String) : GlDrawable :=
  { d with text_buffer := d.text_buffer.addText x y z text }

/-- The member `GlDrawable::addLine(v1, v2)`. -/
def addLine (d : GlDrawable) (handle : ℕ) (v1 v2 : Float3) : GlDrawable :=
  let d := d.onBuffer LAYOUT_VTX GL_LINES handle (fun vb => vb.addVertex v1)
  d.onBuffer LAYOUT_VTX GL_LINES handle (fun vb => vb.addVertex v2)

/-- The member `GlDrawable::addTriangle(vtx, norm, rgba)` with vertex
colours; `vtx i` and `rgba i` are the array elements `vtx[i]`, `rgba[i]`. -/
def addTriangle (d : GlDrawable) (handle : ℕ) (vtx : ℕ → Float3) (norm : Float3)
    (rgba : ℕ → Float4) : GlDrawable :=
  let fnorm : Float3 := (norm.1, norm.2.1, norm.2.2)
  [0, 1, 2].foldl
    (fun d i =>
      let fvert : Float3 := ((vtx i).1, (vtx i).2.1, (vtx i).2.2)
      d.onBuffer LAYOUT_VTX_NORMAL_COLOR GL_TRIANGLES handle
        (fun vb => vb.addVertexNormColor fvert fnorm (rgba i)))
    d

/-- The member `GlDrawable::addTriangle(vtx, norm, texcoord)` with texture
coordinates. -/
def addTriangleTex (d : GlDrawable) (handle : ℕ) (vtx : ℕ → Float3) (norm : Float3)
    (texcoord : ℕ → ℚ) : GlDrawable :=
  let fnorm : Float3 := (norm.1, norm.2.1, norm.2.2)
  [0, 1, 2].foldl
    (fun d i =>
      let fvert : Float3 := ((vtx i).1, (vtx i).2.1, (vtx i).2.2)
      d.onBuffer LAYOUT_VTX_NORMAL_TEXTURE0 GL_TRIANGLES handle
        (fun vb => vb.addVertexNormTex fvert fnorm (texcoord i)))
    d

/-- The member `GlDrawable::addQuad(vtx, norm, rgba)` with vertex colours. -/
def addQuad (d : GlDrawable) (handle : ℕ) (vtx : ℕ → Float3) (norm : Float3)
    (rgba : ℕ → Float4) : GlDrawable :=
  let fnorm : Float3 := (norm.1, norm.2.1, norm.2.2)
  let indices := [0, 1, 2, 0, 2, 3]
  indices.foldl
    (fun d i =>
      let fvert : Float3 := ((vtx i).1, (vtx i).2.1, (vtx i).2.2)
      d.onBuffer LAYOUT_VTX_NORMAL_COLOR GL_TRIANGLES handle
        (fun vb => vb.addVertexNormColor fvert fnorm (rgba i)))
    d

/-- The member `GlDrawable::addQuadFace(vtx, norm, rgba)` with one colour. -/
def addQuadFace (d : GlDrawable) (handle : ℕ) (vtx : ℕ → Float3) (norm : Float3)
    (rgba : Float4) : GlDrawable :=
  let fnorm : Float3 := (norm.1, norm.2.1, norm.2.2)
  let indices := [0, 1, 2, 0, 2, 3]
  indices.foldl
    (fun d i =>
      let fvert : Float3 := ((vtx i).1, (vtx i).2.1, (vtx i).2.2)
      d.onBuffer LAYOUT_VTX_NORMAL_COLOR GL_TRIANGLES handle
        (fun vb => vb.addVertexNormColor fvert fnorm rgba))
    d

/-- The member `GlDrawable::addQuad(vtx, norm, texcoord)` with texture
coordinates. -/
def addQuadTex (d : GlDrawable) (handle : ℕ) (vtx : ℕ → Float3) (norm : Float3)
    (texcoord : ℕ → ℚ) : GlDrawable :=
  let fnorm : Float3 := (norm.1, norm.2.1, norm.2.2)
  let indices := [0, 1, 2, 0, 2, 3]
  indices.foldl
    (fun d i =>
      let fvert : Float3 := ((vtx i).1, (vtx i).2.1, (vtx i).2.2)
      d.onBuffer LAYOUT_VTX_NORMAL_TEXTURE0 GL_TRIANGLES handle
        (fun vb => vb.addVertexNormTex fvert fnorm (texcoord i)))
    d

/-- The member `GlDrawable::clear()`: every buffer and the text buffer are
cleared. -/
def clear (d : GlDrawable) : GlDrawable :=
  { buffers := fun l s => (d.buffers l s).map VertexBuffer.clear,
    text_buffer := d.text_buffer.clear }

end GlDrawable

/-- A call of a primitive-adding member of `GlDrawable` or of `clear`, with
its arguments; `handle` is the name `glGenBuffers` would give a new buffer. -/
inductive GlDrawableCall where
  | addLine (handle : ℕ) (v1 v2 : Float3)
  | addTriangle (handle : ℕ) (vtx : ℕ → Float3) (norm : Float3) (rgba : ℕ → Float4)
  | addTriangleTex (handle : ℕ) (vtx : ℕ → Float3) (norm : Float3) (texcoord : ℕ → ℚ)
  | addQuad (handle : ℕ) (vtx : ℕ → Float3) (norm : Float3) (rgba : ℕ → Float4)
  | addQuadFace (handle : ℕ) (vtx : ℕ → Float3) (norm : Float3) (rgba : Float4)
  | addQuadTex (handle : ℕ) (vtx : ℕ → Float3) (norm : Float3) (texcoord : ℕ → ℚ)
  | clear

namespace GlDrawableCall

/-- The effect of a call on the drawable it is made on. -/
def apply (d : GlDrawable) : GlDrawableCall → GlDrawable
  | addLine h v1 v2 => d.addLine h v1 v2
  | addTriangle h vtx norm rgba => d.addTriangle h vtx norm rgba
  | addTriangleTex h vtx norm t => d.addTriangleTex h vtx norm t
  | addQuad h vtx norm rgba => d.addQuad h vtx norm rgba
  | addQuadFace h vtx norm rgba => d.addQuadFace h vtx norm rgba
  | addQuadTex h vtx norm t => d.addQuadTex h vtx norm t
  | clear => d.clear

/-- The drawable after a sequence of calls, made in list order. -/
def run (d : GlDrawable) (calls : List GlDrawableCall) : GlDrawable :=
  calls.foldl apply d

/-- A table of vertex counts per `(layout, shape)` with `k` more at
`(layout, shape)`. -/
def bump (layout : array_layout) (shape : GLenum) (k : ℕ) (n : array_layout → GLenum → ℕ) :
    array_layout → GLenum → ℕ :=
  fun l s => if l = layout ∧ s = shape then n l s + k else n l s

/-- The vertices a call offers: `addLine` 2 line vertices, `addTriangle` 3 and
`addQuad`, `addQuadFace` 6 triangle vertices of their layout; `clear` resets
every count. -/
def offeredStep (n : array_layout → GLenum → ℕ) : GlDrawableCall → array_layout → GLenum → ℕ
  | addLine _ _ _ => bump LAYOUT_VTX GL_LINES 2 n
  | addTriangle _ _ _ _ => bump LAYOUT_VTX_NORMAL_COLOR GL_TRIANGLES 3 n
  | addTriangleTex _ _ _ _ => bump LAYOUT_VTX_NORMAL_TEXTURE0 GL_TRIANGLES 3 n
  | addQuad _ _ _ _ => bump LAYOUT_VTX_NORMAL_COLOR GL_TRIANGLES 6 n
  | addQuadFace _ _ _ _ => bump LAYOUT_VTX_NORMAL_COLOR GL_TRIANGLES 6 n
  | addQuadTex _ _ _ _ => bump LAYOUT_VTX_NORMAL_TEXTURE0 GL_TRIANGLES 6 n
  | clear => fun _ _ => 0

/-- The number of vertices offered to each `(layout, shape)` buffer since the
last `clear`, along a sequence of calls on an empty drawable. -/
def offered (calls : List GlDrawableCall) : array_layout → GLenum → ℕ :=
  calls.foldl offeredStep (fun _ _ => 0)

end GlDrawableCall

/-- A call of an inline member of `GlBuilder`, with its arguments. -/
inductive GlBuilderCall where
  | glBegin (e : GLenum)
  | glVertex3d (x y z : ℚ)
  | glVertex3dv (d : Float3)
  | glNormal3d (nx ny nz : ℚ)
  | glNormal3dv (d : Float3)
  | glColor3f (r g b : ℚ)
  | glColor4fv (rgba : Float4)
  | glTexCoord1f (coord : ℚ)
deriving DecidableEq, Repr

namespace GlBuilderCall

/-- The effect of a call on the builder it is made on. -/
def apply (b : GlBuilder) : GlBuilderCall → GlBuilder
  | glBegin e => b.glBegin e
  | glVertex3d x y z => b.glVertex3d x y z
  | glVertex3dv d => b.glVertex3dv d
  | glNormal3d nx ny nz => b.glNormal3d nx ny nz
  | glNormal3dv d => b.glNormal3dv d
  | glColor3f r g bl => b.glColor3f r g bl
  | glColor4fv rgba => b.glColor4fv rgba
  | glTexCoord1f coord => b.glTexCoord1f coord

/-- The builder after a sequence of calls, made in list order. -/
def run (b : GlBuilder) (calls : List GlBuilderCall) : GlBuilder :=
  calls.foldl apply b

end GlBuilderCall

/-- The drawable keeps, at every `(layout, shape)`, a buffer of that layout
holding exactly the `n layout shape` vertices offered to it, and no buffer
where none was offered. -/
def GlDrawable.Holds (d : GlDrawable) (n : array_layout → GLenum → ℕ) : Prop :=
  ∀ (L : array_layout) (s : GLenum),
    (∀ vb : VertexBuffer, d.buffers L s = some vb →
      vb._layout = L ∧ vb._pt_data.length = strideFloats L * n L s) ∧
    (d.buffers L s = none → n L s = 0)

/-- The line count of the table is a multiple of 2 and every triangle count a
multiple of 3. -/
def WholePrimitives (n : array_layout → GLenum → ℕ) : Prop :=
  2 ∣ n LAYOUT_VTX GL_LINES ∧ ∀ L : array_layout, 3 ∣ n L GL_TRIANGLES

/-- A sample sequence of drawable calls: a line, a clear, a coloured quad and
a coloured triangle. -/
def sampleDrawableCalls : List GlDrawableCall :=
  [GlDrawableCall.addLine 1 (0, 0, 0) (1, 0, 0),
   GlDrawableCall.clear,
   GlDrawableCall.addQuad 2 (fun i => (i, 0, 0)) (0, 0, 1) (fun _ => (1, 0, 0, 1)),
   GlDrawableCall.addTriangle 3 (fun i => (i, 1, 0)) (0, 0, 1) (fun _ => (0, 1, 0, 1))]

/-- A sample sequence of builder calls: colour mode, then an attempt to
switch to texcoord mode after a vertex was emitted. -/
def sampleBuilderCalls : List GlBuilderCall :=
  [GlBuilderCall.glColor4fv (1, 0, 0, 1), GlBuilderCall.glBegin GL_LINES,
   GlBuilderCall.glVertex3d 0 0 0, GlBuilderCall.glTexCoord1f (1 / 2),
   GlBuilderCall.glVertex3d 1 0 0]

/-! ## `lib/gl/renderer_core.cpp`: the shader program builder -/

/-- The OpenGL constant `GL_VERTEX_SHADER` (0x8B31), declared in the platform
headers. -/
def GL_VERTEX_SHADER : GLenum := 35633
/-- The OpenGL constant `GL_FRAGMENT_SHADER` (0x8B30), declared in the
platform headers. -/
def GL_FRAGMENT_SHADER : GLenum := 35632

namespace Shader

/-- A `std::string`, as the list of its characters. -/
abbrev Text := List Char

/-- The text `s` begins with the text `pat`. -/
def startsWith : Text → Text → Bool
  | [], _ => true
  | _ :: _, [] => false
  | p :: ps, c :: cs => decide (p = c) && startsWith ps cs

/-- The scan of `regexReplace` over the rest of the text; `skip` characters
of an occurrence already replaced are still to be passed over. -/
def replaceFrom (pat rep : Text) : ℕ → Text → Text
  | _, [] => []
  | skip + 1, _ :: cs => replaceFrom pat rep skip cs
  | 0, c :: cs =>
    if !pat.isEmpty && startsWith pat (c :: cs) then
      rep ++ replaceFrom pat rep (pat.length - 1) cs
    else c :: replaceFrom pat rep 0 cs

/-- The call `std::regex_replace(s, std::regex(pat), rep)` for a pattern that
matches the literal text `pat` only and a replacement without `$`: every
occurrence of `pat`, found from left to right without overlap, is replaced by
`rep`. -/
def regexReplace (s pat rep : Text) : Text :=
  replaceFrom pat rep 0 s

/-- The call `std::to_string(n)` for an `int`. -/
def to_string (n : ℤ) : Text :=
  (toString n).toList

/-- The shader fragments that the source includes from `shaders/`, files that
are not part of the sources at hand; they are opaque texts. -/
structure Fragments where
  BLINN_PHONG_FS : Text
  CLIP_PLANE_FS : Text
  CLIP_PLANE_VS : Text

/-- The constant `GLSL_HEADER`, for the build with `__EMSCRIPTEN__` (`web`)
and for the one without. -/
def GLSL_HEADER (web : Bool) : Text :=
  if web then "precision mediump float;\n".toList else "#version GLSL_VER\n".toList

/-- The literal matched by the regex of the lighting placeholder. -/
def blinnPhongDecl : Text := "vec4 blinnPhong(in vec3 pos, in vec3 norm, in vec4 color);".toList
/-- The literal matched by the regex of the fragment clip-plane placeholder. -/
def fragmentClipPlaneDecl : Text := "void fragmentClipPlane();".toList
/-- The literal matched by the regex of the vertex clip-plane placeholder. -/
def setupClipPlaneDecl : Text := "void setupClipPlane(in float dist);".toList
/-- The keyword `attribute`. -/
def kwAttribute : Text := "attribute".toList
/-- The keyword `varying`. -/
def kwVarying : Text := "varying".toList
/-- The keyword `in`. -/
def kwIn : Text := "in".toList
/-- The keyword `out`. -/
def kwOut : Text := "out".toList
/-- The built-in output `gl_FragColor`. -/
def kwGlFragColor : Text := "gl_FragColor".toList
/-- The output name `fragColor`. -/
def kwFragColor : Text := "fragColor".toList
/-- The sampling call `texture2D`. -/
def kwTexture2D : Text := "texture2D".toList
/-- The sampling call `texture`. -/
def kwTexture : Text := "texture".toList
/-- The placeholder `GLSL_VER` of the header. -/
def kwGlslVer : Text := "GLSL_VER".toList
/-- The output declaration prepended for dialects between 130 and 330. -/
def fragColorDecl : Text := "out vec4 fragColor;\n".toList
/-- The output declaration prepended for dialects from 330 on. -/
def fragColorDeclLocation : Text := "layout(location = 0) out vec4 fragColor;\n".toList

/-- The function `formatShaderString(shader_string, shader_type, glsl_version)`;
the empty result of the third branch is its `return {}`. -/
def formatShaderString (frag : Fragments) (web : Bool) (shader_string : Text)
    (shader_type : GLenum) (glsl_version : ℤ) : Text :=
  -- add lighting
  let formatted := regexReplace shader_string blinnPhongDecl frag.BLINN_PHONG_FS
  -- add clip plane
  let formatted := regexReplace formatted fragmentClipPlaneDecl frag.CLIP_PLANE_FS
  let formatted := regexReplace formatted setupClipPlaneDecl frag.CLIP_PLANE_VS
  -- the statements after the version test: texture call and header
  let addHeader : Text → Text := fun formatted =>
    regexReplace (GLSL_HEADER web) kwGlslVer (to_string glsl_version) ++ formatted
  if glsl_version ≥ 130 then
    if shader_type = GL_VERTEX_SHADER then
      let formatted := regexReplace formatted kwAttribute kwIn
      let formatted := regexReplace formatted kwVarying kwOut
      let formatted := regexReplace formatted kwTexture2D kwTexture
      addHeader formatted
    else if shader_type = GL_FRAGMENT_SHADER then
      let formatted := regexReplace formatted kwVarying kwIn
      let formatted :=
        if glsl_version > 130 ∧ glsl_version < 330 then
          let formatted := fragColorDecl ++ formatted
          regexReplace formatted kwGlFragColor kwFragColor
        else if glsl_version ≥ 330 then
          let formatted := fragColorDeclLocation ++ formatted
          regexReplace formatted kwGlFragColor kwFragColor
        else formatted
      let formatted := regexReplace formatted kwTexture2D kwTexture
      addHeader formatted
    else
      []
  else
    addHeader formatted

/-- The version selection of `CoreGLDevice::compileShaders` from the detected
`ver_major`, `ver_minor`, for the build with `__EMSCRIPTEN__` (`web`) and for
the one without; `none` is the `return false` of the unsupported version. -/
def selectGlslVersion (web : Bool) (ver_major ver_minor : ℤ) : Option ℤ :=
  let opengl_ver := ver_major * 100 + ver_minor * 10
  if !web then
    if opengl_ver < 330 then
      if ver_major = 2 then some (opengl_ver - 90)
      else if ver_major = 3 then some (opengl_ver - 170)
      else none
    else some opengl_ver
  else
    if opengl_ver < 300 then some 100 else some 300

/-- What a run of `compileShaders` yields: its return value and the dialect
`glsl_ver` it compiled the shaders with, if it got that far. -/
structure CompileResult where
  ok : Bool
  glsl_ver : Option ℤ
deriving DecidableEq, Repr

/-- The member `CoreGLDevice::compileShaders()`; `link_default` and
`link_feedback` are the results of `linkShaders` for the two programs and
`has_feedback` the test `GLEW_EXT_transform_feedback || GLEW_VERSION_3_0`. -/
def compileShaders (web : Bool) (ver_major ver_minor : ℤ)
    (link_default has_feedback link_feedback : Bool) : CompileResult :=
  match selectGlslVersion web ver_major ver_minor with
  | none => { ok := false, glsl_ver := none }
  | some glsl_ver =>
    if !link_default then { ok := false, glsl_ver := some glsl_ver }
    else if has_feedback then
      if !link_feedback then { ok := false, glsl_ver := some glsl_ver }
      else { ok := true, glsl_ver := some glsl_ver }
    else { ok := true, glsl_ver := some glsl_ver }

end Shader

/-! ## `lib/gl/renderer_core.cpp`: the device buffer manager -/

/-- Modelled from the spec: the fixed attribute binding slots of
`CoreGLDevice` (position, text-glyph vertex, normal, colour, texcoord and
glyph texcoord), whose values are in the missing header. -/
inductive ShaderAttrib where
  | ATTR_VERTEX
  | ATTR_TEXT_VERTEX
  | ATTR_NORMAL
  | ATTR_COLOR
  | ATTR_TEXCOORD0
  | ATTR_TEXCOORD1
deriving DecidableEq, Repr

open ShaderAttrib

/-- A command issued to the graphics API.  `glVertexAttribConst` stands for
`glVertexAttrib3f`, `glVertexAttrib4f` and `glVertexAttrib4fv`; of
`glVertexAttribPointer` only the slot is kept, and of `glBufferData` the byte
size and whether a data pointer was given. -/
inductive GLCmd where
  | glGenBuffers (handle : ℕ)
  | glBindBuffer (handle : ℕ)
  | glBufferData (size : ℕ) (withData : Bool)
  | glVertexAttribConst (index : ShaderAttrib)
  | glEnableVertexAttribArray (index : ShaderAttrib)
  | glDisableVertexAttribArray (index : ShaderAttrib)
  | glVertexAttribPointer (index : ShaderAttrib)
  | glDrawArrays (shape : GLenum) (count : ℕ)
  | glUniform1i (name : String) (value : ℤ)
deriving DecidableEq, Repr

/-- The set of enabled vertex-attribute arrays after one command. -/
def GLCmd.enabledStep (enabled : Finset ShaderAttrib) : GLCmd → Finset ShaderAttrib
  | GLCmd.glEnableVertexAttribArray a => insert a enabled
  | GLCmd.glDisableVertexAttribArray a => enabled.erase a
  | _ => enabled

/-- The set of enabled vertex-attribute arrays after a sequence of commands. -/
def enabledAfter (enabled : Finset ShaderAttrib) (cmds : List GLCmd) : Finset ShaderAttrib :=
  cmds.foldl GLCmd.enabledStep enabled

/-- Modelled from the spec: whether the vertex type of a layout has the
member `norm`. -/
def hasNorm : array_layout → Bool
  | LAYOUT_VTX_NORMAL | LAYOUT_VTX_NORMAL_COLOR | LAYOUT_VTX_NORMAL_TEXTURE0 => true
  | _ => false

/-- Modelled from the spec: whether the vertex type of a layout has the
member `color`. -/
def hasColor : array_layout → Bool
  | LAYOUT_VTX_COLOR | LAYOUT_VTX_NORMAL_COLOR => true
  | _ => false

/-- Modelled from the spec: whether the vertex type of a layout has the
member `texCoord`. -/
def hasTexCoord : array_layout → Bool
  | LAYOUT_VTX_TEXTURE0 | LAYOUT_VTX_NORMAL_TEXTURE0 => true
  | _ => false

/-- The function `setup()` of an attribute trait: of `attr_exist` when the
attribute is present, of `attr_base` (a no-op) when it is not. -/
def attrSetup (present : Bool) (AttrIdx : ShaderAttrib) : List GLCmd :=
  if present then
    [GLCmd.glEnableVertexAttribArray AttrIdx, GLCmd.glVertexAttribPointer AttrIdx]
  else []

/-- The function `clear()` of an attribute trait. -/
def attrClear (present : Bool) (AttrIdx : ShaderAttrib) : List GLCmd :=
  if present then [GLCmd.glDisableVertexAttribArray AttrIdx] else []

/-- The function `setupVtxAttrLayout<TVtx>()`. -/
def setupVtxAttrLayout (layout : array_layout) : List GLCmd :=
  attrSetup true ATTR_VERTEX ++ attrSetup (hasNorm layout) ATTR_NORMAL
    ++ attrSetup (hasColor layout) ATTR_COLOR ++ attrSetup (hasTexCoord layout) ATTR_TEXCOORD0

/-- The function `clearVtxAttrLayout<TVtx>()`. -/
def clearVtxAttrLayout (layout : array_layout) : List GLCmd :=
  attrClear true ATTR_VERTEX ++ attrClear (hasNorm layout) ATTR_NORMAL
    ++ attrClear (hasColor layout) ATTR_COLOR ++ attrClear (hasTexCoord layout) ATTR_TEXCOORD0

/-- The function `drawDeviceBufferImpl<T>(buf)`. -/
def drawDeviceBufferImpl (layout : array_layout) (buf : IVertexBuffer) : List GLCmd :=
  (if !hasNorm layout then [GLCmd.glVertexAttribConst ATTR_NORMAL] else [])
    ++ (if !hasColor layout && hasTexCoord layout then [GLCmd.glVertexAttribConst ATTR_COLOR]
        else [])
    ++ setupVtxAttrLayout layout
    ++ [GLCmd.glDrawArrays buf.shape buf.count]
    ++ clearVtxAttrLayout layout

/-- Modelled from the spec: the text buffer as the device routines see it,
with its handle, its entries, its vertex count and its stride. -/
structure DeviceTextBuffer where
  handle : ℕ
  entries : List TextEntry
  count : ℕ
  stride : ℕ
deriving DecidableEq, Repr

/-- Modelled from the spec: the record `GlVisFont::glyph` of the glyph-metrics
provider: advance, bearing, pixel width and height, atlas texel coordinate. -/
structure Glyph where
  adv_x : ℚ
  adv_y : ℚ
  bear_x : ℚ
  bear_y : ℚ
  w : ℚ
  h : ℚ
  tex_x : ℚ
deriving DecidableEq, Repr

/-- Modelled from the spec: the glyph-metrics provider `GlVisFont`, with the
lookup `GetTexChar` and the atlas dimensions. -/
structure GlVisFont where
  GetTexChar : Char → Glyph
  atlasWidth : ℚ
  atlasHeight : ℚ

namespace CoreGLDevice

/-- The member `CoreGLDevice::bufferToDevice(layout, buf)`: the buffer with
its handle after the call and the commands issued; `fresh` is the name that
`glGenBuffers` writes. -/
def bufferToDevice (_layout : array_layout) (buf : IVertexBuffer) (fresh : ℕ) :
    IVertexBuffer × List GLCmd :=
  if buf.count = 0 then (buf, [])
  else
    let gen : IVertexBuffer × List GLCmd :=
      if buf.handle = 0 then ({ buf with handle := fresh }, [GLCmd.glGenBuffers fresh])
      else (buf, [])
    let buf := gen.1
    (buf, gen.2 ++ [GLCmd.glBindBuffer buf.handle, GLCmd.glBufferData 0 false,
      GLCmd.glBufferData (buf.count * buf.stride) true])

/-- The member `CoreGLDevice::drawDeviceBuffer(layout, buf)`: the commands
issued. -/
def drawDeviceBuffer (layout : array_layout) (buf : IVertexBuffer) : List GLCmd :=
  if buf.handle = 0 then []
  else if buf.count = 0 then []
  else
    [GLCmd.glBindBuffer buf.handle]
      ++ (if layout = LAYOUT_VTX ∨ layout = LAYOUT_VTX_NORMAL then
            [GLCmd.glVertexAttribConst ATTR_COLOR]
          else [])
      ++ drawDeviceBufferImpl layout buf

/-- The member `CoreGLDevice::drawDeviceBuffer(t_buf)` for text, of
`lib/gl/renderer_core.cpp`: the commands issued. -/
def drawDeviceBufferText (t_buf : DeviceTextBuffer) : List GLCmd :=
  if t_buf.handle = 0 then []
  else if t_buf.count = 0 then []
  else
    [GLCmd.glUniform1i "containsText" 1,
     GLCmd.glEnableVertexAttribArray ATTR_VERTEX,
     GLCmd.glEnableVertexAttribArray ATTR_TEXT_VERTEX,
     GLCmd.glEnableVertexAttribArray ATTR_TEXCOORD0,
     GLCmd.glBindBuffer t_buf.handle,
     GLCmd.glVertexAttribConst ATTR_COLOR,
     GLCmd.glVertexAttribPointer ATTR_VERTEX,
     GLCmd.glVertexAttribPointer ATTR_TEXT_VERTEX,
     GLCmd.glVertexAttribPointer ATTR_TEXCOORD0,
     GLCmd.glDrawArrays GL_TRIANGLES t_buf.count,
     GLCmd.glDisableVertexAttribArray ATTR_TEXT_VERTEX,
     GLCmd.glDisableVertexAttribArray ATTR_TEXCOORD0,
     GLCmd.glUniform1i "containsText" 0]

/-- The member `CoreGLDevice::drawDeviceBuffer(t_buf)` for text, of the older
`lib/renderer_core.cpp`: the commands issued. -/
def drawDeviceBufferTextOld (t_buf : DeviceTextBuffer) : List GLCmd :=
  if t_buf.count = 0 then []
  else
    [GLCmd.glEnableVertexAttribArray ATTR_VERTEX,
     GLCmd.glEnableVertexAttribArray ATTR_TEXT_VERTEX,
     GLCmd.glEnableVertexAttribArray ATTR_TEXCOORD1,
     GLCmd.glBindBuffer t_buf.handle,
     GLCmd.glVertexAttribConst ATTR_COLOR,
     GLCmd.glVertexAttribPointer ATTR_VERTEX,
     GLCmd.glVertexAttribPointer ATTR_TEXT_VERTEX,
     GLCmd.glVertexAttribPointer ATTR_TEXCOORD1,
     GLCmd.glDrawArrays GL_TRIANGLES t_buf.count,
     GLCmd.glDisableVertexAttribArray ATTR_TEXT_VERTEX,
     GLCmd.glDisableVertexAttribArray ATTR_TEXCOORD1]

/-- The array `tris` of `bufferToDevice(TextBuffer&)`: 6 rows of 8 floats. -/
def glyphTris (e : TextEntry) (cur_x cur_y : ℚ) (g : Glyph) (tex_w tex_h : ℚ) : List ℚ :=
  [e.rx, e.ry, e.rz, cur_x, -cur_y, g.tex_x, 0, 0,
   e.rx, e.ry, e.rz, cur_x + g.w, -cur_y, g.tex_x + g.w / tex_w, 0, 0,
   e.rx, e.ry, e.rz, cur_x, -cur_y - g.h, g.tex_x, g.h / tex_h, 0,
   e.rx, e.ry, e.rz, cur_x + g.w, -cur_y, g.tex_x + g.w / tex_w, 0, 0,
   e.rx, e.ry, e.rz, cur_x, -cur_y - g.h, g.tex_x, g.h / tex_h, 0,
   e.rx, e.ry, e.rz, cur_x + g.w, -cur_y - g.h, g.tex_x + g.w / tex_w, g.h / tex_h, 0]

/-- The body of the loop `for (char c : e.text)` of
`bufferToDevice(TextBuffer&)` on the pen position `x`, `y` and the data
`buf_data`. -/
def textCharStep (font : GlVisFont) (tex_w tex_h : ℚ) (e : TextEntry)
    (st : ℚ × ℚ × List ℚ) (c : Char) : ℚ × ℚ × List ℚ :=
  let x := st.1
  let y := st.2.1
  let buf_data := st.2.2
  let g := font.GetTexChar c
  let cur_x := x + g.bear_x
  let cur_y := -y - g.bear_y
  let x := x + g.adv_x
  let y := y + g.adv_y
  if g.w = 0 ∨ g.h = 0 then (x, y, buf_data)
  else (x, y, buf_data ++ glyphTris e cur_x cur_y g tex_w tex_h)

/-- The body of the loop `for (auto &e : t_buf)`: the data after the entry
`e`. -/
def textEntryStep (font : GlVisFont) (tex_w tex_h : ℚ) (buf_data : List ℚ) (e : TextEntry) :
    List ℚ :=
  (e.text.toList.foldl (textCharStep font tex_w tex_h e) (0, 0, buf_data)).2.2

/-- The vector `buf_data` that `bufferToDevice(TextBuffer&)` builds. -/
def textBufferData (font : GlVisFont) (t_buf : DeviceTextBuffer) : List ℚ :=
  let tex_w := font.atlasWidth
  let tex_h := font.atlasHeight
  t_buf.entries.foldl (textEntryStep font tex_w tex_h) []

/-- The member `CoreGLDevice::bufferToDevice(t_buf)` for text: the buffer
with its handle after the call, the data uploaded and the commands issued;
`sizeof(float)` is 4. -/
def bufferToDeviceText (font : GlVisFont) (t_buf : DeviceTextBuffer) (fresh : ℕ) :
    DeviceTextBuffer × List ℚ × List GLCmd :=
  let buf_data := textBufferData font t_buf
  if buf_data.length = 0 then (t_buf, buf_data, [])
  else
    let gen : DeviceTextBuffer × List GLCmd :=
      if t_buf.handle = 0 then ({ t_buf with handle := fresh }, [GLCmd.glGenBuffers fresh])
      else (t_buf, [])
    let t_buf := gen.1
    (t_buf, buf_data,
      gen.2 ++ [GLCmd.glBindBuffer t_buf.handle, GLCmd.glBufferData (4 * buf_data.length) true])

end CoreGLDevice

/-! ## Vocabulary and sample inputs of the shader and device properties -/

/-- The test `(va.clipCoord < 0.f) == (vb.clipCoord < 0.f)` of the mixed-sign
branch of `processTriangleXfbBuffer`: both vertices are on the same side. -/
def SameSide (va vb : ShaderXfbVertex) : Prop :=
  decide (va.clipCoord < 0) = decide (vb.clipCoord < 0)

namespace Shader

/-- The placeholder-substituted source: the three placeholder declarations
replaced by the shared fragments. -/
def substitutePlaceholders (frag : Fragments) (shader_string : Text) : Text :=
  regexReplace (regexReplace (regexReplace shader_string blinnPhongDecl frag.BLINN_PHONG_FS)
    fragmentClipPlaneDecl frag.CLIP_PLANE_FS) setupClipPlaneDecl frag.CLIP_PLANE_VS

/-- The version header: `GLSL_HEADER` with the dialect number filled in. -/
def versionHeader (web : Bool) (glsl_version : ℤ) : Text :=
  regexReplace (GLSL_HEADER web) kwGlslVer (to_string glsl_version)

/-- A fragment shader body that writes `gl_FragColor` from a `varying`. -/
def sampleFragmentSource : Text := "varying vec4 c; gl_FragColor = texture2D(t, c.xy);".toList

/-- A vertex shader body with an `attribute` and a `varying`. -/
def sampleVertexSource : Text := "attribute vec3 v; varying vec4 c;".toList

/-- Sample shared fragments. -/
def sampleFragments : Fragments :=
  { BLINN_PHONG_FS := "vec4 blinnPhong();".toList, CLIP_PLANE_FS := "void fcp();".toList,
    CLIP_PLANE_VS := "void scp();".toList }

end Shader

/-- A buffer without vertices that was never uploaded. -/
def sampleEmptyBuffer : IVertexBuffer :=
  { handle := 0, shape := GL_TRIANGLES, count := 0, stride := 32 }

/-- A buffer of 3 vertices that was never uploaded. -/
def sampleFreshBuffer : IVertexBuffer :=
  { handle := 0, shape := GL_TRIANGLES, count := 3, stride := 32 }

/-- A text buffer of 6 vertices that was uploaded under the handle 5. -/
def sampleTextBuffer : DeviceTextBuffer :=
  { handle := 5, entries := [⟨0, 0, 0, "a", none, none⟩], count := 6, stride := 32 }

/-- The pen abscissa before the character of index `i`: the sum of `adv_x`
over the characters before it. -/
def penX (font : GlVisFont) (cs : List Char) (i : ℕ) : ℚ :=
  ((cs.take i).map (fun c => (font.GetTexChar c).adv_x)).sum

/-- The pen ordinate before the character of index `i`: the sum of `adv_y`
over the characters before it. -/
def penY (font : GlVisFont) (cs : List Char) (i : ℕ) : ℚ :=
  ((cs.take i).map (fun c => (font.GetTexChar c).adv_y)).sum

/-- One vertex of a glyph rectangle, 8 floats: the anchor of the entry, the
offset `X, Y` of the corner, the atlas coordinate `u, v` and a zero. -/
def glyphVertex (e : TextEntry) (X Y u v : ℚ) : List ℚ :=
  [e.rx, e.ry, e.rz, X, Y, u, v, 0]

/-- The six vertices of the rectangle with the given left and top edge and the
width and height of the glyph, the bottom edge lying at `top - h`: the
triangles top-left, top-right, bottom-left and top-right, bottom-left,
bottom-right. -/
def glyphQuad (e : TextEntry) (left top : ℚ) (g : Glyph) (tex_w tex_h : ℚ) : List (List ℚ) :=
  let topLeft := glyphVertex e left top g.tex_x 0
  let topRight := glyphVertex e (left + g.w) top (g.tex_x + g.w / tex_w) 0
  let bottomLeft := glyphVertex e left (top - g.h) g.tex_x (g.h / tex_h)
  let bottomRight := glyphVertex e (left + g.w) (top - g.h) (g.tex_x + g.w / tex_w)
    (g.h / tex_h)
  [topLeft, topRight, bottomLeft, topRight, bottomLeft, bottomRight]

/-- The vertices that the character of index `i` of the text `cs` expands to:
none for a glyph of zero width or height, else the rectangle at the pen
position plus the bearing. -/
def glyphExpansion (font : GlVisFont) (e : TextEntry) (cs : List Char) (i : ℕ) :
    List (List ℚ) :=
  let g := font.GetTexChar (cs.getD i default)
  if g.w = 0 ∨ g.h = 0 then []
  else glyphQuad e (penX font cs i + g.bear_x) (penY font cs i + g.bear_y) g
    font.atlasWidth font.atlasHeight

/-- The floats of a text entry: the expansions of its characters in order. -/
def entryExpansion (font : GlVisFont) (e : TextEntry) : List ℚ :=
  ((List.range e.text.toList.length).map
    (fun i => (glyphExpansion font e e.text.toList i).flatten)).flatten

/-- A blank: an advance of 3 and no extent. -/
def sampleBlank : Glyph :=
  { adv_x := 3, adv_y := 0, bear_x := 0, bear_y := 0, w := 0, h := 0, tex_x := 0 }

/-- A glyph 2 wide and 4 high with an advance of 5. -/
def sampleLetter : Glyph :=
  { adv_x := 5, adv_y := 0, bear_x := 1, bear_y := 4, w := 2, h := 4, tex_x := 1 / 4 }

/-- A font that has the blank glyph for the space character and the letter
glyph for every other character, in an atlas of 8 by 8. -/
def sampleFont : GlVisFont :=
  { GetTexChar := fun c => if c = Char.ofNat 32 then sampleBlank else sampleLetter,
    atlasWidth := 8, atlasHeight := 8 }

open CoreGLDevice

/-! ## Theorems: `VertexBuffer` -/

/-- C1: a call of an `addVertex`/`addVertexNorm` overload on a buffer whose
layout is not the one the overload is for drops the vertex: the buffer is
returned as it was, so the stored float sequence, the layout and the buffered
size are unchanged. -/
theorem addVertex_mismatch_drops (vb : VertexBuffer) (c : VertexBufferCall)
    (L : array_layout) (hc : c.layoutFor = some L) (hne : vb._layout ≠ L) :
    c.apply vb = vb ∧ (c.apply vb)._pt_data = vb._pt_data ∧
      (c.apply vb)._layout = vb._layout ∧
      (c.apply vb)._buffered_size = vb._buffered_size := by
  have h : c.apply vb = vb := by
    cases c <;>
      simp only [VertexBufferCall.layoutFor, Option.some.injEq] at hc <;>
      first
        | (subst hc
           simp [VertexBufferCall.apply, VertexBuffer.addVertex, VertexBuffer.addVertexRef,
             VertexBuffer.addVertexColor, VertexBuffer.addVertexColorRef,
             VertexBuffer.addVertexTex, VertexBuffer.addVertexTexRef,
             VertexBuffer.addVertexNorm, VertexBuffer.addVertexNormColor,
             VertexBuffer.addVertexNormTex, hne])
        | (exact absurd hc (by simp))
  rw [h]
  exact ⟨rfl, rfl, rfl, rfl⟩

/-- Witness of C1: a colour vertex offered to a `VTX_NORMAL` buffer holding
one record is dropped. -/
theorem addVertex_mismatch_drops_witness :
    (VertexBufferCall.addVertexColor (1, 2, 3) (1, 0, 0, 1)).layoutFor = some LAYOUT_VTX_COLOR ∧
    ((VertexBuffer.new LAYOUT_VTX_NORMAL 7).addVertexNorm (0, 0, 0) (0, 0, 1))._layout
      ≠ LAYOUT_VTX_COLOR ∧
    (VertexBufferCall.addVertexColor (1, 2, 3) (1, 0, 0, 1)).apply
      ((VertexBuffer.new LAYOUT_VTX_NORMAL 7).addVertexNorm (0, 0, 0) (0, 0, 1))
      = (VertexBuffer.new LAYOUT_VTX_NORMAL 7).addVertexNorm (0, 0, 0) (0, 0, 1) :=
  ⟨rfl, by simp [VertexBuffer.new, VertexBuffer.addVertexNorm],
    (addVertex_mismatch_drops _ (VertexBufferCall.addVertexColor (1, 2, 3) (1, 0, 0, 1))
      LAYOUT_VTX_COLOR rfl (by simp [VertexBuffer.new, VertexBuffer.addVertexNorm])).1⟩


/-- One call either clears the data, or appends one record of the stride of
the buffer layout (the overload is the one for the layout), or changes
nothing; the layout is kept. -/
theorem VertexBufferCall.apply_step (vb : VertexBuffer) (c : VertexBufferCall) :
    (c.apply vb)._layout = vb._layout ∧
    ((c = VertexBufferCall.clear ∧ (c.apply vb)._pt_data = []) ∨
     (c ≠ VertexBufferCall.clear ∧ c.layoutFor = some vb._layout ∧
        ∃ r : List FloatSlot, r.length = strideFloats vb._layout ∧
          (c.apply vb)._pt_data = vb._pt_data ++ r) ∨
     (c ≠ VertexBufferCall.clear ∧ c.layoutFor ≠ some vb._layout ∧
        (c.apply vb)._pt_data = vb._pt_data)) := by
  cases hl : vb._layout <;> cases c <;>
    simp [VertexBufferCall.apply, VertexBufferCall.layoutFor, VertexBuffer.addVertex,
      VertexBuffer.addVertexRef, VertexBuffer.addVertexColor, VertexBuffer.addVertexColorRef,
      VertexBuffer.addVertexTex, VertexBuffer.addVertexTexRef, VertexBuffer.addVertexNorm,
      VertexBuffer.addVertexNormColor, VertexBuffer.addVertexNormTex, VertexBuffer.clear,
      strideFloats, hl]

/-- The record invariant is kept along any sequence of calls. -/
theorem VertexBufferCall.run_records (L : array_layout) (calls : List VertexBufferCall) :
    ∀ (vb : VertexBuffer) (n : ℕ) (recs : List (List FloatSlot)),
      vb._layout = L → vb._pt_data = recs.flatten → recs.length = n →
      (∀ r ∈ recs, r.length = strideFloats L) →
      ∃ recs1 : List (List FloatSlot),
        (VertexBufferCall.run vb calls)._pt_data = recs1.flatten ∧
        recs1.length = VertexBufferCall.acceptedFrom L n calls ∧
        (∀ r ∈ recs1, r.length = strideFloats L) ∧
        (VertexBufferCall.run vb calls)._layout = L := by
  induction calls with
  | nil =>
    intro vb n recs hL hd hn hall
    exact ⟨recs, hd, hn, hall, hL⟩
  | cons c rest ih =>
    intro vb n recs hL hd hn hall
    obtain ⟨hlay, hstep⟩ := VertexBufferCall.apply_step vb c
    have hL1 : (c.apply vb)._layout = L := by rw [hlay, hL]
    simp only [VertexBufferCall.run, VertexBufferCall.acceptedFrom, List.foldl_cons]
    rcases hstep with ⟨hc, hdata⟩ | ⟨hc, hfor, r, hr, hdata⟩ | ⟨hc, hfor, hdata⟩
    · have := ih (c.apply vb) 0 [] hL1 (by simpa using hdata) rfl (by simp)
      simpa [VertexBufferCall.run, VertexBufferCall.acceptedFrom, hc] using this
    · have := ih (c.apply vb) (n + 1) (recs ++ [r]) hL1
        (by rw [hdata, hd]; simp) (by simp [hn])
        (by
          intro r1 hr1
          rcases List.mem_append.mp hr1 with h | h
          · exact hall r1 h
          · rw [List.mem_singleton.mp h, hr, hL])
      rw [hL] at hfor
      simpa [VertexBufferCall.run, VertexBufferCall.acceptedFrom, hc, hfor] using this
    · have := ih (c.apply vb) n recs hL1 (by rw [hdata, hd]) hn hall
      rw [hL] at hfor
      simpa [VertexBufferCall.run, VertexBufferCall.acceptedFrom, hc, hfor] using this

/-- The length of a concatenation of records of one fixed length. -/
theorem length_flatten_of_fixed {α : Type} (k : ℕ) (recs : List (List α))
    (h : ∀ r ∈ recs, r.length = k) : recs.flatten.length = k * recs.length := by
  induction recs with
  | nil => simp
  | cons r rest ih =>
    have h1 : r.length = k := h r (List.mem_cons_self _ _)
    have h2 := ih (fun r1 hr1 => h r1 (List.mem_cons_of_mem _ hr1))
    simp [h1, h2, Nat.mul_succ, Nat.add_comm]

/-- C2: after any sequence of `addVertex`/`addVertexNorm`/`clear` calls on the
empty buffer of layout `L`, the stored floats are a concatenation of records
of `stride L` floats each, one per vertex accepted since the last `clear`; so
the stored float count is `stride L` times that number. -/
theorem vertexBuffer_stride_invariant (L : array_layout) (handle : ℕ)
    (calls : List VertexBufferCall) :
    ((VertexBufferCall.run (VertexBuffer.new L handle) calls)._pt_data.length
        = strideFloats L * VertexBufferCall.acceptedSinceClear L calls) ∧
    (VertexBufferCall.run (VertexBuffer.new L handle) calls)._layout = L ∧
    ∃ recs : List (List FloatSlot),
      (VertexBufferCall.run (VertexBuffer.new L handle) calls)._pt_data = recs.flatten ∧
      recs.length = VertexBufferCall.acceptedSinceClear L calls ∧
      ∀ r ∈ recs, r.length = strideFloats L := by
  obtain ⟨recs, hd, hn, hall, hL⟩ :=
    VertexBufferCall.run_records L calls (VertexBuffer.new L handle) 0 [] rfl rfl rfl (by simp)
  refine ⟨?_, hL, recs, hd, hn, hall⟩
  rw [hd, length_flatten_of_fixed (strideFloats L) recs hall, hn]
  rfl


/-! ## Theorems: colour packing -/

/-- A channel at or above 1 packs to 255. -/
theorem packChannel_of_one_le (v : ℚ) (h : 1 ≤ v) : packChannel v = some 255 := by
  simp [packChannel, h]

/-- A channel in `[0, 1)` packs to the floor of 256 times its value. -/
theorem packChannel_of_unit (v : ℚ) (h0 : 0 ≤ v) (h1 : v < 1) :
    packChannel v = some ⌊256 * v⌋.toNat ∧ ((⌊256 * v⌋.toNat : ℕ) : ℤ) = ⌊256 * v⌋ := by
  have hq : (0 : ℚ) ≤ v * 256 := by positivity
  have hfl0 : 0 ≤ ⌊v * 256⌋ := Int.floor_nonneg.mpr hq
  have hfl1 : ⌊v * 256⌋ < 2 ^ 8 := by
    rw [Int.floor_lt]
    push_cast
    linarith
  have hc : 0 ≤ ⌊v * 256⌋ ∧ ⌊v * 256⌋ < 2 ^ 8 := ⟨hfl0, hfl1⟩
  rw [mul_comm 256 v]
  refine ⟨?_, Int.toNat_of_nonneg hfl0⟩
  simp only [packChannel, ge_iff_le, not_le.mpr h1, if_false, toUint8, truncToInt, hq, if_true,
    hc, and_self]

/-- A negative channel above `-1/256` packs to 0: the product with 256 lies
above -1 and is rounded toward zero. -/
theorem packChannel_of_small_neg (v : ℚ) (h1 : -1 / 256 < v) (h2 : v < 0) :
    packChannel v = some 0 := by
  have hq : ¬ (0 : ℚ) ≤ v * 256 := by
    intro hc
    linarith
  have hv : ¬ (1 : ℚ) ≤ v := by
    intro hc
    linarith
  have hc : ⌈v * 256⌉ = 0 := by
    rw [Int.ceil_eq_iff]
    constructor
    · push_cast
      linarith
    · push_cast
      linarith
  simp [packChannel, hv, toUint8, truncToInt, hq, hc]

/-- A channel at or below `-1/256` has no packed byte: the product with 256
is at or below -1, which `uint8_t` cannot represent. -/
theorem packChannel_of_neg (v : ℚ) (h : v ≤ -1 / 256) : packChannel v = none := by
  have hq : ¬ (0 : ℚ) ≤ v * 256 := by
    intro hc
    linarith
  have hv : ¬ (1 : ℚ) ≤ v := by
    intro hc
    linarith
  have hc : ⌈v * 256⌉ < 0 := by
    have h1 : ⌈v * 256⌉ ≤ -1 := by
      rw [Int.ceil_le]
      push_cast
      linarith
    omega
  have hn : ¬ (0 ≤ ⌈v * 256⌉ ∧ ⌈v * 256⌉ < 2 ^ 8) := fun hh => absurd hh.1 (not_le.mpr hc)
  simp only [packChannel, ge_iff_le, hv, if_false, toUint8, truncToInt, hq, hn]

/-- C3, as the code has it: the packing treats the top of the range only.  A
channel `v >= 1` gives the byte 255, `0 <= v < 1` gives `floor (256 v)` and
`-1/256 < v < 0` gives 0, the product being rounded toward zero; for
`v <= -1/256` there is no clamp and the conversion to `uint8_t` has no defined
result.  Channel `i` goes to byte `i`, in `addVertex(vtx, rgba)`, in
`addVertex(vtx, norm, rgba)` and in `glVertex3d`. -/
theorem color_packing_rule (v : ℚ) (rgba : Float4) (vtx norm : Float3) (vb : VertexBuffer)
    (b : GlBuilder) (x y z : ℚ) :
    (1 ≤ v → packChannel v = some 255) ∧
    (0 ≤ v → v < 1 →
      ∃ byte : ℕ, packChannel v = some byte ∧ (byte : ℤ) = ⌊256 * v⌋) ∧
    (-1 / 256 < v → v < 0 → packChannel v = some 0) ∧
    (v ≤ -1 / 256 → packChannel v = none) ∧
    packRgba rgba = FloatSlot.rgba8 (packChannel rgba.1) (packChannel rgba.2.1)
      (packChannel rgba.2.2.1) (packChannel rgba.2.2.2) ∧
    (vb._layout = LAYOUT_VTX_COLOR →
      (vb.addVertexColor vtx rgba)._pt_data = vb._pt_data ++
        [FloatSlot.num vtx.1, FloatSlot.num vtx.2.1, FloatSlot.num vtx.2.2, packRgba rgba]) ∧
    (vb._layout = LAYOUT_VTX_NORMAL_COLOR →
      (vb.addVertexNormColor vtx norm rgba)._pt_data = vb._pt_data ++
        [FloatSlot.num vtx.1, FloatSlot.num vtx.2.1, FloatSlot.num vtx.2.2,
         FloatSlot.num norm.1, FloatSlot.num norm.2.1, FloatSlot.num norm.2.2,
         packRgba rgba, FloatSlot.num 0]) ∧
    (b.use_color = true →
      (b.glVertex3d x y z).pts = b.pts ++ b.stripDup ++
        [FloatSlot.num x, FloatSlot.num y, FloatSlot.num z] ++ b.normalPart ++
        [packRgba b.color] ++ b.padPart) := by
  refine ⟨packChannel_of_one_le v, fun h0 h1 => ⟨_, packChannel_of_unit v h0 h1⟩,
    packChannel_of_small_neg v, packChannel_of_neg v, rfl, ?_, ?_, ?_⟩
  · intro h
    simp [VertexBuffer.addVertexColor, h]
  · intro h
    simp [VertexBuffer.addVertexNormColor, h]
  · intro h
    cases hl : b.is_line <;> cases ht : b.use_color_tex <;>
      simp [GlBuilder.glVertex3d, GlBuilder.stripDup, GlBuilder.normalPart, GlBuilder.padPart,
        h, hl, ht] <;>
      split <;> simp

/-- Witness of C3 as amended: the rule at `v = 3/2`, `1/2`, `-1/512`, `-1/2`
and the packing sites on concrete buffers. -/
theorem color_packing_rule_witness :
    packChannel (3 / 2) = some 255 ∧
    (∃ byte : ℕ, packChannel (1 / 2) = some byte ∧ (byte : ℤ) = ⌊(256 : ℚ) * (1 / 2)⌋) ∧
    packChannel (-1 / 512) = some 0 ∧
    packChannel (-1 / 2) = none ∧
    ((VertexBuffer.new LAYOUT_VTX_COLOR 1).addVertexColor (1, 2, 3) (1, 0, 1 / 2, 1))._pt_data
      = [FloatSlot.num 1, FloatSlot.num 2, FloatSlot.num 3, packRgba (1, 0, 1 / 2, 1)] ∧
    ((VertexBuffer.new LAYOUT_VTX_NORMAL_COLOR 1).addVertexNormColor (1, 2, 3) (0, 0, 1)
        (1, 0, 1 / 2, 1))._pt_data
      = [FloatSlot.num 1, FloatSlot.num 2, FloatSlot.num 3, FloatSlot.num 0, FloatSlot.num 0,
         FloatSlot.num 1, packRgba (1, 0, 1 / 2, 1), FloatSlot.num 0] :=
  ⟨(color_packing_rule (3 / 2) (0, 0, 0, 0) (0, 0, 0) (0, 0, 0)
      (VertexBuffer.new LAYOUT_VTX 0) (GlBuilder.new 0 (0, 0, 0) (0, 0, 0, 0) 0) 0 0 0).1
      (by norm_num),
   (color_packing_rule (1 / 2) (0, 0, 0, 0) (0, 0, 0) (0, 0, 0)
      (VertexBuffer.new LAYOUT_VTX 0) (GlBuilder.new 0 (0, 0, 0) (0, 0, 0, 0) 0) 0 0 0).2.1
      (by norm_num) (by norm_num),
   (color_packing_rule (-1 / 512) (0, 0, 0, 0) (0, 0, 0) (0, 0, 0)
      (VertexBuffer.new LAYOUT_VTX 0) (GlBuilder.new 0 (0, 0, 0) (0, 0, 0, 0) 0) 0 0 0).2.2.1
      (by norm_num) (by norm_num),
   (color_packing_rule (-1 / 2) (0, 0, 0, 0) (0, 0, 0) (0, 0, 0)
      (VertexBuffer.new LAYOUT_VTX 0) (GlBuilder.new 0 (0, 0, 0) (0, 0, 0, 0) 0) 0 0 0).2.2.2.1
      (by norm_num),
   (color_packing_rule 0 (1, 0, 1 / 2, 1) (1, 2, 3) (0, 0, 1)
      (VertexBuffer.new LAYOUT_VTX_COLOR 1)
      (GlBuilder.new 0 (0, 0, 0) (0, 0, 0, 0) 0) 0 0 0).2.2.2.2.2.1 rfl,
   (color_packing_rule 0 (1, 0, 1 / 2, 1) (1, 2, 3) (0, 0, 1)
      (VertexBuffer.new LAYOUT_VTX_NORMAL_COLOR 1)
      (GlBuilder.new 0 (0, 0, 0) (0, 0, 0, 0) 0) 0 0 0).2.2.2.2.2.2.1 rfl⟩

/-- Counterexample to C3 as stated: the negative channel `-1/2` is not
clamped to 0.  The expression takes its second branch and converts the value
-128, which `uint8_t` cannot represent, so that the byte has no defined
value; in particular it is not the byte 0 of the claim. -/
theorem packChannel_negative_not_clamped :
    ¬ ((-1 / 2 : ℚ) ≥ 1) ∧
    truncToInt ((-1 / 2 : ℚ) * 256) = -128 ∧
    toUint8 ((-1 / 2 : ℚ) * 256) = none ∧
    packChannel (-1 / 2) = none ∧
    packChannel (-1 / 2) ≠ some 0 := by
  have ht : truncToInt ((-1 / 2 : ℚ) * 256) = -128 := by
    have h0 : ¬ (0 : ℚ) ≤ -1 / 2 * 256 := by norm_num
    simp only [truncToInt, h0, if_false]
    rw [Int.ceil_eq_iff]
    norm_num
  have hu : toUint8 ((-1 / 2 : ℚ) * 256) = none := by
    simp [toUint8, ht]
  have hp : packChannel (-1 / 2) = none := by
    have h1 : ¬ ((-1 / 2 : ℚ) ≥ 1) := by norm_num
    simp only [packChannel, h1, if_false, hu]
  refine ⟨by norm_num, ht, hu, hp, ?_⟩
  rw [hp]
  simp

/-- C4: a channel `v` in `[0, 1]` packed to the byte `b` and unpacked as
`b / 255` is recovered to within `1 / 255`; the value 1 packs to exactly 255,
and so does every value above 1. -/
theorem packChannel_roundtrip (v : ℚ) :
    (0 ≤ v → v ≤ 1 →
      ∃ b : ℕ, packChannel v = some b ∧ |(b : ℚ) / 255 - v| ≤ 1 / 255) ∧
    packChannel 1 = some 255 ∧
    (1 < v → packChannel v = some 255) := by
  refine ⟨?_, packChannel_of_one_le 1 le_rfl, fun h => packChannel_of_one_le v h.le⟩
  intro h0 h1
  rcases eq_or_lt_of_le h1 with h | h
  · subst h
    refine ⟨255, packChannel_of_one_le 1 le_rfl, ?_⟩
    norm_num
  · obtain ⟨hb, hz⟩ := packChannel_of_unit v h0 h
    refine ⟨_, hb, ?_⟩
    have hq : ((⌊256 * v⌋.toNat : ℕ) : ℚ) = ((⌊256 * v⌋ : ℤ) : ℚ) :=
      (Int.cast_natCast _).symm.trans (congrArg (fun n : ℤ => (n : ℚ)) hz)
    have hle : ((⌊256 * v⌋ : ℤ) : ℚ) ≤ 256 * v := Int.floor_le _
    have hlt : 256 * v < ((⌊256 * v⌋ : ℤ) : ℚ) + 1 := Int.lt_floor_add_one _
    rw [hq, abs_le]
    constructor
    · linarith
    · linarith

/-- Witness of C4: the channel `1/2` and the channel `2`. -/
theorem packChannel_roundtrip_witness :
    (∃ b : ℕ, packChannel (1 / 2) = some b ∧ |(b : ℚ) / 255 - 1 / 2| ≤ 1 / 255) ∧
    packChannel 2 = some 255 :=
  ⟨(packChannel_roundtrip (1 / 2)).1 (by norm_num) (by norm_num),
   (packChannel_roundtrip 2).2.2 (by norm_num)⟩


/-! ## Theorems: `GlBuilder` -/

/-- What `glVertex3d` stores: the old floats, the strip duplicate, and the
record of the new vertex. -/
theorem GlBuilder.glVertex3d_pts (b : GlBuilder) (x y z : ℚ) :
    (b.glVertex3d x y z).pts = b.pts ++ b.stripDup ++ b.vertexRecord x y z := by
  cases hl : b.is_line <;> cases hc : b.use_color <;> cases ht : b.use_color_tex <;>
    simp [GlBuilder.glVertex3d, GlBuilder.stripDup, GlBuilder.vertexRecord,
      GlBuilder.normalPart, GlBuilder.attrPart, GlBuilder.padPart, hl, hc, ht] <;>
    split <;> simp

/-- The record of a line vertex is its 4-float line record. -/
theorem GlBuilder.vertexRecord_line (b : GlBuilder) (x y z : ℚ) (hl : b.is_line = true) :
    b.vertexRecord x y z = b.lineRecord (x, y, z) := by
  cases hc : b.use_color <;> cases ht : b.use_color_tex <;>
    simp [GlBuilder.vertexRecord, GlBuilder.lineRecord, GlBuilder.lineSlot,
      GlBuilder.normalPart, GlBuilder.attrPart, GlBuilder.padPart, hl, hc, ht]

/-- C6: `glVertex3d` appends (after the strip duplicate) one record made of
the position, the normal for non-lines, the colour or texcoord slot, and one
zero pad float exactly when "is a line" disagrees with "carries a colour or
texcoord attribute"; the record has 4 floats for a line, 6 for a non-line
without colour or texcoord and 8 for a non-line with one, the position at
offset 0, the normal of a non-line at offset 3 and the colour or texcoord slot
directly after. -/
theorem glVertex3d_record_layout (b : GlBuilder) (x y z : ℚ) :
    (b.glVertex3d x y z).pts = b.pts ++ b.stripDup ++ b.vertexRecord x y z ∧
    (b.padPart = [FloatSlot.num 0] ↔ b.is_line ≠ (b.use_color || b.use_color_tex)) ∧
    (b.padPart = [] ↔ b.is_line = (b.use_color || b.use_color_tex)) ∧
    (b.vertexRecord x y z).length
      = GlBuilder.recordLength b.is_line (b.use_color || b.use_color_tex) ∧
    (b.vertexRecord x y z).take 3 = [FloatSlot.num x, FloatSlot.num y, FloatSlot.num z] ∧
    (b.is_line = false →
      ((b.vertexRecord x y z).drop 3).take 3
        = [FloatSlot.num b.norm.1, FloatSlot.num b.norm.2.1, FloatSlot.num b.norm.2.2]) ∧
    (b.use_color = true →
      (b.vertexRecord x y z)[if b.is_line then 3 else 6]? = some (packRgba b.color)) ∧
    (b.use_color = false → b.use_color_tex = true →
      (b.vertexRecord x y z)[if b.is_line then 3 else 6]? = some (FloatSlot.num b.texcoord)) := by
  refine ⟨GlBuilder.glVertex3d_pts b x y z, ?_, ?_, ?_, ?_, ?_, ?_, ?_⟩ <;>
    cases hl : b.is_line <;> cases hc : b.use_color <;> cases ht : b.use_color_tex <;>
    simp [GlBuilder.vertexRecord, GlBuilder.normalPart, GlBuilder.attrPart,
      GlBuilder.padPart, GlBuilder.recordLength, hl, hc, ht]

/-- Witness of C6: a non-line vertex in colour mode (8 floats, normal at
offset 3, colour at offset 6) and a line vertex in texcoord mode (texcoord at
offset 3). -/
theorem glVertex3d_record_layout_witness :
    (((((GlBuilder.new 0 (0, 0, 1) (1, 0, 0, 1) 0).glColor4fv (1, 0, 0, 1)).glBegin
          GL_TRIANGLES).vertexRecord 1 2 3).drop 3).take 3
      = [FloatSlot.num 0, FloatSlot.num 0, FloatSlot.num 1] ∧
    ((((GlBuilder.new 0 (0, 0, 1) (1, 0, 0, 1) 0).glColor4fv (1, 0, 0, 1)).glBegin
          GL_TRIANGLES).vertexRecord 1 2 3)[6]? = some (packRgba (1, 0, 0, 1)) ∧
    ((((GlBuilder.new 0 (0, 0, 1) (1, 0, 0, 1) 0).glTexCoord1f (1 / 4)).glBegin
          GL_LINES).vertexRecord 1 2 3)[3]? = some (FloatSlot.num (1 / 4)) :=
  ⟨(glVertex3d_record_layout
      (((GlBuilder.new 0 (0, 0, 1) (1, 0, 0, 1) 0).glColor4fv (1, 0, 0, 1)).glBegin
        GL_TRIANGLES) 1 2 3).2.2.2.2.2.1 rfl,
   (glVertex3d_record_layout
      (((GlBuilder.new 0 (0, 0, 1) (1, 0, 0, 1) 0).glColor4fv (1, 0, 0, 1)).glBegin
        GL_TRIANGLES) 1 2 3).2.2.2.2.2.2.1 rfl,
   (glVertex3d_record_layout
      (((GlBuilder.new 0 (0, 0, 1) (1, 0, 0, 1) 0).glTexCoord1f (1 / 4)).glBegin
        GL_LINES) 1 2 3).2.2.2.2.2.2.2 rfl rfl⟩


/-- The number of elements of the expansion of a strip. -/
theorem stripExpand_length {α : Type} : ∀ l : List α,
    (stripExpand l).length = 2 * (l.length - 1)
  | [] => rfl
  | [_] => rfl
  | a :: b :: rest => by
    have ih := stripExpand_length (b :: rest)
    simp only [stripExpand, List.length_cons] at ih ⊢
    omega

/-- Every element of the expansion of a strip is an element of the strip. -/
theorem stripExpand_mem {α : Type} : ∀ (l : List α) (r : α), r ∈ stripExpand l → r ∈ l
  | [], r, h => by simp [stripExpand] at h
  | [_], r, h => by simp [stripExpand] at h
  | a :: b :: rest, r, h => by
    simp only [stripExpand, List.mem_cons] at h
    rcases h with h | h | h
    · simp [h]
    · simp [h]
    · have := stripExpand_mem (b :: rest) r h
      exact List.mem_cons_of_mem _ this

/-- Segment `k` of the expansion joins the elements `k` and `k + 1`. -/
theorem stripExpand_getElem? {α : Type} : ∀ (l : List α) (k : ℕ), k + 1 < l.length →
    (stripExpand l)[2 * k]? = l[k]? ∧ (stripExpand l)[2 * k + 1]? = l[k + 1]?
  | [], k, h => by simp at h
  | [_], k, h => by simp at h
  | a :: b :: rest, 0, _ => by simp [stripExpand]
  | a :: b :: rest, k + 1, h => by
    have ih := stripExpand_getElem? (b :: rest) k (by simpa using h)
    have e1 : 2 * (k + 1) = 2 * k + 1 + 1 := by ring
    rw [e1]
    simpa [stripExpand] using ih

/-- Inside a strip or loop with two vertices emitted and a complete last
record, the remaining vertices each store a copy of the last record and then
their own. -/
theorem GlBuilder.emitAll_strip (ps : List Float3) :
    ∀ (b : GlBuilder) (pre : List FloatSlot) (q : Float3),
      b.is_line = true → (b.render_as = GL_LINE_STRIP ∨ b.render_as = GL_LINE_LOOP) →
      2 ≤ b.count → b.pts = pre ++ b.lineRecord q →
      (b.emitAll ps).pts
        = pre ++ b.lineRecord q ++ (stripExpand ((q :: ps).map b.lineRecord)).flatten := by
  induction ps with
  | nil =>
    intro b pre q _ _ _ hp
    simp [GlBuilder.emitAll, stripExpand, hp]
  | cons p rest ih =>
    intro b pre q hl hs hc hp
    have hdup : b.stripDup = b.lineRecord q := by
      have hlen : (pre ++ b.lineRecord q).length - 4 = pre.length := by
        simp [GlBuilder.lineRecord]
      simp only [GlBuilder.stripDup, ge_iff_le, hc, hs, and_self, if_true, hp, hlen]
      simp
    have hstep : (b.glVertex3d p.1 p.2.1 p.2.2).pts
        = (pre ++ b.lineRecord q ++ b.lineRecord q) ++ b.lineRecord p := by
      rw [GlBuilder.glVertex3d_pts, GlBuilder.vertexRecord_line b _ _ _ hl, hdup, hp]
    have h := ih (b.glVertex3d p.1 p.2.1 p.2.2) (pre ++ b.lineRecord q ++ b.lineRecord q) p
      hl hs (by show 2 ≤ b.count + 1; omega) hstep
    have hrec : (b.glVertex3d p.1 p.2.1 p.2.2).lineRecord = b.lineRecord := rfl
    rw [hrec] at h
    show ((b.glVertex3d p.1 p.2.1 p.2.2).emitAll rest).pts = _
    rw [h]
    simp [stripExpand]

/-- A strip or loop begun on empty storage stores the expansion of its
points into independent segments. -/
theorem GlBuilder.emitAll_glBegin_strip (b : GlBuilder) (e : GLenum) (p1 p2 : Float3)
    (rest : List Float3) (hb : b.pts = []) (he : e = GL_LINE_STRIP ∨ e = GL_LINE_LOOP) :
    ((b.glBegin e).emitAll (p1 :: p2 :: rest)).pts
      = (stripExpand ((p1 :: p2 :: rest).map b.lineRecord)).flatten := by
  have hline : (b.glBegin e).is_line = true := by
    rcases he with h | h <;> simp [GlBuilder.glBegin, h]
  have hras : (b.glBegin e).render_as = e := by
    simp only [GlBuilder.glBegin]
  have hcnt : (b.glBegin e).count = 0 := by
    simp only [GlBuilder.glBegin]
  have hpts : (b.glBegin e).pts = [] := by
    simp only [GlBuilder.glBegin]
    split <;> exact hb
  have hrec0 : (b.glBegin e).lineRecord = b.lineRecord := by
    funext p
    simp only [GlBuilder.glBegin, GlBuilder.lineRecord, GlBuilder.lineSlot]
    split <;> rfl
  -- first vertex
  have hd1 : (b.glBegin e).stripDup = [] := by
    simp [GlBuilder.stripDup, hcnt]
  have h1 : ((b.glBegin e).glVertex3d p1.1 p1.2.1 p1.2.2).pts = b.lineRecord p1 := by
    rw [GlBuilder.glVertex3d_pts, GlBuilder.vertexRecord_line _ _ _ _ hline, hd1, hpts, hrec0]
    simp
  -- second vertex
  let b1 := (b.glBegin e).glVertex3d p1.1 p1.2.1 p1.2.2
  have hcnt1 : b1.count = 1 := by
    show (b.glBegin e).count + 1 = 1
    rw [hcnt]
    rfl
  have hd2 : b1.stripDup = [] := by
    simp [GlBuilder.stripDup, hcnt1]
  have hrec1 : b1.lineRecord = b.lineRecord := hrec0
  have hline1 : b1.is_line = true := hline
  have h2 : (b1.glVertex3d p2.1 p2.2.1 p2.2.2).pts = b.lineRecord p1 ++ b.lineRecord p2 := by
    rw [GlBuilder.glVertex3d_pts, GlBuilder.vertexRecord_line _ _ _ _ hline1, hd2, hrec1]
    show b1.pts ++ [] ++ _ = _
    rw [h1]
    simp
  let b2 := b1.glVertex3d p2.1 p2.2.1 p2.2.2
  have hrec2 : b2.lineRecord = b.lineRecord := hrec0
  have h := GlBuilder.emitAll_strip rest b2 (b.lineRecord p1) p2 hline
    (by show (b.glBegin e).render_as = _ ∨ (b.glBegin e).render_as = _; rw [hras]; exact he)
    (by show 2 ≤ b1.count + 1; rw [hcnt1]; decide)
    (by rw [hrec2]; exact h2)
  rw [hrec2] at h
  show (b2.emitAll rest).pts = _
  rw [h]
  simp [stripExpand]

/-- C5: on empty point storage, `glBegin(GL_LINE_STRIP)` or
`glBegin(GL_LINE_LOOP)` followed by `N >= 3` calls of `glVertex3d` stores
exactly `2 (N - 1)` records of 4 floats, forming `N - 1` segments: segment `k`
(records `2k` and `2k + 1`) joins the `k`-th and `(k+1)`-th emitted points, and
its second record is identical to the first record of segment `k + 1`. -/
theorem line_strip_expansion (b : GlBuilder) (e : GLenum) (ps : List Float3)
    (hb : b.pts = []) (he : e = GL_LINE_STRIP ∨ e = GL_LINE_LOOP) (hN : 3 ≤ ps.length) :
    ∃ recs : List (List FloatSlot),
      ((b.glBegin e).emitAll ps).pts = recs.flatten ∧
      recs.length = 2 * (ps.length - 1) ∧
      (∀ r ∈ recs, r.length = 4) ∧
      (∀ (k : ℕ) (p q : Float3), ps[k]? = some p → ps[k + 1]? = some q →
        recs[2 * k]? = some (b.lineRecord p) ∧ recs[2 * k + 1]? = some (b.lineRecord q)) ∧
      (∀ k : ℕ, k + 2 < ps.length →
        ∃ r : List FloatSlot, recs[2 * k + 1]? = some r ∧ recs[2 * (k + 1)]? = some r) := by
  obtain ⟨p1, p2, rest, rfl⟩ : ∃ p1 p2 rest, ps = p1 :: p2 :: rest := by
    match ps, hN with
    | p1 :: p2 :: rest, _ => exact ⟨p1, p2, rest, rfl⟩
  refine ⟨stripExpand ((p1 :: p2 :: rest).map b.lineRecord),
    GlBuilder.emitAll_glBegin_strip b e p1 p2 rest hb he, ?_, ?_, ?_, ?_⟩
  · rw [stripExpand_length, List.length_map]
  · intro r hr
    have hm := stripExpand_mem _ r hr
    obtain ⟨p, _, rfl⟩ := List.mem_map.mp hm
    rfl
  · intro k p q hp hq
    have hk : k + 1 < ((p1 :: p2 :: rest).map b.lineRecord).length := by
      rw [List.length_map]
      exact (List.getElem?_eq_some.mp hq).1
    obtain ⟨h1, h2⟩ := stripExpand_getElem? _ k hk
    rw [h1, h2, List.getElem?_map, List.getElem?_map, hp, hq]
    exact ⟨rfl, rfl⟩
  · intro k hk
    have hk1 : k + 1 < ((p1 :: p2 :: rest).map b.lineRecord).length := by
      rw [List.length_map]
      omega
    have hk2 : k + 1 + 1 < ((p1 :: p2 :: rest).map b.lineRecord).length := by
      rw [List.length_map]
      omega
    obtain ⟨_, h2⟩ := stripExpand_getElem? _ k hk1
    obtain ⟨h3, _⟩ := stripExpand_getElem? _ (k + 1) hk2
    refine ⟨((p1 :: p2 :: rest).map b.lineRecord)[k + 1], ?_, ?_⟩
    · rw [h2]
      exact List.getElem?_eq_getElem hk1
    · rw [h3]
      exact List.getElem?_eq_getElem hk1


/-- Witness of C5: a strip of three points on a fresh builder stores four
records of 4 floats. -/
theorem line_strip_expansion_witness :
    ∃ recs : List (List FloatSlot),
      (((GlBuilder.new 0 (0, 0, 1) (1, 1, 1, 1) 0).glBegin GL_LINE_STRIP).emitAll
          [(0, 0, 0), (1, 0, 0), (1, 1, 0)]).pts = recs.flatten ∧
      recs.length = 4 ∧ ∀ r ∈ recs, r.length = 4 := by
  obtain ⟨recs, h1, h2, h3, _⟩ :=
    line_strip_expansion (GlBuilder.new 0 (0, 0, 1) (1, 1, 1, 1) 0) GL_LINE_STRIP
      [(0, 0, 0), (1, 0, 0), (1, 1, 0)] rfl (Or.inl rfl) (by decide)
  exact ⟨recs, h1, h2, h3⟩


/-! ## Theorems: the triangle clipper -/

/-- The device position and colour computed by `XFBPostTransform`. -/
theorem XFBPostTransform_eq (v : ShaderXfbVertex) (half_w half_h : ℚ) :
    XFBPostTransform v half_w half_h
      = { position := ⟨v.pos.x / v.pos.w * half_w + half_w,
                       v.pos.y / v.pos.w * half_h + half_h, v.pos.z / v.pos.w⟩,
          color := v.color } := by
  simp [XFBPostTransform, mul_comm]

/-- With the clip plane active, the routine run on one triangle is the loop
body run once. -/
theorem CoreGLDevice.processTriangle_single (dev : CoreGLDevice) (cbuf : CaptureBuffer)
    (v0 v1 v2 : ShaderXfbVertex) (hclip : dev._use_clip_plane = true) :
    processTriangleXfbBuffer dev cbuf [v0, v1, v2]
      = clipTriangle (dev._vp_width * (1 / 2)) (dev._vp_height * (1 / 2)) [v0, v1, v2] cbuf 0 := by
  simp [processTriangleXfbBuffer, hclip, List.range_succ]

/-- C7: with the clip plane active, a triangle whose three clip distances
are non-negative appends exactly its 3 vertices, in input order, each
perspective-divided and remapped to the viewport:
`x = (x_clip / w) halfWidth + halfWidth`, `y = (y_clip / w) halfHeight + halfHeight`,
`z = z_clip / w`, colour unchanged.  Stated for the loop body at any triangle
index and for the routine on a one-triangle input. -/
theorem triangle_all_inside (dev : CoreGLDevice) (cbuf : CaptureBuffer)
    (verts : List ShaderXfbVertex) (t_i : ℕ) (v0 v1 v2 : ShaderXfbVertex)
    (hv0 : verts.getD (t_i * 3) default = v0) (hv1 : verts.getD (t_i * 3 + 1) default = v1)
    (hv2 : verts.getD (t_i * 3 + 2) default = v2)
    (h0 : 0 ≤ v0.clipCoord) (h1 : 0 ≤ v1.clipCoord) (h2 : 0 ≤ v2.clipCoord)
    (hclip : dev._use_clip_plane = true) :
    clipTriangle (dev._vp_width * (1 / 2)) (dev._vp_height * (1 / 2)) verts cbuf t_i
      = { cbuf with triangles := cbuf.triangles ++
            [XFBPostTransform v0 (dev._vp_width * (1 / 2)) (dev._vp_height * (1 / 2)),
             XFBPostTransform v1 (dev._vp_width * (1 / 2)) (dev._vp_height * (1 / 2)),
             XFBPostTransform v2 (dev._vp_width * (1 / 2)) (dev._vp_height * (1 / 2))] } ∧
    processTriangleXfbBuffer dev cbuf [v0, v1, v2]
      = { cbuf with triangles := cbuf.triangles ++
            [XFBPostTransform v0 (dev._vp_width * (1 / 2)) (dev._vp_height * (1 / 2)),
             XFBPostTransform v1 (dev._vp_width * (1 / 2)) (dev._vp_height * (1 / 2)),
             XFBPostTransform v2 (dev._vp_width * (1 / 2)) (dev._vp_height * (1 / 2))] } ∧
    ∀ v : ShaderXfbVertex,
      XFBPostTransform v (dev._vp_width * (1 / 2)) (dev._vp_height * (1 / 2))
        = { position :=
              ⟨v.pos.x / v.pos.w * (dev._vp_width * (1 / 2)) + dev._vp_width * (1 / 2),
               v.pos.y / v.pos.w * (dev._vp_height * (1 / 2)) + dev._vp_height * (1 / 2),
               v.pos.z / v.pos.w⟩,
            color := v.color } := by
  refine ⟨?_, ?_, fun v => XFBPostTransform_eq v _ _⟩
  · subst hv0 hv1 hv2
    simp only [clipTriangle, ge_iff_le, h0, h1, h2, and_self, if_true]
    simp [List.range_succ, CaptureBuffer.pushTriangle]
  · rw [CoreGLDevice.processTriangle_single dev cbuf v0 v1 v2 hclip]
    simp [clipTriangle, h0, h1, h2, List.range_succ, CaptureBuffer.pushTriangle]


/-- The loop body at the triangle of index `t_i` is the loop body run on that
triangle alone. -/
theorem CoreGLDevice.clipTriangle_eq_single (half_w half_h : ℚ) (verts : List ShaderXfbVertex)
    (cbuf : CaptureBuffer) (t_i : ℕ) (v0 v1 v2 : ShaderXfbVertex)
    (hv0 : verts.getD (t_i * 3) default = v0) (hv1 : verts.getD (t_i * 3 + 1) default = v1)
    (hv2 : verts.getD (t_i * 3 + 2) default = v2) :
    clipTriangle half_w half_h verts cbuf t_i
      = clipTriangle half_w half_h [v0, v1, v2] cbuf 0 := by
  subst hv0 hv1 hv2
  simp [clipTriangle, clipMixedTriangle, List.range_succ, Nat.mul_comm 3 t_i]

/-- With exactly one vertex outside, the mixed-sign branch emits the
quadrilateral of the rotation `(a, b, c)` of the triangle whose `c` is the
outside vertex. -/
theorem CoreGLDevice.clipTriangle_oneOutside (half_w half_h : ℚ) (cbuf : CaptureBuffer)
    (v0 v1 v2 : ShaderXfbVertex) (h : OneOutside v0 v1 v2) :
    ∃ a b c : ShaderXfbVertex, IsRotation a b c v0 v1 v2 ∧
      0 ≤ a.clipCoord ∧ 0 ≤ b.clipCoord ∧ c.clipCoord < 0 ∧
      clipTriangle half_w half_h [v0, v1, v2] cbuf 0
        = { cbuf with triangles := cbuf.triangles ++ quadOut half_w half_h a b c } := by
  rcases h with ⟨h0, h1, h2⟩ | ⟨h0, h1, h2⟩ | ⟨h0, h1, h2⟩
  · refine ⟨v1, v2, v0, Or.inr (Or.inl ⟨rfl, rfl, rfl⟩), h1, h2, h0, ?_⟩
    simp [clipTriangle, clipMixedTriangle, h0, h1, h2, not_le.mpr h0, not_lt.mpr h1,
      not_lt.mpr h2, quadOut, clipVertex, CaptureBuffer.pushTriangle]
  · refine ⟨v2, v0, v1, Or.inr (Or.inr ⟨rfl, rfl, rfl⟩), h2, h0, h1, ?_⟩
    simp [clipTriangle, clipMixedTriangle, h0, h1, h2, not_le.mpr h1, not_lt.mpr h0,
      not_lt.mpr h2, quadOut, clipVertex, CaptureBuffer.pushTriangle]
  · refine ⟨v0, v1, v2, Or.inl ⟨rfl, rfl, rfl⟩, h0, h1, h2, ?_⟩
    simp [clipTriangle, clipMixedTriangle, h0, h1, h2, not_le.mpr h2, not_lt.mpr h0,
      not_lt.mpr h1, quadOut, clipVertex, CaptureBuffer.pushTriangle]

/-- With exactly one vertex inside, the mixed-sign branch emits the triangle
of the rotation `(a, b, c)` of the input whose `c` is the inside vertex. -/
theorem CoreGLDevice.clipTriangle_oneInside (half_w half_h : ℚ) (cbuf : CaptureBuffer)
    (v0 v1 v2 : ShaderXfbVertex) (h : OneInside v0 v1 v2) :
    ∃ a b c : ShaderXfbVertex, IsRotation a b c v0 v1 v2 ∧
      a.clipCoord < 0 ∧ b.clipCoord < 0 ∧ 0 ≤ c.clipCoord ∧
      clipTriangle half_w half_h [v0, v1, v2] cbuf 0
        = { cbuf with triangles := cbuf.triangles ++ triOut half_w half_h a b c } := by
  rcases h with ⟨h0, h1, h2⟩ | ⟨h0, h1, h2⟩ | ⟨h0, h1, h2⟩
  · refine ⟨v1, v2, v0, Or.inr (Or.inl ⟨rfl, rfl, rfl⟩), h1, h2, h0, ?_⟩
    simp [clipTriangle, clipMixedTriangle, h0, h1, h2, not_le.mpr h1, not_le.mpr h2,
      not_lt.mpr h0, triOut, clipVertex, CaptureBuffer.pushTriangle]
  · refine ⟨v2, v0, v1, Or.inr (Or.inr ⟨rfl, rfl, rfl⟩), h2, h0, h1, ?_⟩
    simp [clipTriangle, clipMixedTriangle, h0, h1, h2, not_le.mpr h0, not_le.mpr h2,
      not_lt.mpr h1, triOut, clipVertex, CaptureBuffer.pushTriangle]
  · refine ⟨v0, v1, v2, Or.inl ⟨rfl, rfl, rfl⟩, h0, h1, h2, ?_⟩
    simp [clipTriangle, clipMixedTriangle, h0, h1, h2, not_le.mpr h0, not_le.mpr h1,
      not_lt.mpr h2, triOut, clipVertex, CaptureBuffer.pushTriangle]


/-- The homogeneous `w` of a synthesized clip position is non-zero when both
endpoints have positive `w` and lie on different sides of the plane. -/
theorem clip_w_ne_zero (va vc : ShaderXfbVertex) (hwa : 0 < va.pos.w) (hwc : 0 < vc.pos.w)
    (hs : (0 ≤ va.clipCoord ∧ vc.clipCoord < 0) ∨ (va.clipCoord < 0 ∧ 0 ≤ vc.clipCoord)) :
    va.pos.w * vc.clipCoord - vc.pos.w * va.clipCoord ≠ 0 := by
  rcases hs with ⟨ha, hc⟩ | ⟨ha, hc⟩
  · have h1 : va.pos.w * vc.clipCoord < 0 := mul_neg_of_pos_of_neg hwa hc
    have h2 : 0 ≤ vc.pos.w * va.clipCoord := mul_nonneg hwc.le ha
    intro h
    linarith
  · have h1 : 0 ≤ va.pos.w * vc.clipCoord := mul_nonneg hwa.le hc
    have h2 : vc.pos.w * va.clipCoord < 0 := mul_neg_of_pos_of_neg hwc ha
    intro h
    linarith

/-- The fraction along the device-space edge from `a` to `c` at which the
synthesized vertex lies. -/
theorem clip_fraction_unit (va vc : ShaderXfbVertex) (hwa : 0 < va.pos.w) (hwc : 0 < vc.pos.w)
    (hs : (0 ≤ va.clipCoord ∧ vc.clipCoord < 0) ∨ (va.clipCoord < 0 ∧ 0 ≤ vc.clipCoord)) :
    0 ≤ -(vc.pos.w * va.clipCoord) / (va.pos.w * vc.clipCoord - vc.pos.w * va.clipCoord) ∧
    -(vc.pos.w * va.clipCoord) / (va.pos.w * vc.clipCoord - vc.pos.w * va.clipCoord) ≤ 1 := by
  rcases hs with ⟨ha, hc⟩ | ⟨ha, hc⟩
  · have h1 : va.pos.w * vc.clipCoord < 0 := mul_neg_of_pos_of_neg hwa hc
    have h2 : 0 ≤ vc.pos.w * va.clipCoord := mul_nonneg hwc.le ha
    have hW : va.pos.w * vc.clipCoord - vc.pos.w * va.clipCoord < 0 := by linarith
    constructor
    · exact div_nonneg_of_nonpos (by linarith) hW.le
    · rw [div_le_one_of_neg hW]
      linarith
  · have h1 : 0 ≤ va.pos.w * vc.clipCoord := mul_nonneg hwa.le hc
    have h2 : vc.pos.w * va.clipCoord < 0 := mul_neg_of_pos_of_neg hwc ha
    have hW : 0 < va.pos.w * vc.clipCoord - vc.pos.w * va.clipCoord := by linarith
    constructor
    · exact div_nonneg (by linarith) hW.le
    · rw [div_le_one hW]
      linarith

/-- The device position of a synthesized clip vertex, as a point of the
device-space edge from `a` to `c`. -/
theorem clipVertex_position (half_w half_h : ℚ) (va vc : ShaderXfbVertex)
    (hwa : 0 < va.pos.w) (hwc : 0 < vc.pos.w)
    (hs : (0 ≤ va.clipCoord ∧ vc.clipCoord < 0) ∨ (va.clipCoord < 0 ∧ 0 ≤ vc.clipCoord))
    (s : ℚ)
    (hsdef : s = -(vc.pos.w * va.clipCoord)
      / (va.pos.w * vc.clipCoord - vc.pos.w * va.clipCoord)) :
    (clipVertex half_w half_h va vc).position.x
      = (XFBPostTransform va half_w half_h).position.x
        + s * ((XFBPostTransform vc half_w half_h).position.x
          - (XFBPostTransform va half_w half_h).position.x) ∧
    (clipVertex half_w half_h va vc).position.y
      = (XFBPostTransform va half_w half_h).position.y
        + s * ((XFBPostTransform vc half_w half_h).position.y
          - (XFBPostTransform va half_w half_h).position.y) ∧
    (clipVertex half_w half_h va vc).position.z
      = (XFBPostTransform va half_w half_h).position.z
        + s * ((XFBPostTransform vc half_w half_h).position.z
          - (XFBPostTransform va half_w half_h).position.z) := by
  have hW := clip_w_ne_zero va vc hwa hwc hs
  have ha : va.pos.w ≠ 0 := ne_of_gt hwa
  have hc : vc.pos.w ≠ 0 := ne_of_gt hwc
  subst hsdef
  simp only [clipVertex, FeedbackVertex.ofVec4, clipPosToDevice, Vec4.divScalar, Vec4.sub,
    Vec4.scale, XFBPostTransform]
  refine ⟨?_, ?_, ?_⟩ <;> field_simp <;> ring

/-- A synthesized clip vertex lies on the device-space segment between the
two endpoints of its edge. -/
theorem clipVertex_onSegment (half_w half_h : ℚ) (va vc : ShaderXfbVertex)
    (hwa : 0 < va.pos.w) (hwc : 0 < vc.pos.w)
    (hs : (0 ≤ va.clipCoord ∧ vc.clipCoord < 0) ∨ (va.clipCoord < 0 ∧ 0 ≤ vc.clipCoord)) :
    OnSegment (clipVertex half_w half_h va vc).position
      (XFBPostTransform va half_w half_h).position
      (XFBPostTransform vc half_w half_h).position := by
  obtain ⟨h0, h1⟩ := clip_fraction_unit va vc hwa hwc hs
  exact ⟨_, h0, h1, clipVertex_position half_w half_h va vc hwa hwc hs _ rfl⟩


/-- C8: with the clip plane active, a triangle with positive `w` in which
exactly one vertex (at any of the three positions) has negative clip distance
appends exactly 6 vertices, the triangles `a, n_0, n_1` and `a, n_1, b` for the
rotation `(a, b, c)` of the input with `c` outside; the synthesized `n_0` lies
on the device-space segment between `a` and `c` and `n_1` on the one between
`b` and `c`.  Stated for the loop body at any triangle index and for the
routine on a one-triangle input. -/
theorem triangle_one_outside (dev : CoreGLDevice) (cbuf : CaptureBuffer)
    (verts : List ShaderXfbVertex) (t_i : ℕ) (v0 v1 v2 : ShaderXfbVertex)
    (hv0 : verts.getD (t_i * 3) default = v0) (hv1 : verts.getD (t_i * 3 + 1) default = v1)
    (hv2 : verts.getD (t_i * 3 + 2) default = v2)
    (hclip : dev._use_clip_plane = true)
    (hw0 : 0 < v0.pos.w) (hw1 : 0 < v1.pos.w) (hw2 : 0 < v2.pos.w)
    (hone : OneOutside v0 v1 v2) :
    ∃ (a b c : ShaderXfbVertex) (n0 n1 : FeedbackVertex),
      IsRotation a b c v0 v1 v2 ∧ 0 ≤ a.clipCoord ∧ 0 ≤ b.clipCoord ∧ c.clipCoord < 0 ∧
      clipTriangle (dev._vp_width * (1 / 2)) (dev._vp_height * (1 / 2)) verts cbuf t_i
        = { cbuf with triangles := cbuf.triangles ++
              [XFBPostTransform a (dev._vp_width * (1 / 2)) (dev._vp_height * (1 / 2)), n0, n1,
               XFBPostTransform a (dev._vp_width * (1 / 2)) (dev._vp_height * (1 / 2)), n1,
               XFBPostTransform b (dev._vp_width * (1 / 2)) (dev._vp_height * (1 / 2))] } ∧
      processTriangleXfbBuffer dev cbuf [v0, v1, v2]
        = { cbuf with triangles := cbuf.triangles ++
              [XFBPostTransform a (dev._vp_width * (1 / 2)) (dev._vp_height * (1 / 2)), n0, n1,
               XFBPostTransform a (dev._vp_width * (1 / 2)) (dev._vp_height * (1 / 2)), n1,
               XFBPostTransform b (dev._vp_width * (1 / 2)) (dev._vp_height * (1 / 2))] } ∧
      OnSegment n0.position
        (XFBPostTransform a (dev._vp_width * (1 / 2)) (dev._vp_height * (1 / 2))).position
        (XFBPostTransform c (dev._vp_width * (1 / 2)) (dev._vp_height * (1 / 2))).position ∧
      OnSegment n1.position
        (XFBPostTransform b (dev._vp_width * (1 / 2)) (dev._vp_height * (1 / 2))).position
        (XFBPostTransform c (dev._vp_width * (1 / 2)) (dev._vp_height * (1 / 2))).position := by
  obtain ⟨a, b, c, hrot, ha, hb, hc, hout⟩ :=
    clipTriangle_oneOutside (dev._vp_width * (1 / 2)) (dev._vp_height * (1 / 2)) cbuf
      v0 v1 v2 hone
  have hpos : 0 < a.pos.w ∧ 0 < b.pos.w ∧ 0 < c.pos.w := by
    rcases hrot with ⟨rfl, rfl, rfl⟩ | ⟨rfl, rfl, rfl⟩ | ⟨rfl, rfl, rfl⟩
    · exact ⟨hw0, hw1, hw2⟩
    · exact ⟨hw1, hw2, hw0⟩
    · exact ⟨hw2, hw0, hw1⟩
  refine ⟨a, b, c, clipVertex (dev._vp_width * (1 / 2)) (dev._vp_height * (1 / 2)) a c,
    clipVertex (dev._vp_width * (1 / 2)) (dev._vp_height * (1 / 2)) b c,
    hrot, ha, hb, hc, ?_, ?_, ?_, ?_⟩
  · rw [clipTriangle_eq_single _ _ verts cbuf t_i v0 v1 v2 hv0 hv1 hv2, hout]
    rfl
  · rw [processTriangle_single dev cbuf v0 v1 v2 hclip, hout]
    rfl
  · exact clipVertex_onSegment _ _ a c hpos.1 hpos.2.2 (Or.inl ⟨ha, hc⟩)
  · exact clipVertex_onSegment _ _ b c hpos.2.1 hpos.2.2 (Or.inl ⟨hb, hc⟩)

/-- The number of vertices appended by the loop body in the two mixed-sign
cases: 6 with exactly one vertex outside, 3 with exactly one inside. -/
theorem CoreGLDevice.clipTriangle_mixed_length (half_w half_h : ℚ) (cbuf : CaptureBuffer)
    (v0 v1 v2 : ShaderXfbVertex) :
    (OneOutside v0 v1 v2 →
      (clipTriangle half_w half_h [v0, v1, v2] cbuf 0).triangles.length
        = cbuf.triangles.length + 6) ∧
    (OneInside v0 v1 v2 →
      (clipTriangle half_w half_h [v0, v1, v2] cbuf 0).triangles.length
        = cbuf.triangles.length + 3) := by
  constructor
  · intro h
    obtain ⟨a, b, c, _, _, _, _, hout⟩ := clipTriangle_oneOutside half_w half_h cbuf v0 v1 v2 h
    rw [hout]
    simp [quadOut]
  · intro h
    obtain ⟨a, b, c, _, _, _, _, hout⟩ := clipTriangle_oneInside half_w half_h cbuf v0 v1 v2 h
    rw [hout]
    simp [triOut]

/-- C9, as the code has it: with the clip plane active, a mixed-sign
triangle appends two triangles (6 vertices) when exactly one vertex is outside
(negative clip distance) and a single triangle (3 vertices) when exactly one
vertex is inside; the line list is untouched.  Stated for the loop body at any
triangle index and for the routine on a one-triangle input. -/
theorem triangle_mixed_counts (dev : CoreGLDevice) (cbuf : CaptureBuffer)
    (verts : List ShaderXfbVertex) (t_i : ℕ) (v0 v1 v2 : ShaderXfbVertex)
    (hv0 : verts.getD (t_i * 3) default = v0) (hv1 : verts.getD (t_i * 3 + 1) default = v1)
    (hv2 : verts.getD (t_i * 3 + 2) default = v2)
    (hclip : dev._use_clip_plane = true) :
    (OneOutside v0 v1 v2 →
      (clipTriangle (dev._vp_width * (1 / 2)) (dev._vp_height * (1 / 2)) verts cbuf
          t_i).triangles.length = cbuf.triangles.length + 6 ∧
      (processTriangleXfbBuffer dev cbuf [v0, v1, v2]).triangles.length
        = cbuf.triangles.length + 6 ∧
      (processTriangleXfbBuffer dev cbuf [v0, v1, v2]).lines = cbuf.lines) ∧
    (OneInside v0 v1 v2 →
      (clipTriangle (dev._vp_width * (1 / 2)) (dev._vp_height * (1 / 2)) verts cbuf
          t_i).triangles.length = cbuf.triangles.length + 3 ∧
      (processTriangleXfbBuffer dev cbuf [v0, v1, v2]).triangles.length
        = cbuf.triangles.length + 3 ∧
      (processTriangleXfbBuffer dev cbuf [v0, v1, v2]).lines = cbuf.lines) := by
  rw [clipTriangle_eq_single _ _ verts cbuf t_i v0 v1 v2 hv0 hv1 hv2,
    processTriangle_single dev cbuf v0 v1 v2 hclip]
  constructor
  · intro h
    refine ⟨(clipTriangle_mixed_length _ _ cbuf v0 v1 v2).1 h,
      (clipTriangle_mixed_length _ _ cbuf v0 v1 v2).1 h, ?_⟩
    obtain ⟨a, b, c, _, _, _, _, hout⟩ := clipTriangle_oneOutside
      (dev._vp_width * (1 / 2)) (dev._vp_height * (1 / 2)) cbuf v0 v1 v2 h
    rw [hout]
  · intro h
    refine ⟨(clipTriangle_mixed_length _ _ cbuf v0 v1 v2).2 h,
      (clipTriangle_mixed_length _ _ cbuf v0 v1 v2).2 h, ?_⟩
    obtain ⟨a, b, c, _, _, _, _, hout⟩ := clipTriangle_oneInside
      (dev._vp_width * (1 / 2)) (dev._vp_height * (1 / 2)) cbuf v0 v1 v2 h
    rw [hout]


/-- Witness of C7: the triangle `A, B, D` with clip distances 1, 1, 0. -/
theorem triangle_all_inside_witness :
    processTriangleXfbBuffer sampleDevice emptyCapture [sampleA, sampleB, sampleD]
      = { emptyCapture with triangles := emptyCapture.triangles ++
            [XFBPostTransform sampleA (sampleDevice._vp_width * (1 / 2))
               (sampleDevice._vp_height * (1 / 2)),
             XFBPostTransform sampleB (sampleDevice._vp_width * (1 / 2))
               (sampleDevice._vp_height * (1 / 2)),
             XFBPostTransform sampleD (sampleDevice._vp_width * (1 / 2))
               (sampleDevice._vp_height * (1 / 2))] } :=
  (triangle_all_inside sampleDevice emptyCapture [sampleA, sampleB, sampleD] 0
    sampleA sampleB sampleD rfl rfl rfl (by norm_num [sampleA]) (by norm_num [sampleB])
    (by norm_num [sampleD]) rfl).2.1

/-- The triangle `A, B, C` has exactly one vertex outside. -/
theorem sample_oneOutside : OneOutside sampleA sampleB sampleC :=
  Or.inr (Or.inr ⟨by norm_num [sampleA], by norm_num [sampleB], by norm_num [sampleC]⟩)

/-- The triangle `A, E, C` has exactly one vertex inside. -/
theorem sample_oneInside : OneInside sampleA sampleE sampleC :=
  Or.inl ⟨by norm_num [sampleA], by norm_num [sampleE], by norm_num [sampleC]⟩

/-- Witness of C8: the triangle `A, B, C` with clip distances 1, 1, -1 appends
6 vertices. -/
theorem triangle_one_outside_witness :
    (processTriangleXfbBuffer sampleDevice emptyCapture
      [sampleA, sampleB, sampleC]).triangles.length = 6 := by
  obtain ⟨a, b, c, n0, n1, _, _, _, _, _, h, _, _⟩ :=
    triangle_one_outside sampleDevice emptyCapture [sampleA, sampleB, sampleC] 0
      sampleA sampleB sampleC rfl rfl rfl rfl (by norm_num [sampleA]) (by norm_num [sampleB])
      (by norm_num [sampleC]) sample_oneOutside
  rw [h]
  rfl

/-- Witness of C9 as amended: 6 vertices for `A, B, C` (one outside) and 3
for `A, E, C` (one inside). -/
theorem triangle_mixed_counts_witness :
    (processTriangleXfbBuffer sampleDevice emptyCapture
      [sampleA, sampleB, sampleC]).triangles.length = emptyCapture.triangles.length + 6 ∧
    (processTriangleXfbBuffer sampleDevice emptyCapture
      [sampleA, sampleE, sampleC]).triangles.length = emptyCapture.triangles.length + 3 :=
  ⟨((triangle_mixed_counts sampleDevice emptyCapture [sampleA, sampleB, sampleC] 0
      sampleA sampleB sampleC rfl rfl rfl rfl).1 sample_oneOutside).2.1,
   ((triangle_mixed_counts sampleDevice emptyCapture [sampleA, sampleE, sampleC] 0
      sampleA sampleE sampleC rfl rfl rfl rfl).2 sample_oneInside).2.1⟩

/-- Counterexample to C9 as stated: the triangle `A, B, C` has exactly one
vertex outside and the routine appends 6 vertices, not 3; the triangle
`A, E, C` has exactly one vertex inside and the routine appends 3, not 6. -/
theorem one_outside_emits_six :
    OneOutside sampleA sampleB sampleC ∧
    (processTriangleXfbBuffer sampleDevice emptyCapture
      [sampleA, sampleB, sampleC]).triangles.length = 6 ∧
    (processTriangleXfbBuffer sampleDevice emptyCapture
      [sampleA, sampleB, sampleC]).triangles.length ≠ 3 ∧
    OneInside sampleA sampleE sampleC ∧
    (processTriangleXfbBuffer sampleDevice emptyCapture
      [sampleA, sampleE, sampleC]).triangles.length = 3 ∧
    (processTriangleXfbBuffer sampleDevice emptyCapture
      [sampleA, sampleE, sampleC]).triangles.length ≠ 6 := by
  have h6 : (processTriangleXfbBuffer sampleDevice emptyCapture
      [sampleA, sampleB, sampleC]).triangles.length = 6 := by
    rw [processTriangle_single _ _ _ _ _ rfl,
      (clipTriangle_mixed_length _ _ emptyCapture sampleA sampleB sampleC).1 sample_oneOutside]
    rfl
  have h3 : (processTriangleXfbBuffer sampleDevice emptyCapture
      [sampleA, sampleE, sampleC]).triangles.length = 3 := by
    rw [processTriangle_single _ _ _ _ _ rfl,
      (clipTriangle_mixed_length _ _ emptyCapture sampleA sampleE sampleC).2 sample_oneInside]
    rfl
  refine ⟨sample_oneOutside, h6, ?_, sample_oneInside, h3, ?_⟩
  · rw [h6]
    decide
  · rw [h3]
    decide


/-! ## Theorems: winding of the clipped triangles -/

/-- The signed area is invariant under cyclic rotation of the triangle. -/
theorem signedArea2_rotate (p q r : Vec3) : signedArea2 q r p = signedArea2 p q r := by
  simp only [signedArea2]
  ring

/-- Signed areas of the three emitted triangle shapes, for `n0` at fraction `s`
of the edge from `a` to `c` and `n1` at fraction `t` of the edge from `b` to
`c`: the two triangles of the quadrilateral carry a factor `-(s (1 - t))` and
`-t`, the triangle at `c` a factor `(1 - s) (1 - t)`. -/
theorem signedArea2_clipped (a b c n0 n1 : Vec3) (s t : ℚ)
    (h0x : n0.x = a.x + s * (c.x - a.x)) (h0y : n0.y = a.y + s * (c.y - a.y))
    (h1x : n1.x = b.x + t * (c.x - b.x)) (h1y : n1.y = b.y + t * (c.y - b.y)) :
    signedArea2 a n0 n1 = -(s * (1 - t)) * signedArea2 a b c ∧
    signedArea2 a n1 b = -t * signedArea2 a b c ∧
    signedArea2 c n0 n1 = (1 - s) * (1 - t) * signedArea2 a b c := by
  simp only [signedArea2, h0x, h0y, h1x, h1y]
  refine ⟨?_, ?_, ?_⟩ <;> ring

/-- The quadrilateral path reverses winding: with `c` outside and positive
`w`, both emitted triangles `a, n_0, n_1` and `a, n_1, b` have a device-space
signed area of the sign opposite to that of `a, b, c`, or zero. -/
theorem quadOut_winding_reversed (half_w half_h : ℚ) (va vb vc : ShaderXfbVertex)
    (hwa : 0 < va.pos.w) (hwb : 0 < vb.pos.w) (hwc : 0 < vc.pos.w)
    (ha : 0 ≤ va.clipCoord) (hb : 0 ≤ vb.clipCoord) (hc : vc.clipCoord < 0) :
    signedArea2 (XFBPostTransform va half_w half_h).position
        (clipVertex half_w half_h va vc).position (clipVertex half_w half_h vb vc).position
      * signedArea2 (XFBPostTransform va half_w half_h).position
          (XFBPostTransform vb half_w half_h).position
          (XFBPostTransform vc half_w half_h).position ≤ 0 ∧
    signedArea2 (XFBPostTransform va half_w half_h).position
        (clipVertex half_w half_h vb vc).position (XFBPostTransform vb half_w half_h).position
      * signedArea2 (XFBPostTransform va half_w half_h).position
          (XFBPostTransform vb half_w half_h).position
          (XFBPostTransform vc half_w half_h).position ≤ 0 := by
  obtain ⟨hs0, _⟩ := clip_fraction_unit va vc hwa hwc (Or.inl ⟨ha, hc⟩)
  obtain ⟨ht0, ht1⟩ := clip_fraction_unit vb vc hwb hwc (Or.inl ⟨hb, hc⟩)
  obtain ⟨h0x, h0y, _⟩ :=
    clipVertex_position half_w half_h va vc hwa hwc (Or.inl ⟨ha, hc⟩) _ rfl
  obtain ⟨h1x, h1y, _⟩ :=
    clipVertex_position half_w half_h vb vc hwb hwc (Or.inl ⟨hb, hc⟩) _ rfl
  obtain ⟨e1, e2, _⟩ := signedArea2_clipped _ _ _ _ _ _ _ h0x h0y h1x h1y
  rw [e1, e2]
  constructor
  · have hk := mul_nonneg hs0 (sub_nonneg.mpr ht1)
    nlinarith [mul_nonneg hk (mul_self_nonneg
      (signedArea2 (XFBPostTransform va half_w half_h).position
        (XFBPostTransform vb half_w half_h).position
        (XFBPostTransform vc half_w half_h).position))]
  · nlinarith [mul_nonneg ht0 (mul_self_nonneg
      (signedArea2 (XFBPostTransform va half_w half_h).position
        (XFBPostTransform vb half_w half_h).position
        (XFBPostTransform vc half_w half_h).position))]

/-- The triangle path keeps winding: with `c` inside and positive `w`, the
emitted triangle `c, n_0, n_1` has a device-space signed area of the sign of
that of `a, b, c`, or zero. -/
theorem triOut_winding_kept (half_w half_h : ℚ) (va vb vc : ShaderXfbVertex)
    (hwa : 0 < va.pos.w) (hwb : 0 < vb.pos.w) (hwc : 0 < vc.pos.w)
    (ha : va.clipCoord < 0) (hb : vb.clipCoord < 0) (hc : 0 ≤ vc.clipCoord) :
    0 ≤ signedArea2 (XFBPostTransform vc half_w half_h).position
        (clipVertex half_w half_h va vc).position (clipVertex half_w half_h vb vc).position
      * signedArea2 (XFBPostTransform va half_w half_h).position
          (XFBPostTransform vb half_w half_h).position
          (XFBPostTransform vc half_w half_h).position := by
  obtain ⟨_, hs1⟩ := clip_fraction_unit va vc hwa hwc (Or.inr ⟨ha, hc⟩)
  obtain ⟨_, ht1⟩ := clip_fraction_unit vb vc hwb hwc (Or.inr ⟨hb, hc⟩)
  obtain ⟨h0x, h0y, _⟩ :=
    clipVertex_position half_w half_h va vc hwa hwc (Or.inr ⟨ha, hc⟩) _ rfl
  obtain ⟨h1x, h1y, _⟩ :=
    clipVertex_position half_w half_h vb vc hwb hwc (Or.inr ⟨hb, hc⟩) _ rfl
  obtain ⟨_, _, e3⟩ := signedArea2_clipped _ _ _ _ _ _ _ h0x h0y h1x h1y
  rw [e3]
  have hk := mul_nonneg (sub_nonneg.mpr hs1) (sub_nonneg.mpr ht1)
  nlinarith [mul_nonneg hk (mul_self_nonneg
    (signedArea2 (XFBPostTransform va half_w half_h).position
      (XFBPostTransform vb half_w half_h).position
      (XFBPostTransform vc half_w half_h).position))]

/-- C10 at a failing input: the counter-clockwise triangle `A, B, C` (device
signed area 1, positive `w`, half-extents 1, only `C` outside) is clipped to
the triangles `A, n_0, n_1` and `A, n_1, B`, whose device signed areas `-1/4`
and `-1/2` are negative: the quadrilateral path reverses the winding. -/
theorem clip_quad_reverses_winding :
    (processTriangleXfbBuffer sampleDevice emptyCapture
        [sampleA, sampleB, sampleC]).triangles.map (fun v => v.position)
      = [⟨1, 1, 0⟩, ⟨1, 3 / 2, 0⟩, ⟨3 / 2, 3 / 2, 0⟩, ⟨1, 1, 0⟩, ⟨3 / 2, 3 / 2, 0⟩, ⟨2, 1, 0⟩] ∧
    signedArea2 (XFBPostTransform sampleA 1 1).position (XFBPostTransform sampleB 1 1).position
      (XFBPostTransform sampleC 1 1).position = 1 ∧
    signedArea2 ⟨1, 1, 0⟩ ⟨1, 3 / 2, 0⟩ ⟨3 / 2, 3 / 2, 0⟩ = -1 / 4 ∧
    signedArea2 ⟨1, 1, 0⟩ ⟨3 / 2, 3 / 2, 0⟩ ⟨2, 1, 0⟩ = -1 / 2 := by
  refine ⟨?_, ?_, ?_, ?_⟩
  · rw [processTriangle_single _ _ _ _ _ rfl]
    simp [clipTriangle, clipMixedTriangle, sampleDevice, sampleA, sampleB, sampleC,
      emptyCapture, CaptureBuffer.pushTriangle, XFBPostTransform, FeedbackVertex.ofVec4,
      clipPosToDevice, Vec4.scale, Vec4.sub, Vec4.divScalar]
    norm_num
  · simp [signedArea2, XFBPostTransform, sampleA, sampleB, sampleC]
  · norm_num [signedArea2]
  · norm_num [signedArea2]

/-! ## Theorems: the clip formulas -/

/-- The two clip distances of a crossing edge differ. -/
theorem crossing_dist_ne (vp vq : ShaderXfbVertex) (hc : Crossing vp vq) :
    vp.clipCoord - vq.clipCoord ≠ 0 := by
  rcases hc with ⟨h1, h2⟩ | ⟨h1, h2⟩ <;> intro h <;> linarith

/-- The homogeneous `w` of the clip-space intersection point of a crossing
edge with positive `w` at both endpoints is non-zero. -/
theorem lerp_w_ne_zero (vp vq : ShaderXfbVertex) (hwp : 0 < vp.pos.w) (hwq : 0 < vq.pos.w)
    (hc : Crossing vp vq) :
    vp.pos.w + vp.clipCoord / (vp.clipCoord - vq.clipCoord) * (vq.pos.w - vp.pos.w) ≠ 0 := by
  have hd := crossing_dist_ne vp vq hc
  have hW := clip_w_ne_zero vp vq hwp hwq hc
  have e : vp.pos.w + vp.clipCoord / (vp.clipCoord - vq.clipCoord) * (vq.pos.w - vp.pos.w)
      = -(vp.pos.w * vq.clipCoord - vq.pos.w * vp.clipCoord)
          / (vp.clipCoord - vq.clipCoord) := by
    field_simp
    ring
  rw [e]
  exact div_ne_zero (neg_ne_zero.mpr hW) hd

/-- The homogeneous clip formula hits the clip-space intersection point: the
vertex synthesized by the triangle routine and the one synthesized by the line
routine from `P_p d_q - P_q d_p` both have the device position of the point
`P_p + t (P_q - P_p)` with `t = d_p / (d_p - d_q)`. -/
theorem clip_devicePos (half_w half_h : ℚ) (vp vq : ShaderXfbVertex) (hc : Crossing vp vq) :
    (clipVertex half_w half_h vp vq).position
      = devicePos (Vec4.lerp vp.pos vq.pos (vp.clipCoord / (vp.clipCoord - vq.clipCoord)))
          half_w half_h ∧
    (XFBPostTransform (lineClipVert vp vq) half_w half_h).position
      = devicePos (Vec4.lerp vp.pos vq.pos (vp.clipCoord / (vp.clipCoord - vq.clipCoord)))
          half_w half_h := by
  have hd := crossing_dist_ne vp vq hc
  have hk : vq.clipCoord - vp.clipCoord ≠ 0 := by
    intro h
    exact hd (by linarith)
  have key : ∀ a b : ℚ, a * vq.clipCoord - b * vp.clipCoord
      = (vq.clipCoord - vp.clipCoord)
          * (a + vp.clipCoord / (vp.clipCoord - vq.clipCoord) * (b - a)) := by
    intro a b
    field_simp
    ring
  constructor
  · simp only [clipVertex, FeedbackVertex.ofVec4, clipPosToDevice, Vec4.divScalar, Vec4.sub,
      Vec4.scale, devicePos, XFBPostTransform, Vec4.lerp, Vec3.mk.injEq]
    rw [key vp.pos.x vq.pos.x, key vp.pos.y vq.pos.y, key vp.pos.z vq.pos.z,
      key vp.pos.w vq.pos.w, mul_div_mul_left _ _ hk, mul_div_mul_left _ _ hk,
      mul_div_mul_left _ _ hk]
    refine ⟨?_, ?_, rfl⟩ <;> ring
  · simp only [lineClipVert, Vec4.divScalar, Vec4.sub,
      Vec4.scale, devicePos, XFBPostTransform, Vec4.lerp, Vec3.mk.injEq]
    rw [key vp.pos.x vq.pos.x, key vp.pos.y vq.pos.y, key vp.pos.z vq.pos.z,
      key vp.pos.w vq.pos.w, mul_div_mul_left _ _ hk, mul_div_mul_left _ _ hk,
      mul_div_mul_left _ _ hk]
    exact ⟨rfl, rfl, rfl⟩

/-- C11: on a crossing edge with endpoints `p`, `q` of positive `w`, the
vertex synthesized from the homogeneous formula `P_p d_q - P_q d_p`, by the
triangle routine and by the line routine, has after perspective divide and
viewport remap exactly the device position of the clip-space point
`P_p + t (P_q - P_p)` with `t = d_p / (d_p - d_q)`, the point of the edge where
the linearly interpolated clip distance is zero; both homogeneous `w` are
non-zero, so the divides are defined and the scale `d_q - d_p` cancels. -/
theorem clip_position_exact (half_w half_h : ℚ) (vp vq : ShaderXfbVertex)
    (hwp : 0 < vp.pos.w) (hwq : 0 < vq.pos.w) (hc : Crossing vp vq) :
    (clipVertex half_w half_h vp vq).position
      = devicePos (Vec4.lerp vp.pos vq.pos (clipFraction vp vq)) half_w half_h ∧
    (XFBPostTransform (lineClipVert vp vq) half_w half_h).position
      = devicePos (Vec4.lerp vp.pos vq.pos (clipFraction vp vq)) half_w half_h ∧
    clipFraction vp vq = vp.clipCoord / (vp.clipCoord - vq.clipCoord) ∧
    vp.clipCoord + clipFraction vp vq * (vq.clipCoord - vp.clipCoord) = 0 ∧
    vp.pos.w * vq.clipCoord - vq.pos.w * vp.clipCoord ≠ 0 ∧
    (Vec4.lerp vp.pos vq.pos (clipFraction vp vq)).w ≠ 0 := by
  have hd := crossing_dist_ne vp vq hc
  refine ⟨(clip_devicePos half_w half_h vp vq hc).1, (clip_devicePos half_w half_h vp vq hc).2,
    rfl, ?_, clip_w_ne_zero vp vq hwp hwq hc, lerp_w_ne_zero vp vq hwp hwq hc⟩
  simp only [clipFraction]
  field_simp
  ring

/-- Witness of C11: the edge from `P` (distance 2, `w = 1`) to `Q` (distance
-1, `w = 2`), whose intersection point lies at the clip-space fraction 2/3. -/
theorem clip_position_exact_witness :
    (clipVertex 1 1 sampleP sampleQ).position
      = devicePos (Vec4.lerp sampleP.pos sampleQ.pos (clipFraction sampleP sampleQ)) 1 1 ∧
    (XFBPostTransform (lineClipVert sampleP sampleQ) 1 1).position
      = devicePos (Vec4.lerp sampleP.pos sampleQ.pos (clipFraction sampleP sampleQ)) 1 1 :=
  ⟨(clip_position_exact 1 1 sampleP sampleQ (by norm_num [sampleP]) (by norm_num [sampleQ])
      (Or.inl ⟨by norm_num [sampleP], by norm_num [sampleQ]⟩)).1,
   (clip_position_exact 1 1 sampleP sampleQ (by norm_num [sampleP]) (by norm_num [sampleQ])
      (Or.inl ⟨by norm_num [sampleP], by norm_num [sampleQ]⟩)).2.1⟩

/-- The colour formula of the clip routines on one channel: interpolating
with the factors `d / w` is interpolating linearly at the device-space
fraction `d_p w_q / (d_p w_q - d_q w_p)`. -/
theorem clip_channel_device_linear (cp cq dp dq wp wq : ℚ) (hp : wp ≠ 0) (hq : wq ≠ 0)
    (hD : dp * wq - dq * wp ≠ 0) :
    (cp * (dq / wq) - cq * (dp / wp)) / (dq / wq - dp / wp)
      = cp + dp * wq / (dp * wq - dq * wp) * (cq - cp) := by
  have hden : dq / wq - dp / wp ≠ 0 := by
    have e : dq / wq - dp / wp = -(dp * wq - dq * wp) / (wp * wq) := by
      field_simp
      ring
    rw [e]
    exact div_ne_zero (neg_ne_zero.mpr hD) (mul_ne_zero hp hq)
  rw [div_eq_iff hden]
  field_simp
  ring

/-- The colour of a synthesized clip vertex is the linear interpolation of
the endpoint colours at the device-space fraction of its position. -/
theorem clip_color_device_linear (vp vq : ShaderXfbVertex)
    (hwp : 0 < vp.pos.w) (hwq : 0 < vq.pos.w) (hc : Crossing vp vq) :
    (lineClipVert vp vq).color
      = Vec4.lerp vp.color vq.color (deviceFraction vp vq) := by
  have hW := clip_w_ne_zero vp vq hwp hwq hc
  have hD : vp.clipCoord * vq.pos.w - vq.clipCoord * vp.pos.w ≠ 0 := by
    intro h
    exact hW (by linarith)
  have hp : vp.pos.w ≠ 0 := ne_of_gt hwp
  have hq : vq.pos.w ≠ 0 := ne_of_gt hwq
  simp only [lineClipVert, Vec4.divScalar, Vec4.sub, Vec4.scale, Vec4.lerp, deviceFraction,
    Vec4.mk.injEq]
  exact ⟨clip_channel_device_linear _ _ _ _ _ _ hp hq hD,
    clip_channel_device_linear _ _ _ _ _ _ hp hq hD,
    clip_channel_device_linear _ _ _ _ _ _ hp hq hD,
    clip_channel_device_linear _ _ _ _ _ _ hp hq hD⟩

/-- The triangle routine and the line routine give a synthesized vertex the
same colour. -/
theorem clipVertex_color (half_w half_h : ℚ) (vp vq : ShaderXfbVertex) :
    (clipVertex half_w half_h vp vq).color = (lineClipVert vp vq).color := rfl

/-- Counterexample to C12 as stated: on the edge from `P` (red, distance 2,
`w = 1`) to `Q` (blue, distance -1, `w = 2`) both routines synthesize a vertex
at the device-space fraction 4/5 and give it the colour `(1/5, 0, 4/5, 1)`,
the linear interpolation in device space, while the expression of the claim
at that fraction, which is the clip-space interpolation at `t = 2/3`, is
`(1/3, 0, 2/3, 1)`. -/
theorem clip_color_not_perspective_correct :
    (processLineXfbBuffer sampleDevice emptyCapture [sampleP, sampleQ]).lines
      = [⟨⟨17 / 5, 1, 0⟩, ⟨1 / 5, 0, 4 / 5, 1⟩⟩, ⟨⟨1, 1, 0⟩, ⟨1, 0, 0, 1⟩⟩] ∧
    (processTriangleXfbBuffer sampleDevice emptyCapture
        [sampleP, sampleB, sampleQ]).triangles.map (fun v => v.color)
      = [⟨1, 0, 0, 1⟩, ⟨1 / 5, 0, 4 / 5, 1⟩, ⟨0, 1 / 3, 2 / 3, 1⟩,
         ⟨1, 0, 0, 1⟩, ⟨0, 1 / 3, 2 / 3, 1⟩, ⟨0, 1, 0, 1⟩] ∧
    (XFBPostTransform sampleP 1 1).position = ⟨1, 1, 0⟩ ∧
    (XFBPostTransform sampleQ 1 1).position = ⟨4, 1, 0⟩ ∧
    (17 / 5 : ℚ) = 1 + 4 / 5 * (4 - 1) ∧
    deviceFraction sampleP sampleQ = 4 / 5 ∧
    clipFraction sampleP sampleQ = 2 / 3 ∧
    perspectiveCorrect (4 / 5) sampleP.color sampleP.pos.w sampleQ.color sampleQ.pos.w
      = ⟨1 / 3, 0, 2 / 3, 1⟩ ∧
    Vec4.lerp sampleP.color sampleQ.color (2 / 3) = ⟨1 / 3, 0, 2 / 3, 1⟩ := by
  refine ⟨?_, ?_, ?_, ?_, ?_, ?_, ?_, ?_, ?_⟩
  · simp [processLineXfbBuffer, clipLine, sampleDevice, sampleP, sampleQ, emptyCapture,
      CaptureBuffer.pushLine, XFBPostTransform, Vec4.scale, Vec4.sub, Vec4.divScalar,
      List.range_succ]
    norm_num
  · rw [processTriangle_single _ _ _ _ _ rfl]
    simp [clipTriangle, clipMixedTriangle, sampleDevice, sampleP, sampleB, sampleQ,
      emptyCapture, CaptureBuffer.pushTriangle, XFBPostTransform, FeedbackVertex.ofVec4,
      clipPosToDevice, Vec4.scale, Vec4.sub, Vec4.divScalar]
    norm_num
  · simp [XFBPostTransform, sampleP]
  · simp [XFBPostTransform, sampleQ]
    norm_num
  · norm_num
  · norm_num [deviceFraction, sampleP, sampleQ]
  · norm_num [clipFraction, sampleP, sampleQ]
  · simp [perspectiveCorrect, sampleP, sampleQ]
    norm_num
  · simp [Vec4.lerp, sampleP, sampleQ]
    norm_num

/-! ## Theorems: the line clipper -/

/-- The loop body at the segment starting at index `i` is the loop body run
on that segment alone. -/
theorem CoreGLDevice.clipLine_eq_single (u : Bool) (half_w half_h : ℚ)
    (verts : List ShaderXfbVertex) (cbuf : CaptureBuffer) (i : ℕ) (v0 v1 : ShaderXfbVertex)
    (hv0 : verts.getD i default = v0) (hv1 : verts.getD (i + 1) default = v1) :
    clipLine u half_w half_h verts cbuf i = clipLine u half_w half_h [v0, v1] cbuf 0 := by
  by_cases hc : v0.clipCoord < 0 <;>
    simp only [clipLine, hv0, hv1, hc, if_true, if_false, List.getD_cons_zero,
      List.getD_cons_succ, zero_add]

/-- The loop body only appends to the line list: it appends the output of
its segment. -/
theorem CoreGLDevice.clipLine_single (u : Bool) (half_w half_h : ℚ) (cbuf : CaptureBuffer)
    (v0 v1 : ShaderXfbVertex) :
    clipLine u half_w half_h [v0, v1] cbuf 0
      = { cbuf with lines := cbuf.lines ++ lineSegmentOut u half_w half_h v0 v1 } := by
  simp only [lineSegmentOut, clipLine, emptyCapture]
  split_ifs <;> simp [CaptureBuffer.pushLine]

/-- The output of a segment with both endpoints inside, or with no clip
plane: the two post-transformed endpoints. -/
theorem lineSegmentOut_inside (u : Bool) (half_w half_h : ℚ) (v0 v1 : ShaderXfbVertex)
    (h : u = false ∨ (0 ≤ v0.clipCoord ∧ 0 ≤ v1.clipCoord)) :
    lineSegmentOut u half_w half_h v0 v1
      = [XFBPostTransform v0 half_w half_h, XFBPostTransform v1 half_w half_h] := by
  rcases h with h | h
  · simp [lineSegmentOut, clipLine, h, emptyCapture, CaptureBuffer.pushLine]
  · simp [lineSegmentOut, clipLine, h, emptyCapture, CaptureBuffer.pushLine]

/-- The output of a segment with both endpoints outside is empty. -/
theorem lineSegmentOut_outside (half_w half_h : ℚ) (v0 v1 : ShaderXfbVertex)
    (h0 : v0.clipCoord < 0) (h1 : v1.clipCoord < 0) :
    lineSegmentOut true half_w half_h v0 v1 = [] := by
  simp [lineSegmentOut, clipLine, h0, h1, not_le.mpr h0, emptyCapture]

/-- The output of a crossing segment: the intersection vertex, then the
post-transformed inside endpoint. -/
theorem lineSegmentOut_crossing (half_w half_h : ℚ) (v0 v1 : ShaderXfbVertex) :
    (0 ≤ v0.clipCoord → v1.clipCoord < 0 →
      lineSegmentOut true half_w half_h v0 v1
        = [XFBPostTransform (lineClipVert v0 v1) half_w half_h,
           XFBPostTransform v0 half_w half_h]) ∧
    (v0.clipCoord < 0 → 0 ≤ v1.clipCoord →
      lineSegmentOut true half_w half_h v0 v1
        = [XFBPostTransform (lineClipVert v1 v0) half_w half_h,
           XFBPostTransform v1 half_w half_h]) := by
  constructor
  · intro h0 h1
    simp [lineSegmentOut, clipLine, h0, h1, not_le.mpr h1, not_lt.mpr h0, emptyCapture,
      CaptureBuffer.pushLine, lineClipVert]
  · intro h0 h1
    simp [lineSegmentOut, clipLine, h0, h1, not_le.mpr h0, not_lt.mpr h1, emptyCapture,
      CaptureBuffer.pushLine, lineClipVert]

/-- The loop of `processLineXfbBuffer` over the segments of an even-length
list appends the outputs of the segments in order. -/
theorem CoreGLDevice.foldl_clipLine (u : Bool) (half_w half_h : ℚ) (m : ℕ) :
    ∀ (verts : List ShaderXfbVertex) (cbuf : CaptureBuffer), verts.length = 2 * m →
      ((List.range m).map (fun k => 2 * k)).foldl (clipLine u half_w half_h verts) cbuf
        = { cbuf with lines := cbuf.lines ++ lineOut u half_w half_h verts } := by
  induction m with
  | zero =>
    intro verts cbuf hlen
    have : verts = [] := List.length_eq_zero.mp (by simpa using hlen)
    subst this
    simp [lineOut]
  | succ m ih =>
    intro verts cbuf hlen
    match verts, hlen with
    | v0 :: v1 :: rest, hlen =>
      have hrest : rest.length = 2 * m := by
        simp only [List.length_cons] at hlen
        omega
      rw [List.range_succ_eq_map, List.map_cons, List.foldl_cons, List.map_map,
        clipLine_eq_single u half_w half_h (v0 :: v1 :: rest) cbuf (2 * 0) v0 v1 rfl rfl,
        clipLine_single, List.foldl_map]
      have hshift : ∀ (cb : CaptureBuffer) (k : ℕ), k ∈ List.range m →
          clipLine u half_w half_h (v0 :: v1 :: rest) cb (((fun k => 2 * k) ∘ Nat.succ) k)
            = clipLine u half_w half_h rest cb (2 * k) := by
        intro cb k _
        have e : ((fun k => 2 * k) ∘ Nat.succ) k = 2 * k + 1 + 1 := by
          simp only [Function.comp, Nat.succ_eq_add_one]
          ring
        rw [e, clipLine_eq_single u half_w half_h (v0 :: v1 :: rest) cb (2 * k + 1 + 1)
          (rest.getD (2 * k) default) (rest.getD (2 * k + 1) default) rfl rfl,
          clipLine_eq_single u half_w half_h rest cb (2 * k)
          (rest.getD (2 * k) default) (rest.getD (2 * k + 1) default) rfl rfl]
      rw [List.foldl_ext _ (fun cb k => clipLine u half_w half_h rest cb (2 * k)) _ hshift,
        ← List.foldl_map, ih rest _ hrest]
      simp [lineOut]

/-- The routine on an even-length list appends the outputs of its segments in
order and leaves the triangle list alone. -/
theorem CoreGLDevice.processLine_eq (dev : CoreGLDevice) (cbuf : CaptureBuffer)
    (verts : List ShaderXfbVertex) (heven : verts.length % 2 = 0) :
    processLineXfbBuffer dev cbuf verts
      = { cbuf with lines := cbuf.lines ++
            (lineOut dev._use_clip_plane (dev._vp_width * (1 / 2)) (dev._vp_height * (1 / 2))
              verts) } := by
  have hm : verts.length = 2 * (verts.length / 2) := by omega
  have hr : (verts.length + 1) / 2 = verts.length / 2 := by omega
  simp only [processLineXfbBuffer, hr]
  exact foldl_clipLine _ _ _ _ verts cbuf hm

/-- C13: with the clip plane active, a segment of positive `w` with one
endpoint inside (distance `d_in >= 0`) and the other outside (`d_out < 0`), in
either order, appends exactly 2 vertices: first the plane-intersection vertex,
then the post-transformed inside endpoint; the intersection has the device
position of the point at the fraction `d_in / (d_in - d_out)` from the inside
to the outside endpoint of the clip-space segment.  Stated for the loop body
at any index and for the routine on a one-segment input. -/
theorem line_mixed_segment (dev : CoreGLDevice) (cbuf : CaptureBuffer)
    (verts : List ShaderXfbVertex) (i : ℕ) (v0 v1 : ShaderXfbVertex)
    (hv0 : verts.getD i default = v0) (hv1 : verts.getD (i + 1) default = v1)
    (hclip : dev._use_clip_plane = true) (hw0 : 0 < v0.pos.w) (hw1 : 0 < v1.pos.w)
    (hc : Crossing v0 v1) :
    ∃ vin vout : ShaderXfbVertex,
      ((vin = v0 ∧ vout = v1) ∨ (vin = v1 ∧ vout = v0)) ∧
      0 ≤ vin.clipCoord ∧ vout.clipCoord < 0 ∧ 0 < vin.pos.w ∧ 0 < vout.pos.w ∧
      clipLine dev._use_clip_plane (dev._vp_width * (1 / 2)) (dev._vp_height * (1 / 2))
          verts cbuf i
        = { cbuf with lines := cbuf.lines ++
              [XFBPostTransform (lineClipVert vin vout) (dev._vp_width * (1 / 2))
                 (dev._vp_height * (1 / 2)),
               XFBPostTransform vin (dev._vp_width * (1 / 2)) (dev._vp_height * (1 / 2))] } ∧
      processLineXfbBuffer dev cbuf [v0, v1]
        = { cbuf with lines := cbuf.lines ++
              [XFBPostTransform (lineClipVert vin vout) (dev._vp_width * (1 / 2))
                 (dev._vp_height * (1 / 2)),
               XFBPostTransform vin (dev._vp_width * (1 / 2)) (dev._vp_height * (1 / 2))] } ∧
      (XFBPostTransform (lineClipVert vin vout) (dev._vp_width * (1 / 2))
          (dev._vp_height * (1 / 2))).position
        = devicePos
            (Vec4.lerp vin.pos vout.pos (vin.clipCoord / (vin.clipCoord - vout.clipCoord)))
            (dev._vp_width * (1 / 2)) (dev._vp_height * (1 / 2)) := by
  have hbody : ∀ out : List FeedbackVertex,
      lineSegmentOut true (dev._vp_width * (1 / 2)) (dev._vp_height * (1 / 2)) v0 v1 = out →
      clipLine dev._use_clip_plane (dev._vp_width * (1 / 2)) (dev._vp_height * (1 / 2))
          verts cbuf i = { cbuf with lines := cbuf.lines ++ out } ∧
      processLineXfbBuffer dev cbuf [v0, v1] = { cbuf with lines := cbuf.lines ++ out } := by
    intro out hout
    constructor
    · rw [clipLine_eq_single _ _ _ verts cbuf i v0 v1 hv0 hv1, clipLine_single, hclip, hout]
    · rw [processLine_eq dev cbuf [v0, v1] (by simp), hclip]
      simp only [lineOut, hout, List.append_nil]
  rcases hc with ⟨h0, h1⟩ | ⟨h0, h1⟩
  · obtain ⟨hb1, hb2⟩ := hbody _ ((lineSegmentOut_crossing _ _ v0 v1).1 h0 h1)
    exact ⟨v0, v1, Or.inl ⟨rfl, rfl⟩, h0, h1, hw0, hw1, hb1, hb2,
      (clip_devicePos _ _ v0 v1 (Or.inl ⟨h0, h1⟩)).2⟩
  · obtain ⟨hb1, hb2⟩ := hbody _ ((lineSegmentOut_crossing _ _ v0 v1).2 h0 h1)
    exact ⟨v1, v0, Or.inr ⟨rfl, rfl⟩, h1, h0, hw1, hw0, hb1, hb2,
      (clip_devicePos _ _ v1 v0 (Or.inl ⟨h1, h0⟩)).2⟩

/-- Witness of C13: the segment `Q, P` with clip distances -1, +2 is clipped
to the intersection vertex, at the fraction 2/3 from `P` to `Q`, followed by
`P`. -/
theorem line_mixed_segment_witness :
    processLineXfbBuffer sampleDevice emptyCapture [sampleQ, sampleP]
      = { emptyCapture with lines := emptyCapture.lines ++
            [XFBPostTransform (lineClipVert sampleP sampleQ) (sampleDevice._vp_width * (1 / 2))
               (sampleDevice._vp_height * (1 / 2)),
             XFBPostTransform sampleP (sampleDevice._vp_width * (1 / 2))
               (sampleDevice._vp_height * (1 / 2))] } ∧
    (XFBPostTransform (lineClipVert sampleP sampleQ) (sampleDevice._vp_width * (1 / 2))
        (sampleDevice._vp_height * (1 / 2))).position
      = devicePos (Vec4.lerp sampleP.pos sampleQ.pos (2 / 3))
          (sampleDevice._vp_width * (1 / 2)) (sampleDevice._vp_height * (1 / 2)) := by
  obtain ⟨vin, vout, hcase, hin, _, _, _, _, hrun, hpos⟩ :=
    line_mixed_segment sampleDevice emptyCapture [sampleQ, sampleP] 0 sampleQ sampleP rfl rfl
      rfl (by norm_num [sampleQ]) (by norm_num [sampleP])
      (Or.inr ⟨by norm_num [sampleQ], by norm_num [sampleP]⟩)
  have hfrac : sampleP.clipCoord / (sampleP.clipCoord - sampleQ.clipCoord) = 2 / 3 := by
    norm_num [sampleP, sampleQ]
  rcases hcase with ⟨rfl, rfl⟩ | ⟨rfl, rfl⟩
  · exact absurd hin (by norm_num [sampleQ])
  · rw [hfrac] at hpos
    exact ⟨hrun, hpos⟩

/-- C14: with the clip plane active, the line routine on an even-length
list appends the outputs of its 2-vertex segments, each depending on its own
two endpoints only, in input order; a segment with both clip distances
non-negative gives exactly its two post-transformed endpoints in order, and a
segment with both negative gives nothing. -/
theorem line_same_side (dev : CoreGLDevice) (cbuf : CaptureBuffer)
    (verts : List ShaderXfbVertex) (hclip : dev._use_clip_plane = true)
    (heven : verts.length % 2 = 0) :
    processLineXfbBuffer dev cbuf verts
      = { cbuf with lines := cbuf.lines ++
            (lineOut true (dev._vp_width * (1 / 2)) (dev._vp_height * (1 / 2)) verts) } ∧
    (∀ (v0 v1 : ShaderXfbVertex) (rest : List ShaderXfbVertex),
      lineOut true (dev._vp_width * (1 / 2)) (dev._vp_height * (1 / 2)) (v0 :: v1 :: rest)
        = lineSegmentOut true (dev._vp_width * (1 / 2)) (dev._vp_height * (1 / 2)) v0 v1
          ++ lineOut true (dev._vp_width * (1 / 2)) (dev._vp_height * (1 / 2)) rest) ∧
    (∀ i : ℕ,
      clipLine true (dev._vp_width * (1 / 2)) (dev._vp_height * (1 / 2)) verts cbuf i
        = { cbuf with lines := cbuf.lines ++
              (lineSegmentOut true (dev._vp_width * (1 / 2)) (dev._vp_height * (1 / 2))
                (verts.getD i default) (verts.getD (i + 1) default)) }) ∧
    (∀ v0 v1 : ShaderXfbVertex, 0 ≤ v0.clipCoord → 0 ≤ v1.clipCoord →
      lineSegmentOut true (dev._vp_width * (1 / 2)) (dev._vp_height * (1 / 2)) v0 v1
        = [XFBPostTransform v0 (dev._vp_width * (1 / 2)) (dev._vp_height * (1 / 2)),
           XFBPostTransform v1 (dev._vp_width * (1 / 2)) (dev._vp_height * (1 / 2))]) ∧
    (∀ v0 v1 : ShaderXfbVertex, v0.clipCoord < 0 → v1.clipCoord < 0 →
      lineSegmentOut true (dev._vp_width * (1 / 2)) (dev._vp_height * (1 / 2)) v0 v1 = []) := by
  refine ⟨?_, fun _ _ _ => rfl, ?_, ?_, ?_⟩
  · rw [processLine_eq dev cbuf verts heven, hclip]
  · intro i
    rw [clipLine_eq_single _ _ _ verts cbuf i _ _ rfl rfl, clipLine_single]
  · intro v0 v1 h0 h1
    exact lineSegmentOut_inside true _ _ v0 v1 (Or.inr ⟨h0, h1⟩)
  · intro v0 v1 h0 h1
    exact lineSegmentOut_outside _ _ v0 v1 h0 h1

/-- Witness of C14: of the segments `A, B` (both inside) and `C, E` (both
outside) only the first is emitted, unchanged. -/
theorem line_same_side_witness :
    (processLineXfbBuffer sampleDevice emptyCapture
        [sampleA, sampleB, sampleC, sampleE]).lines
      = [XFBPostTransform sampleA (sampleDevice._vp_width * (1 / 2))
           (sampleDevice._vp_height * (1 / 2)),
         XFBPostTransform sampleB (sampleDevice._vp_width * (1 / 2))
           (sampleDevice._vp_height * (1 / 2))] := by
  obtain ⟨h1, h2, _, h4, h5⟩ :=
    line_same_side sampleDevice emptyCapture [sampleA, sampleB, sampleC, sampleE] rfl rfl
  rw [h1, h2, h2, h4 sampleA sampleB (by norm_num [sampleA]) (by norm_num [sampleB]),
    h5 sampleC sampleE (by norm_num [sampleC]) (by norm_num [sampleE])]
  rfl

/-- A loop whose body changes nothing at every index changes nothing. -/
theorem foldl_fixed {σ ι : Type} (f : σ → ι → σ) (s : σ) :
    ∀ l : List ι, (∀ i ∈ l, f s i = s) → l.foldl f s = s
  | [], _ => rfl
  | i :: rest, h => by
    rw [List.foldl_cons, h i (List.mem_cons_self _ _)]
    exact foldl_fixed f s rest (fun j hj => h j (List.mem_cons_of_mem _ hj))

/-- The loop body leaves the capture buffer as it is at a triangle whose three
clip distances are negative. -/
theorem CoreGLDevice.clipTriangle_outside (half_w half_h : ℚ) (verts : List ShaderXfbVertex)
    (cbuf : CaptureBuffer) (t_i : ℕ)
    (h0 : (verts.getD (t_i * 3) default).clipCoord < 0)
    (h1 : (verts.getD (t_i * 3 + 1) default).clipCoord < 0)
    (h2 : (verts.getD (t_i * 3 + 2) default).clipCoord < 0) :
    clipTriangle half_w half_h verts cbuf t_i = cbuf := by
  simp only [clipTriangle, ge_iff_le, not_le.mpr h0, false_and, if_false, h0, h1, h2,
    and_self, if_true]

/-- C15: with the clip plane active, a triangle whose three clip distances are
all negative contributes no output vertex: the loop body leaves the capture
buffer as it is; an input consisting only of such triangles leaves the whole
capture buffer, so its triangle list, unchanged. -/
theorem triangle_all_outside (dev : CoreGLDevice) (cbuf : CaptureBuffer)
    (verts : List ShaderXfbVertex) (hclip : dev._use_clip_plane = true) :
    (∀ t_i : ℕ,
      (verts.getD (t_i * 3) default).clipCoord < 0 →
      (verts.getD (t_i * 3 + 1) default).clipCoord < 0 →
      (verts.getD (t_i * 3 + 2) default).clipCoord < 0 →
      clipTriangle (dev._vp_width * (1 / 2)) (dev._vp_height * (1 / 2)) verts cbuf t_i
        = cbuf) ∧
    ((∀ t_i : ℕ, t_i < verts.length / 3 →
        (verts.getD (t_i * 3) default).clipCoord < 0 ∧
        (verts.getD (t_i * 3 + 1) default).clipCoord < 0 ∧
        (verts.getD (t_i * 3 + 2) default).clipCoord < 0) →
      processTriangleXfbBuffer dev cbuf verts = cbuf ∧
      (processTriangleXfbBuffer dev cbuf verts).triangles = cbuf.triangles) := by
  constructor
  · intro t_i h0 h1 h2
    exact clipTriangle_outside _ _ verts cbuf t_i h0 h1 h2
  · intro h
    have hrun : processTriangleXfbBuffer dev cbuf verts = cbuf := by
      simp only [processTriangleXfbBuffer, hclip, Bool.not_true, Bool.false_eq_true, if_false]
      apply foldl_fixed
      intro t_i ht
      obtain ⟨h0, h1, h2⟩ := h t_i (List.mem_range.mp ht)
      exact clipTriangle_outside _ _ verts cbuf t_i h0 h1 h2
    exact ⟨hrun, by rw [hrun]⟩

/-- Witness of C15: the triangle `C, E, C` with clip distances -1, -2, -1
leaves the empty capture buffer empty. -/
theorem triangle_all_outside_witness :
    processTriangleXfbBuffer sampleDevice emptyCapture [sampleC, sampleE, sampleC]
      = emptyCapture :=
  ((triangle_all_outside sampleDevice emptyCapture [sampleC, sampleE, sampleC] rfl).2
    (by
      intro t_i ht
      have h0 : t_i = 0 := by
        have : t_i < 1 := ht
        omega
      subst h0
      exact ⟨by norm_num [sampleC], by norm_num [sampleE], by norm_num [sampleC]⟩)).1

/-- The bypass loop of the triangle routine appends the post-transformed
vertices in order. -/
theorem CoreGLDevice.foldl_pushTriangle (g : ShaderXfbVertex → FeedbackVertex) :
    ∀ (verts : List ShaderXfbVertex) (cbuf : CaptureBuffer),
      (List.range verts.length).foldl
          (fun cb i => cb.pushTriangle (g (verts.getD i default))) cbuf
        = { cbuf with triangles := cbuf.triangles ++ verts.map g }
  | [], cbuf => by simp
  | v :: rest, cbuf => by
    have ih := foldl_pushTriangle g rest (cbuf.pushTriangle (g v))
    rw [List.length_cons, List.range_succ_eq_map, List.foldl_cons, List.foldl_map]
    simp only [List.getD_cons_zero, Nat.succ_eq_add_one, List.getD_cons_succ]
    rw [ih]
    simp [CaptureBuffer.pushTriangle]

/-- Without a clip plane the output of an even-length list of segments is the
list of its post-transformed vertices. -/
theorem lineOut_no_clip (half_w half_h : ℚ) (m : ℕ) :
    ∀ verts : List ShaderXfbVertex, verts.length = 2 * m →
      lineOut false half_w half_h verts
        = verts.map (fun v => XFBPostTransform v half_w half_h) := by
  induction m with
  | zero =>
    intro verts hlen
    have : verts = [] := List.length_eq_zero.mp (by simpa using hlen)
    subst this
    rfl
  | succ m ih =>
    intro verts hlen
    match verts, hlen with
    | v0 :: v1 :: rest, hlen =>
      have hrest : rest.length = 2 * m := by
        simp only [List.length_cons] at hlen
        omega
      simp only [lineOut, ih rest hrest,
        lineSegmentOut_inside false half_w half_h v0 v1 (Or.inl rfl)]
      rfl

/-- The post-transform does not read the clip distance. -/
theorem XFBPostTransform_clipCoord (v : ShaderXfbVertex) (d half_w half_h : ℚ) :
    XFBPostTransform { v with clipCoord := d } half_w half_h
      = XFBPostTransform v half_w half_h := rfl

/-- C16: with no clip plane active both clip routines bypass classification:
the triangle routine, and the line routine on an even-length list, append
exactly the input vertices in order, each perspective-divided and remapped to
the viewport, so the output count is the input count; and replacing the clip
distances of the vertices by any other values leaves the result unchanged. -/
theorem no_clip_bypass (dev : CoreGLDevice) (cbuf : CaptureBuffer)
    (verts : List ShaderXfbVertex) (hclip : dev._use_clip_plane = false) :
    processTriangleXfbBuffer dev cbuf verts
      = { cbuf with triangles := cbuf.triangles ++
            verts.map (fun v =>
              XFBPostTransform v (dev._vp_width * (1 / 2)) (dev._vp_height * (1 / 2))) } ∧
    (verts.length % 2 = 0 →
      processLineXfbBuffer dev cbuf verts
        = { cbuf with lines := cbuf.lines ++
              verts.map (fun v =>
                XFBPostTransform v (dev._vp_width * (1 / 2)) (dev._vp_height * (1 / 2))) }) ∧
    (verts.map (fun v =>
        XFBPostTransform v (dev._vp_width * (1 / 2)) (dev._vp_height * (1 / 2)))).length
      = verts.length ∧
    (∀ f : ShaderXfbVertex → ℚ,
      processTriangleXfbBuffer dev cbuf (verts.map (fun v => { v with clipCoord := f v }))
        = processTriangleXfbBuffer dev cbuf verts) ∧
    (∀ f : ShaderXfbVertex → ℚ, verts.length % 2 = 0 →
      processLineXfbBuffer dev cbuf (verts.map (fun v => { v with clipCoord := f v }))
        = processLineXfbBuffer dev cbuf verts) := by
  have htri : ∀ vs : List ShaderXfbVertex, processTriangleXfbBuffer dev cbuf vs
      = { cbuf with triangles := cbuf.triangles ++
            (vs.map (fun v =>
              XFBPostTransform v (dev._vp_width * (1 / 2)) (dev._vp_height * (1 / 2)))) } := by
    intro vs
    simp only [processTriangleXfbBuffer, hclip, Bool.not_false, if_true]
    exact foldl_pushTriangle
      (fun v => XFBPostTransform v (dev._vp_width * (1 / 2)) (dev._vp_height * (1 / 2)))
      vs cbuf
  have hline : ∀ vs : List ShaderXfbVertex, vs.length % 2 = 0 →
      processLineXfbBuffer dev cbuf vs
        = { cbuf with lines := cbuf.lines ++
              (vs.map (fun v =>
                XFBPostTransform v (dev._vp_width * (1 / 2)) (dev._vp_height * (1 / 2)))) } := by
    intro vs hvs
    rw [processLine_eq dev cbuf vs hvs, hclip,
      lineOut_no_clip _ _ (vs.length / 2) vs (by omega)]
  have hmap : ∀ f : ShaderXfbVertex → ℚ,
      (verts.map (fun v => ({ v with clipCoord := f v } : ShaderXfbVertex))).map (fun v =>
          XFBPostTransform v (dev._vp_width * (1 / 2)) (dev._vp_height * (1 / 2)))
        = verts.map (fun v =>
            XFBPostTransform v (dev._vp_width * (1 / 2)) (dev._vp_height * (1 / 2))) := by
    intro f
    rw [List.map_map]
    rfl
  refine ⟨htri verts, hline verts, List.length_map _ _, ?_, ?_⟩
  · intro f
    rw [htri, htri, hmap f]
  · intro f heven
    rw [hline _ (by rw [List.length_map]; exact heven), hline _ heven, hmap f]

/-- Witness of C16: without a clip plane the segment `A, C`, whose second
endpoint has a negative clip distance, is emitted whole. -/
theorem no_clip_bypass_witness :
    processLineXfbBuffer sampleDeviceNoClip emptyCapture [sampleA, sampleC]
      = { emptyCapture with lines := emptyCapture.lines ++
            [sampleA, sampleC].map (fun v =>
              XFBPostTransform v (sampleDeviceNoClip._vp_width * (1 / 2))
                (sampleDeviceNoClip._vp_height * (1 / 2))) } :=
  (no_clip_bypass sampleDeviceNoClip emptyCapture [sampleA, sampleC] rfl).2.1 rfl

/-! ## Theorems: `captureXfbBuffer` -/

/-- The vector handed to the clip routine has `count * sizeof(ShaderXfbVertex)`
records: the byte count `buf_size` is used as its element count. -/
theorem CoreGLDevice.readBackXfb_length (buf : IVertexBuffer) (gpu : List ShaderXfbVertex) :
    (readBackXfb buf gpu).length = buf.count * sizeofShaderXfbVertex := by
  simp only [readBackXfb, List.length_append, List.length_drop, List.length_replicate,
    List.length_take, sizeofShaderXfbVertex]
  omega

/-- C17 at a failing input: for a source buffer of 3 vertices and the 3
feedback records `A, B, C` the vector handed to the clip routine does not have
3 records but `3 * 36 = 108`, the 3 records read back followed by 105
value-initialised ones, and without a clip plane all 108 are emitted. -/
theorem capture_readback_oversized :
    sampleSource.count = 3 ∧
    (readBackXfb sampleSource [sampleA, sampleB, sampleC]).length = 108 ∧
    (readBackXfb sampleSource [sampleA, sampleB, sampleC]).length ≠ sampleSource.count ∧
    readBackXfb sampleSource [sampleA, sampleB, sampleC]
      = [sampleA, sampleB, sampleC] ++ List.replicate 105 default ∧
    (captureXfbBuffer sampleDeviceNoClip emptyCapture array_layout.LAYOUT_VTX_NORMAL_COLOR
        sampleSource [sampleA, sampleB, sampleC]).triangles.length = 108 := by
  have hlen : (readBackXfb sampleSource [sampleA, sampleB, sampleC]).length = 108 := by
    rw [readBackXfb_length]
    rfl
  refine ⟨rfl, hlen, ?_, ?_, ?_⟩
  · rw [hlen]
    decide
  · simp [readBackXfb, sampleSource, sizeofShaderXfbVertex, List.drop_replicate]
  · have hcap : captureXfbBuffer sampleDeviceNoClip emptyCapture
        array_layout.LAYOUT_VTX_NORMAL_COLOR sampleSource [sampleA, sampleB, sampleC]
        = processTriangleXfbBuffer sampleDeviceNoClip emptyCapture
            (readBackXfb sampleSource [sampleA, sampleB, sampleC]) := by
      simp [captureXfbBuffer, sampleSource]
    rw [hcap]
    simp only [processTriangleXfbBuffer, sampleDeviceNoClip, Bool.not_false, if_true]
    rw [foldl_pushTriangle
      (fun v => XFBPostTransform v ((2 : ℚ) * (1 / 2)) ((2 : ℚ) * (1 / 2)))]
    simp [emptyCapture, hlen]

/-- C18: in the build for the web the capture routine returns for every
layout and source buffer and leaves both lists of the capture buffer
unchanged, so an empty capture buffer stays empty. -/
theorem capture_unavailable_web (dev : CoreGLDevice) (cbuf : CaptureBuffer)
    (layout : array_layout) (buf : IVertexBuffer) :
    captureXfbBufferWeb dev cbuf layout buf = cbuf ∧
    (captureXfbBufferWeb dev cbuf layout buf).lines = cbuf.lines ∧
    (captureXfbBufferWeb dev cbuf layout buf).triangles = cbuf.triangles ∧
    captureXfbBufferWeb dev emptyCapture layout buf = emptyCapture ∧
    (captureXfbBufferWeb dev emptyCapture layout buf).lines = [] ∧
    (captureXfbBufferWeb dev emptyCapture layout buf).triangles = [] :=
  ⟨rfl, rfl, rfl, rfl, rfl, rfl⟩

/-! ## Theorems: `GlDrawable` -/

/-- Adding to a count twice is adding the sum. -/
theorem GlDrawableCall.bump_bump (L : array_layout) (s : GLenum) (a b : ℕ)
    (n : array_layout → GLenum → ℕ) :
    GlDrawableCall.bump L s a (GlDrawableCall.bump L s b n) = GlDrawableCall.bump L s (b + a) n := by
  funext l t
  by_cases h : l = L ∧ t = s <;> simp [GlDrawableCall.bump, h, Nat.add_assoc]

/-- One vertex offered through `getBuffer` to a member that accepts it on a
buffer of the layout asked for is stored. -/
theorem GlDrawable.onBuffer_holds (d : GlDrawable) (n : array_layout → GLenum → ℕ)
    (L0 : array_layout) (s0 : GLenum) (handle : ℕ) (f : VertexBuffer → VertexBuffer)
    (hd : d.Holds n)
    (hf : ∀ vb : VertexBuffer, vb._layout = L0 →
      (f vb)._layout = L0 ∧ (f vb)._pt_data.length = vb._pt_data.length + strideFloats L0) :
    (d.onBuffer L0 s0 handle f).Holds (GlDrawableCall.bump L0 s0 1 n) := by
  intro L s
  obtain ⟨hsome, hnone⟩ := hd L0 s0
  by_cases hk : L = L0 ∧ s = s0
  · obtain ⟨rfl, rfl⟩ := hk
    cases hb : d.buffers L s with
    | none =>
      have h0 := hnone hb
      obtain ⟨hl, hlen⟩ := hf (VertexBuffer.new L handle) rfl
      constructor
      · intro vb hvb
        simp only [GlDrawable.onBuffer, GlDrawable.getBuffer, hb, GlDrawable.setAt, and_self,
          if_true, Option.some.injEq] at hvb
        subst hvb
        refine ⟨hl, ?_⟩
        rw [hlen]
        simp [GlDrawableCall.bump, h0, VertexBuffer.new]
      · intro hvb
        simp [GlDrawable.onBuffer, GlDrawable.getBuffer, hb, GlDrawable.setAt] at hvb
    | some vb0 =>
      obtain ⟨hl0, hlen0⟩ := hsome vb0 hb
      obtain ⟨hl, hlen⟩ := hf vb0 hl0
      constructor
      · intro vb hvb
        simp only [GlDrawable.onBuffer, GlDrawable.getBuffer, hb, GlDrawable.setAt, and_self,
          if_true, Option.some.injEq] at hvb
        subst hvb
        refine ⟨hl, ?_⟩
        rw [hlen, hlen0]
        simp [GlDrawableCall.bump, Nat.mul_add]
      · intro hvb
        simp [GlDrawable.onBuffer, GlDrawable.getBuffer, hb, GlDrawable.setAt] at hvb
  · have hbuf : (d.onBuffer L0 s0 handle f).buffers L s = d.buffers L s := by
      cases hb : d.buffers L0 s0 <;>
        simp [GlDrawable.onBuffer, GlDrawable.getBuffer, hb, GlDrawable.setAt, hk]
    have hn : GlDrawableCall.bump L0 s0 1 n L s = n L s := by
      simp [GlDrawableCall.bump, hk]
    rw [hbuf, hn]
    exact hd L s

/-- A loop of single-vertex offers stores as many vertices as it has
iterations. -/
theorem GlDrawable.foldl_onBuffer_holds (L0 : array_layout) (s0 : GLenum) (handle : ℕ)
    (g : ℕ → VertexBuffer → VertexBuffer)
    (hg : ∀ (i : ℕ) (vb : VertexBuffer), vb._layout = L0 →
      (g i vb)._layout = L0 ∧ (g i vb)._pt_data.length = vb._pt_data.length + strideFloats L0) :
    ∀ (idxs : List ℕ) (d : GlDrawable) (n : array_layout → GLenum → ℕ), d.Holds n →
      (idxs.foldl (fun d i => d.onBuffer L0 s0 handle (g i)) d).Holds
        (GlDrawableCall.bump L0 s0 idxs.length n)
  | [], d, n, hd => by
    have : GlDrawableCall.bump L0 s0 ([] : List ℕ).length n = n := by
      funext l t
      simp [GlDrawableCall.bump]
    rw [this]
    exact hd
  | i :: rest, d, n, hd => by
    have h1 := GlDrawable.onBuffer_holds d n L0 s0 handle (g i) hd (hg i)
    have h2 := foldl_onBuffer_holds L0 s0 handle g hg rest _ _ h1
    rw [GlDrawableCall.bump_bump] at h2
    rw [List.foldl_cons, List.length_cons, Nat.add_comm]
    exact h2

/-- The overload for `VTX` stores one record on a `VTX` buffer. -/
theorem VertexBuffer.addVertex_accepts (v : Float3) (vb : VertexBuffer)
    (h : vb._layout = array_layout.LAYOUT_VTX) :
    (vb.addVertex v)._layout = array_layout.LAYOUT_VTX ∧
    (vb.addVertex v)._pt_data.length
      = vb._pt_data.length + strideFloats array_layout.LAYOUT_VTX := by
  simp [VertexBuffer.addVertex, h, strideFloats]

/-- The overload for `VTX_NORMAL_COLOR` stores one record on such a buffer. -/
theorem VertexBuffer.addVertexNormColor_accepts (v nrm : Float3) (rgba : Float4)
    (vb : VertexBuffer) (h : vb._layout = array_layout.LAYOUT_VTX_NORMAL_COLOR) :
    (vb.addVertexNormColor v nrm rgba)._layout = array_layout.LAYOUT_VTX_NORMAL_COLOR ∧
    (vb.addVertexNormColor v nrm rgba)._pt_data.length
      = vb._pt_data.length + strideFloats array_layout.LAYOUT_VTX_NORMAL_COLOR := by
  simp [VertexBuffer.addVertexNormColor, h, strideFloats]

/-- The overload for `VTX_NORMAL_TEXTURE0` stores one record on such a buffer. -/
theorem VertexBuffer.addVertexNormTex_accepts (v nrm : Float3) (t : ℚ)
    (vb : VertexBuffer) (h : vb._layout = array_layout.LAYOUT_VTX_NORMAL_TEXTURE0) :
    (vb.addVertexNormTex v nrm t)._layout = array_layout.LAYOUT_VTX_NORMAL_TEXTURE0 ∧
    (vb.addVertexNormTex v nrm t)._pt_data.length
      = vb._pt_data.length + strideFloats array_layout.LAYOUT_VTX_NORMAL_TEXTURE0 := by
  simp [VertexBuffer.addVertexNormTex, h, strideFloats]

/-- Every call stores all the vertices it offers. -/
theorem GlDrawableCall.apply_holds (d : GlDrawable) (n : array_layout → GLenum → ℕ)
    (c : GlDrawableCall) (hd : d.Holds n) :
    (c.apply d).Holds (GlDrawableCall.offeredStep n c) := by
  cases c with
  | addLine h v1 v2 =>
    have h1 := GlDrawable.onBuffer_holds d n _ GL_LINES h (fun vb => vb.addVertex v1) hd
      (VertexBuffer.addVertex_accepts v1)
    have h2 := GlDrawable.onBuffer_holds _ _ _ GL_LINES h (fun vb => vb.addVertex v2) h1
      (VertexBuffer.addVertex_accepts v2)
    rw [GlDrawableCall.bump_bump] at h2
    exact h2
  | addTriangle h vtx norm rgba =>
    exact GlDrawable.foldl_onBuffer_holds _ GL_TRIANGLES h
      (fun i vb => vb.addVertexNormColor ((vtx i).1, (vtx i).2.1, (vtx i).2.2)
        (norm.1, norm.2.1, norm.2.2) (rgba i))
      (fun i => VertexBuffer.addVertexNormColor_accepts _ _ _) [0, 1, 2] d n hd
  | addTriangleTex h vtx norm t =>
    exact GlDrawable.foldl_onBuffer_holds _ GL_TRIANGLES h
      (fun i vb => vb.addVertexNormTex ((vtx i).1, (vtx i).2.1, (vtx i).2.2)
        (norm.1, norm.2.1, norm.2.2) (t i))
      (fun i => VertexBuffer.addVertexNormTex_accepts _ _ _) [0, 1, 2] d n hd
  | addQuad h vtx norm rgba =>
    exact GlDrawable.foldl_onBuffer_holds _ GL_TRIANGLES h
      (fun i vb => vb.addVertexNormColor ((vtx i).1, (vtx i).2.1, (vtx i).2.2)
        (norm.1, norm.2.1, norm.2.2) (rgba i))
      (fun i => VertexBuffer.addVertexNormColor_accepts _ _ _) [0, 1, 2, 0, 2, 3] d n hd
  | addQuadFace h vtx norm rgba =>
    exact GlDrawable.foldl_onBuffer_holds _ GL_TRIANGLES h
      (fun i vb => vb.addVertexNormColor ((vtx i).1, (vtx i).2.1, (vtx i).2.2)
        (norm.1, norm.2.1, norm.2.2) rgba)
      (fun i => VertexBuffer.addVertexNormColor_accepts _ _ _) [0, 1, 2, 0, 2, 3] d n hd
  | addQuadTex h vtx norm t =>
    exact GlDrawable.foldl_onBuffer_holds _ GL_TRIANGLES h
      (fun i vb => vb.addVertexNormTex ((vtx i).1, (vtx i).2.1, (vtx i).2.2)
        (norm.1, norm.2.1, norm.2.2) (t i))
      (fun i => VertexBuffer.addVertexNormTex_accepts _ _ _) [0, 1, 2, 0, 2, 3] d n hd
  | clear =>
    intro L s
    constructor
    · intro vb hvb
      simp only [GlDrawableCall.apply, GlDrawable.clear, Option.map_eq_some'] at hvb
      obtain ⟨vb0, hvb0, rfl⟩ := hvb
      obtain ⟨hl, _⟩ := (hd L s).1 vb0 hvb0
      exact ⟨hl, by simp [VertexBuffer.clear, GlDrawableCall.offeredStep]⟩
    · intro _
      rfl

/-- Every call offers whole primitives. -/
theorem GlDrawableCall.offeredStep_whole (n : array_layout → GLenum → ℕ) (c : GlDrawableCall)
    (hn : WholePrimitives n) : WholePrimitives (GlDrawableCall.offeredStep n c) := by
  obtain ⟨h2, h3⟩ := hn
  simp only [GL_LINES, GL_TRIANGLES] at h2 h3
  constructor
  · cases c <;>
      simp [GlDrawableCall.offeredStep, GlDrawableCall.bump, GL_LINES, GL_TRIANGLES] <;>
      omega
  · intro L
    have h3L := h3 L
    cases c <;>
      simp [GlDrawableCall.offeredStep, GlDrawableCall.bump, GL_LINES, GL_TRIANGLES] <;>
      first
        | omega
        | (split_ifs <;> omega)

/-- The two invariants hold along any sequence of calls. -/
theorem GlDrawableCall.run_holds (calls : List GlDrawableCall) :
    ∀ (d : GlDrawable) (n : array_layout → GLenum → ℕ), d.Holds n → WholePrimitives n →
      (GlDrawableCall.run d calls).Holds (calls.foldl GlDrawableCall.offeredStep n) ∧
      WholePrimitives (calls.foldl GlDrawableCall.offeredStep n) := by
  induction calls with
  | nil =>
    intro d n hd hn
    exact ⟨hd, hn⟩
  | cons c rest ih =>
    intro d n hd hn
    exact ih (c.apply d) (GlDrawableCall.offeredStep n c) (GlDrawableCall.apply_holds d n c hd)
      (GlDrawableCall.offeredStep_whole n c hn)

/-- C19: after any sequence of `addLine`, `addTriangle`, `addQuad`,
`addQuadFace` and `clear` calls on an empty drawable, every buffer has the
layout of its key and stores all the vertices offered to it since the last
`clear` (none is dropped), the `(LAYOUT_VTX, GL_LINES)` buffer holds a multiple
of 2 vertex records and every `GL_TRIANGLES` buffer a multiple of 3. -/
theorem drawable_whole_primitives (calls : List GlDrawableCall) (L : array_layout)
    (s : GLenum) :
    (∀ vb : VertexBuffer, (GlDrawableCall.run GlDrawable.new calls).buffers L s = some vb →
      vb._layout = L ∧
      vb._pt_data.length = strideFloats L * GlDrawableCall.offered calls L s) ∧
    ((GlDrawableCall.run GlDrawable.new calls).buffers L s = none →
      GlDrawableCall.offered calls L s = 0) ∧
    (∀ vb : VertexBuffer,
      (GlDrawableCall.run GlDrawable.new calls).buffers array_layout.LAYOUT_VTX GL_LINES
        = some vb →
      ∃ k : ℕ, vb._pt_data.length = strideFloats array_layout.LAYOUT_VTX * (2 * k)) ∧
    (∀ vb : VertexBuffer,
      (GlDrawableCall.run GlDrawable.new calls).buffers L GL_TRIANGLES = some vb →
      ∃ k : ℕ, vb._pt_data.length = strideFloats L * (3 * k)) := by
  have hnew : GlDrawable.new.Holds (fun _ _ => 0) := by
    intro L s
    exact ⟨fun vb hvb => by simp [GlDrawable.new] at hvb, fun _ => rfl⟩
  have hwhole : WholePrimitives (fun _ _ => 0) := ⟨Nat.dvd_zero _, fun _ => Nat.dvd_zero _⟩
  obtain ⟨hH, h2, h3⟩ := GlDrawableCall.run_holds calls GlDrawable.new _ hnew hwhole
  refine ⟨(hH L s).1, (hH L s).2, ?_, ?_⟩
  · intro vb hvb
    obtain ⟨k, hk⟩ := h2
    exact ⟨k, by rw [((hH _ _).1 vb hvb).2, hk]⟩
  · intro vb hvb
    obtain ⟨k, hk⟩ := h3 L
    exact ⟨k, by rw [((hH _ _).1 vb hvb).2, hk]⟩

/-- Witness of C19: after a line, a clear, a coloured quad and a coloured
triangle the `(VTX_NORMAL_COLOR, GL_TRIANGLES)` buffer stores all 9 offered
vertices, 3 primitives of 3 records of 8 floats. -/
theorem drawable_whole_primitives_witness :
    ∃ vb : VertexBuffer,
      (GlDrawableCall.run GlDrawable.new sampleDrawableCalls).buffers
          array_layout.LAYOUT_VTX_NORMAL_COLOR GL_TRIANGLES = some vb ∧
      vb._layout = array_layout.LAYOUT_VTX_NORMAL_COLOR ∧
      vb._pt_data.length = 8 * 9 ∧
      ∃ k : ℕ, vb._pt_data.length = strideFloats array_layout.LAYOUT_VTX_NORMAL_COLOR * (3 * k) := by
  have hsome : ∃ vb : VertexBuffer,
      (GlDrawableCall.run GlDrawable.new sampleDrawableCalls).buffers
          array_layout.LAYOUT_VTX_NORMAL_COLOR GL_TRIANGLES = some vb := by
    cases hb : (GlDrawableCall.run GlDrawable.new sampleDrawableCalls).buffers
        array_layout.LAYOUT_VTX_NORMAL_COLOR GL_TRIANGLES with
    | some vb => exact ⟨vb, rfl⟩
    | none =>
      have h0 := (drawable_whole_primitives sampleDrawableCalls
        array_layout.LAYOUT_VTX_NORMAL_COLOR GL_TRIANGLES).2.1 hb
      exact absurd h0 (by decide)
  obtain ⟨vb, hvb⟩ := hsome
  obtain ⟨h1, _, _, h4⟩ := drawable_whole_primitives sampleDrawableCalls
    array_layout.LAYOUT_VTX_NORMAL_COLOR GL_TRIANGLES
  exact ⟨vb, hvb, (h1 vb hvb).1, (h1 vb hvb).2, h4 vb hvb⟩

/-! ## Theorems: reachable states of `GlBuilder` -/

/-- No call switches both attribute modes on. -/
theorem GlBuilderCall.apply_exclusive (b : GlBuilder) (c : GlBuilderCall)
    (h : ¬ (b.use_color = true ∧ b.use_color_tex = true)) :
    ¬ ((c.apply b).use_color = true ∧ (c.apply b).use_color_tex = true) := by
  cases c <;>
    simp only [GlBuilderCall.apply, GlBuilder.glBegin, GlBuilder.glVertex3d,
      GlBuilder.glVertex3dv, GlBuilder.glNormal3d, GlBuilder.glNormal3dv, GlBuilder.glColor3f,
      GlBuilder.glColor4fv, GlBuilder.glTexCoord1f] <;>
    first
      | exact h
      | (split <;> first | exact h | simp)

/-- The modes stay exclusive along any sequence of calls. -/
theorem GlBuilderCall.run_exclusive (calls : List GlBuilderCall) :
    ∀ b : GlBuilder, ¬ (b.use_color = true ∧ b.use_color_tex = true) →
      ¬ ((GlBuilderCall.run b calls).use_color = true ∧
         (GlBuilderCall.run b calls).use_color_tex = true) := by
  induction calls with
  | nil =>
    intro b h
    exact h
  | cons c rest ih =>
    intro b h
    exact ih (c.apply b) (GlBuilderCall.apply_exclusive b c h)

/-- C20: in every state of a builder reached from construction by any
sequence of `glBegin`, `glVertex3d`, `glNormal3d`, `glColor3f`, `glColor4fv`
and `glTexCoord1f` calls (and their `...v` forms), the colour mode and the
texcoord mode are not both on; so the record that `glVertex3d` emits there
carries a packed colour exactly in colour mode, a texture coordinate exactly
in texcoord mode, and never both. -/
theorem builder_modes_exclusive (render_as : GLenum) (norm : Float3) (color : Float4)
    (texcoord : ℚ) (calls : List GlBuilderCall) :
    ¬ ((GlBuilderCall.run (GlBuilder.new render_as norm color texcoord) calls).use_color = true ∧
       (GlBuilderCall.run (GlBuilder.new render_as norm color texcoord) calls).use_color_tex
         = true) ∧
    ((GlBuilderCall.run (GlBuilder.new render_as norm color texcoord) calls).use_color = true →
      (GlBuilderCall.run (GlBuilder.new render_as norm color texcoord) calls).attrPart
        = [packRgba
            (GlBuilderCall.run (GlBuilder.new render_as norm color texcoord) calls).color]) ∧
    ((GlBuilderCall.run (GlBuilder.new render_as norm color texcoord) calls).use_color_tex
        = true →
      (GlBuilderCall.run (GlBuilder.new render_as norm color texcoord) calls).attrPart
        = [FloatSlot.num
            (GlBuilderCall.run (GlBuilder.new render_as norm color texcoord) calls).texcoord]) ∧
    (GlBuilderCall.run (GlBuilder.new render_as norm color texcoord) calls).attrPart.length
      ≤ 1 := by
  have hex := GlBuilderCall.run_exclusive calls (GlBuilder.new render_as norm color texcoord)
    (by simp [GlBuilder.new])
  generalize GlBuilderCall.run (GlBuilder.new render_as norm color texcoord) calls = b at hex ⊢
  refine ⟨hex, ?_, ?_, ?_⟩
  · intro hc
    simp [GlBuilder.attrPart, hc]
  · intro ht
    have hc : b.use_color = false := by
      cases hcol : b.use_color
      · rfl
      · exact absurd ⟨hcol, ht⟩ hex
    simp [GlBuilder.attrPart, hc, ht]
  · simp only [GlBuilder.attrPart]
    split_ifs <;> simp

/-- Witness of C20: a builder put in colour mode stays in colour mode when
`glTexCoord1f` is called after a vertex was emitted. -/
theorem builder_modes_exclusive_witness :
    (GlBuilderCall.run (GlBuilder.new 0 (0, 0, 1) (0, 0, 0, 0) 0) sampleBuilderCalls).attrPart
      = [packRgba
          (GlBuilderCall.run (GlBuilder.new 0 (0, 0, 1) (0, 0, 0, 0) 0)
            sampleBuilderCalls).color] :=
  (builder_modes_exclusive 0 (0, 0, 1) (0, 0, 0, 0) 0 sampleBuilderCalls).2.1 rfl

/-! ## Theorems: consistency of the two clip formulas -/

/-- The clip vertex of the triangle routine does not depend on which endpoint
plays the role of `a`: the position and the colour are quotients whose
numerator and denominator both change sign. -/
theorem clipVertex_comm (half_w half_h : ℚ) (vp vq : ShaderXfbVertex) :
    clipVertex half_w half_h vp vq = clipVertex half_w half_h vq vp := by
  have e : ∀ a b c d : ℚ, (a - b) / (c - d) = (b - a) / (d - c) := by
    intro a b c d
    rw [← neg_sub b a, ← neg_sub d c, neg_div_neg_eq]
  simp only [clipVertex, FeedbackVertex.ofVec4, clipPosToDevice, Vec4.divScalar, Vec4.sub,
    Vec4.scale, FeedbackVertex.mk.injEq, Vec3.mk.injEq, Vec4.mk.injEq]
  refine ⟨⟨?_, ?_, ?_⟩, ?_, ?_, ?_, ?_⟩
  · rw [e]
  · rw [e]
  · rw [e]
  · rw [e]
  · rw [e]
  · rw [e]
  · rw [e]

/-- The vertex synthesized by the line routine is the clip vertex of the
triangle routine for the same ordered pair of endpoints. -/
theorem lineClipVert_eq_clipVertex (half_w half_h : ℚ) (vp vq : ShaderXfbVertex) :
    XFBPostTransform (lineClipVert vp vq) half_w half_h = clipVertex half_w half_h vp vq := by
  simp only [clipVertex, FeedbackVertex.ofVec4, clipPosToDevice, Vec4.divScalar, Vec4.sub,
    Vec4.scale, lineClipVert, XFBPostTransform, FeedbackVertex.mk.injEq, Vec3.mk.injEq,
    Vec4.mk.injEq, and_self, and_true]
  constructor <;> ring

/-- C27: the triangle and line clip formulas are consistent.  For an edge
with `p` inside (distance at least 0), `q` outside (negative distance) and
positive `w` at both ends, the homogeneous `w` divided by is non-zero; the
line routine synthesizes the same vertex for both orders of the segment; the
triangle routine synthesizes the clip vertex of `(p, q)` when the outside
vertex is alone (`p` in the role of `a`) and that of `(q, p)` when the inside
vertex is alone (`q` in the role of `a`); and these clip vertices and the
vertex of the line routine are equal, in device-space position and colour. -/
theorem clip_formulas_consistent (half_w half_h : ℚ) (p q b : ShaderXfbVertex)
    (hwp : 0 < p.pos.w) (hwq : 0 < q.pos.w)
    (hp : 0 ≤ p.clipCoord) (hq : q.clipCoord < 0) :
    (lineClipVert p q).pos.w ≠ 0 ∧
    (lineSegmentOut true half_w half_h p q).head?
      = some (XFBPostTransform (lineClipVert p q) half_w half_h) ∧
    (lineSegmentOut true half_w half_h q p).head?
      = some (XFBPostTransform (lineClipVert p q) half_w half_h) ∧
    (0 ≤ b.clipCoord →
      (clipTriangle half_w half_h [p, b, q] emptyCapture 0).triangles[1]?
        = some (clipVertex half_w half_h p q)) ∧
    (b.clipCoord < 0 →
      (clipTriangle half_w half_h [q, b, p] emptyCapture 0).triangles[1]?
        = some (clipVertex half_w half_h q p)) ∧
    clipVertex half_w half_h p q = XFBPostTransform (lineClipVert p q) half_w half_h ∧
    clipVertex half_w half_h q p = XFBPostTransform (lineClipVert p q) half_w half_h ∧
    (clipVertex half_w half_h p q).position = (clipVertex half_w half_h q p).position ∧
    (clipVertex half_w half_h p q).color = (clipVertex half_w half_h q p).color := by
  refine ⟨?_, ?_, ?_, ?_, ?_, ?_, ?_, ?_, ?_⟩
  · have h := clip_w_ne_zero p q hwp hwq (Or.inl ⟨hp, hq⟩)
    simpa [lineClipVert, Vec4.sub, Vec4.scale] using h
  · rw [(lineSegmentOut_crossing half_w half_h p q).1 hp hq]
    rfl
  · rw [(lineSegmentOut_crossing half_w half_h q p).2 hq hp]
    rfl
  · intro hb
    obtain ⟨a', b', c', hrot, ha, hb', hc', hout⟩ :=
      clipTriangle_oneOutside half_w half_h emptyCapture p b q (Or.inr (Or.inr ⟨hp, hb, hq⟩))
    rcases hrot with ⟨rfl, rfl, rfl⟩ | ⟨rfl, rfl, rfl⟩ | ⟨rfl, rfl, rfl⟩
    · rw [hout]
      simp [quadOut, emptyCapture]
    · exact absurd hb' (not_le.mpr hq)
    · exact absurd ha (not_le.mpr hq)
  · intro hb
    obtain ⟨a', b', c', hrot, ha, hb', hc', hout⟩ :=
      clipTriangle_oneInside half_w half_h emptyCapture q b p (Or.inr (Or.inr ⟨hq, hb, hp⟩))
    rcases hrot with ⟨rfl, rfl, rfl⟩ | ⟨rfl, rfl, rfl⟩ | ⟨rfl, rfl, rfl⟩
    · rw [hout]
      simp [triOut, emptyCapture]
    · exact absurd hb' (not_lt.mpr hp)
    · exact absurd ha (not_lt.mpr hp)
  · exact (lineClipVert_eq_clipVertex half_w half_h p q).symm
  · rw [lineClipVert_eq_clipVertex, clipVertex_comm]
  · rw [clipVertex_comm]
  · rw [clipVertex_comm]

/-- C27 at the sample edge from `P` (distance 2, `w = 1`) to `Q` (distance
-1, `w = 2`), with `A` and `E` as third vertices: every routine synthesizes
the vertex at `(17/5, 1, 0)` with colour `(1/5, 0, 4/5, 1)`. -/
theorem clip_formulas_consistent_witness :
    clipVertex 1 1 sampleP sampleQ = ⟨⟨17 / 5, 1, 0⟩, ⟨1 / 5, 0, 4 / 5, 1⟩⟩ ∧
    clipVertex 1 1 sampleP sampleQ = XFBPostTransform (lineClipVert sampleP sampleQ) 1 1 ∧
    clipVertex 1 1 sampleQ sampleP = XFBPostTransform (lineClipVert sampleP sampleQ) 1 1 :=
  ⟨by norm_num [clipVertex, sampleP, sampleQ, FeedbackVertex.ofVec4, clipPosToDevice,
      Vec4.divScalar, Vec4.sub, Vec4.scale],
    (clip_formulas_consistent 1 1 sampleP sampleQ sampleA (by norm_num [sampleP])
      (by norm_num [sampleQ]) (by norm_num [sampleP]) (by norm_num [sampleQ])).2.2.2.2.2.1,
    (clip_formulas_consistent 1 1 sampleP sampleQ sampleE (by norm_num [sampleP])
      (by norm_num [sampleQ]) (by norm_num [sampleP]) (by norm_num [sampleQ])).2.2.2.2.2.2.1⟩

/-! ## Theorems: the colour of a synthesized vertex -/

/-- C28: the colour of the synthesized vertex of a crossing edge is the
linear interpolation of the endpoint colours in device space.  With
`s = d_p * w_q / (d_p * w_q - d_q * w_p)` the device position of the vertex is
`(1 - s) * dev(p) + s * dev(q)` and its colour is `(1 - s) * C_p + s * C_q`,
channel by channel, in the triangle routine and in the line routine. -/
theorem clip_color_follows_position (half_w half_h : ℚ) (p q : ShaderXfbVertex)
    (hwp : 0 < p.pos.w) (hwq : 0 < q.pos.w) (hc : Crossing p q) :
    deviceFraction p q
      = p.clipCoord * q.pos.w / (p.clipCoord * q.pos.w - q.clipCoord * p.pos.w) ∧
    (clipVertex half_w half_h p q).position.x
      = (1 - deviceFraction p q) * (XFBPostTransform p half_w half_h).position.x
        + deviceFraction p q * (XFBPostTransform q half_w half_h).position.x ∧
    (clipVertex half_w half_h p q).position.y
      = (1 - deviceFraction p q) * (XFBPostTransform p half_w half_h).position.y
        + deviceFraction p q * (XFBPostTransform q half_w half_h).position.y ∧
    (clipVertex half_w half_h p q).position.z
      = (1 - deviceFraction p q) * (XFBPostTransform p half_w half_h).position.z
        + deviceFraction p q * (XFBPostTransform q half_w half_h).position.z ∧
    (clipVertex half_w half_h p q).color.x
      = (1 - deviceFraction p q) * p.color.x + deviceFraction p q * q.color.x ∧
    (clipVertex half_w half_h p q).color.y
      = (1 - deviceFraction p q) * p.color.y + deviceFraction p q * q.color.y ∧
    (clipVertex half_w half_h p q).color.z
      = (1 - deviceFraction p q) * p.color.z + deviceFraction p q * q.color.z ∧
    (clipVertex half_w half_h p q).color.w
      = (1 - deviceFraction p q) * p.color.w + deviceFraction p q * q.color.w ∧
    XFBPostTransform (lineClipVert p q) half_w half_h = clipVertex half_w half_h p q := by
  have hs : deviceFraction p q
      = -(q.pos.w * p.clipCoord) / (p.pos.w * q.clipCoord - q.pos.w * p.clipCoord) := by
    unfold deviceFraction
    rw [← neg_div_neg_eq]
    congr 1 <;> ring
  obtain ⟨hx, hy, hz⟩ := clipVertex_position half_w half_h p q hwp hwq hc
    (deviceFraction p q) hs
  have hcol : (clipVertex half_w half_h p q).color
      = Vec4.lerp p.color q.color (deviceFraction p q) := by
    rw [clipVertex_color]
    exact clip_color_device_linear p q hwp hwq hc
  refine ⟨rfl, ?_, ?_, ?_, ?_, ?_, ?_, ?_, lineClipVert_eq_clipVertex half_w half_h p q⟩
  · rw [hx]; ring
  · rw [hy]; ring
  · rw [hz]; ring
  · rw [hcol]; simp only [Vec4.lerp]; ring
  · rw [hcol]; simp only [Vec4.lerp]; ring
  · rw [hcol]; simp only [Vec4.lerp]; ring
  · rw [hcol]; simp only [Vec4.lerp]; ring

/-- C28 at the sample edge from `P` (red, distance 2, `w = 1`) to `Q` (blue,
distance -1, `w = 2`): the fraction is 4/5 and the red channel of the
synthesized vertex is `(1 - 4/5) * 1 + 4/5 * 0`. -/
theorem clip_color_follows_position_witness :
    Crossing sampleP sampleQ ∧ deviceFraction sampleP sampleQ = 4 / 5 ∧
    (clipVertex 1 1 sampleP sampleQ).color.x
      = (1 - deviceFraction sampleP sampleQ) * sampleP.color.x
        + deviceFraction sampleP sampleQ * sampleQ.color.x :=
  ⟨Or.inl ⟨by norm_num [sampleP], by norm_num [sampleQ]⟩,
    by norm_num [deviceFraction, sampleP, sampleQ],
    (clip_color_follows_position 1 1 sampleP sampleQ (by norm_num [sampleP])
      (by norm_num [sampleQ])
      (Or.inl ⟨by norm_num [sampleP], by norm_num [sampleQ]⟩)).2.2.2.2.1⟩

/-! ## Theorems: the divisions of the mixed-sign branches -/

/-- The colour denominator of a crossing edge with positive `w` at both ends
is non-zero. -/
theorem clip_color_denominator_ne_zero (a c : ShaderXfbVertex)
    (hwa : 0 < a.pos.w) (hwc : 0 < c.pos.w) (hac : Crossing a c) :
    c.clipCoord / c.pos.w - a.clipCoord / a.pos.w ≠ 0 := by
  rcases hac with ⟨ha, hc⟩ | ⟨ha, hc⟩
  · have h1 : c.clipCoord / c.pos.w < 0 := div_neg_of_neg_of_pos hc hwc
    have h2 : 0 ≤ a.clipCoord / a.pos.w := div_nonneg ha hwa.le
    intro h
    linarith
  · have h1 : a.clipCoord / a.pos.w < 0 := div_neg_of_neg_of_pos ha hwa
    have h2 : 0 ≤ c.clipCoord / c.pos.w := div_nonneg hc hwc.le
    intro h
    linarith

/-- A triangle of mixed signs has exactly one vertex outside or exactly one
vertex inside. -/
theorem mixed_oneOutside_or_oneInside (v0 v1 v2 : ShaderXfbVertex)
    (hin : ¬ (v0.clipCoord ≥ 0 ∧ v1.clipCoord ≥ 0 ∧ v2.clipCoord ≥ 0))
    (hout : ¬ (v0.clipCoord < 0 ∧ v1.clipCoord < 0 ∧ v2.clipCoord < 0)) :
    OneOutside v0 v1 v2 ∨ OneInside v0 v1 v2 := by
  unfold OneOutside OneInside
  rcases lt_or_le v0.clipCoord 0 with h0 | h0 <;>
  rcases lt_or_le v1.clipCoord 0 with h1 | h1 <;>
  rcases lt_or_le v2.clipCoord 0 with h2 | h2
  · exact absurd ⟨h0, h1, h2⟩ hout
  · exact Or.inr (Or.inr (Or.inr ⟨h0, h1, h2⟩))
  · exact Or.inr (Or.inr (Or.inl ⟨h0, h1, h2⟩))
  · exact Or.inl (Or.inl ⟨h0, h1, h2⟩)
  · exact Or.inr (Or.inl ⟨h0, h1, h2⟩)
  · exact Or.inl (Or.inr (Or.inl ⟨h0, h1, h2⟩))
  · exact Or.inl (Or.inr (Or.inr ⟨h0, h1, h2⟩))
  · exact absurd ⟨h0, h1, h2⟩ hin

/-- C29: the mixed-sign branches never divide by zero when every `w` is
positive.  For an edge `a`, `c` with one non-negative and one negative clip
distance (distance 0 included) the homogeneous `w` of the synthesized
position, `w_a * d_c - w_c * d_a`, and the colour denominator
`d_c / w_c - d_a / w_a` are non-zero.  For a triangle of mixed signs exactly
one of the three rotations `(a, b, c)` passes the same-side test on `a, b`;
its edges `a, c` and `b, c` are crossing edges, and the routine emits the
output of that rotation once, a quadrilateral or a triangle. -/
theorem clip_divisions_defined (half_w half_h : ℚ) (cbuf : CaptureBuffer)
    (p q v0 v1 v2 : ShaderXfbVertex)
    (hwp : 0 < p.pos.w) (hwq : 0 < q.pos.w) (hpq : Crossing p q)
    (hin : ¬ (v0.clipCoord ≥ 0 ∧ v1.clipCoord ≥ 0 ∧ v2.clipCoord ≥ 0))
    (hout : ¬ (v0.clipCoord < 0 ∧ v1.clipCoord < 0 ∧ v2.clipCoord < 0)) :
    (lineClipVert p q).pos.w = p.pos.w * q.clipCoord - q.pos.w * p.clipCoord ∧
    (lineClipVert p q).pos.w ≠ 0 ∧
    q.clipCoord / q.pos.w - p.clipCoord / p.pos.w ≠ 0 ∧
    (∃ a b c : ShaderXfbVertex, IsRotation a b c v0 v1 v2 ∧
      SameSide a b ∧ ¬ SameSide b c ∧ ¬ SameSide c a ∧
      Crossing a c ∧ Crossing b c ∧
      clipTriangle half_w half_h [v0, v1, v2] cbuf 0
        = { cbuf with triangles := cbuf.triangles
              ++ (if c.clipCoord < 0 then quadOut half_w half_h a b c
                  else triOut half_w half_h a b c) }) ∧
    ((SameSide v0 v1 ∧ ¬ SameSide v1 v2 ∧ ¬ SameSide v2 v0) ∨
     (¬ SameSide v0 v1 ∧ SameSide v1 v2 ∧ ¬ SameSide v2 v0) ∨
     (¬ SameSide v0 v1 ∧ ¬ SameSide v1 v2 ∧ SameSide v2 v0)) := by
  have hW := clip_w_ne_zero p q hwp hwq hpq
  refine ⟨by simp [lineClipVert, Vec4.sub, Vec4.scale],
    by simpa [lineClipVert, Vec4.sub, Vec4.scale] using hW,
    clip_color_denominator_ne_zero p q hwp hwq hpq, ?_, ?_⟩
  · rcases mixed_oneOutside_or_oneInside v0 v1 v2 hin hout with h | h
    · obtain ⟨a, b, c, hrot, ha, hb, hc, hres⟩ :=
        clipTriangle_oneOutside half_w half_h cbuf v0 v1 v2 h
      refine ⟨a, b, c, hrot, ?_, ?_, ?_, Or.inl ⟨ha, hc⟩, Or.inl ⟨hb, hc⟩, ?_⟩
      · simp [SameSide, not_lt.mpr ha, not_lt.mpr hb]
      · simp [SameSide, not_lt.mpr hb, hc]
      · simp [SameSide, not_lt.mpr ha, hc]
      · rw [hres, if_pos hc]
    · obtain ⟨a, b, c, hrot, ha, hb, hc, hres⟩ :=
        clipTriangle_oneInside half_w half_h cbuf v0 v1 v2 h
      refine ⟨a, b, c, hrot, ?_, ?_, ?_, Or.inr ⟨ha, hc⟩, Or.inr ⟨hb, hc⟩, ?_⟩
      · simp [SameSide, ha, hb]
      · simp [SameSide, hb, not_lt.mpr hc]
      · simp [SameSide, ha, not_lt.mpr hc]
      · rw [hres, if_neg (not_lt.mpr hc)]
  · unfold SameSide
    rcases lt_or_le v0.clipCoord 0 with h0 | h0 <;>
    rcases lt_or_le v1.clipCoord 0 with h1 | h1 <;>
    rcases lt_or_le v2.clipCoord 0 with h2 | h2
    · exact absurd ⟨h0, h1, h2⟩ hout
    · simp [h0, h1, not_lt.mpr h2]
    · simp [h0, h2, not_lt.mpr h1]
    · simp [h0, not_lt.mpr h1, not_lt.mpr h2]
    · simp [h1, h2, not_lt.mpr h0]
    · simp [h1, not_lt.mpr h0, not_lt.mpr h2]
    · simp [h2, not_lt.mpr h0, not_lt.mpr h1]
    · exact absurd ⟨h0, h1, h2⟩ hin

/-- C29 at the edge from `D`, which lies on the plane (distance 0), to `C`
(distance -1), and at the triangle `A, D, C`: the divisor `w` is -1, and the
triangle emits six vertices. -/
theorem clip_divisions_defined_witness :
    (lineClipVert sampleD sampleC).pos.w ≠ 0 ∧
    sampleC.clipCoord / sampleC.pos.w - sampleD.clipCoord / sampleD.pos.w ≠ 0 ∧
    (SameSide sampleA sampleD ∧ ¬ SameSide sampleD sampleC ∧ ¬ SameSide sampleC sampleA) :=
  have h := clip_divisions_defined 1 1 emptyCapture sampleD sampleC sampleA sampleD sampleC
    (by norm_num [sampleD]) (by norm_num [sampleC])
    (Or.inl ⟨by norm_num [sampleD], by norm_num [sampleC]⟩)
    (by norm_num [sampleA, sampleD, sampleC]) (by norm_num [sampleA, sampleD, sampleC])
  ⟨h.2.1, h.2.2.1, by
    rcases h.2.2.2.2 with h1 | h1 | h1
    · exact h1
    · exact absurd h1.2.1 (by simp [SameSide, sampleC, sampleD])
    · exact absurd h1.2.2 (by simp [SameSide, sampleC, sampleA])⟩

/-! ## Theorems: the builder and the typed buffer share the record format -/

/-- C30: the immediate-mode builder and the typed buffer agree on the record
format.  In each of the six cases of topology class and attribute mode, the
floats that `glVertex3d` appends after the strip duplicate and the floats that
the matching `VertexBuffer` overload appends, for the same position, normal
and colour or texcoord, are the same explicit record. -/
theorem builder_buffer_same_record (b : GlBuilder) (vb : VertexBuffer) (x y z : ℚ) :
    (b.is_line = true → b.use_color = false → b.use_color_tex = false →
      vb._layout = LAYOUT_VTX →
      (b.glVertex3d x y z).pts = b.pts ++ b.stripDup
        ++ [FloatSlot.num x, FloatSlot.num y, FloatSlot.num z, FloatSlot.num 0] ∧
      (vb.addVertex (x, y, z))._pt_data = vb._pt_data
        ++ [FloatSlot.num x, FloatSlot.num y, FloatSlot.num z, FloatSlot.num 0]) ∧
    (b.is_line = true → b.use_color = true →
      vb._layout = LAYOUT_VTX_COLOR →
      (b.glVertex3d x y z).pts = b.pts ++ b.stripDup
        ++ [FloatSlot.num x, FloatSlot.num y, FloatSlot.num z, packRgba b.color] ∧
      (vb.addVertexColor (x, y, z) b.color)._pt_data = vb._pt_data
        ++ [FloatSlot.num x, FloatSlot.num y, FloatSlot.num z, packRgba b.color]) ∧
    (b.is_line = true → b.use_color = false → b.use_color_tex = true →
      vb._layout = LAYOUT_VTX_TEXTURE0 →
      (b.glVertex3d x y z).pts = b.pts ++ b.stripDup
        ++ [FloatSlot.num x, FloatSlot.num y, FloatSlot.num z, FloatSlot.num b.texcoord] ∧
      (vb.addVertexTex (x, y, z) b.texcoord)._pt_data = vb._pt_data
        ++ [FloatSlot.num x, FloatSlot.num y, FloatSlot.num z, FloatSlot.num b.texcoord]) ∧
    (b.is_line = false → b.use_color = false → b.use_color_tex = false →
      vb._layout = LAYOUT_VTX_NORMAL →
      (b.glVertex3d x y z).pts = b.pts ++ b.stripDup
        ++ [FloatSlot.num x, FloatSlot.num y, FloatSlot.num z,
            FloatSlot.num b.norm.1, FloatSlot.num b.norm.2.1, FloatSlot.num b.norm.2.2] ∧
      (vb.addVertexNorm (x, y, z) b.norm)._pt_data = vb._pt_data
        ++ [FloatSlot.num x, FloatSlot.num y, FloatSlot.num z,
            FloatSlot.num b.norm.1, FloatSlot.num b.norm.2.1, FloatSlot.num b.norm.2.2]) ∧
    (b.is_line = false → b.use_color = true →
      vb._layout = LAYOUT_VTX_NORMAL_COLOR →
      (b.glVertex3d x y z).pts = b.pts ++ b.stripDup
        ++ [FloatSlot.num x, FloatSlot.num y, FloatSlot.num z,
            FloatSlot.num b.norm.1, FloatSlot.num b.norm.2.1, FloatSlot.num b.norm.2.2,
            packRgba b.color, FloatSlot.num 0] ∧
      (vb.addVertexNormColor (x, y, z) b.norm b.color)._pt_data = vb._pt_data
        ++ [FloatSlot.num x, FloatSlot.num y, FloatSlot.num z,
            FloatSlot.num b.norm.1, FloatSlot.num b.norm.2.1, FloatSlot.num b.norm.2.2,
            packRgba b.color, FloatSlot.num 0]) ∧
    (b.is_line = false → b.use_color = false → b.use_color_tex = true →
      vb._layout = LAYOUT_VTX_NORMAL_TEXTURE0 →
      (b.glVertex3d x y z).pts = b.pts ++ b.stripDup
        ++ [FloatSlot.num x, FloatSlot.num y, FloatSlot.num z,
            FloatSlot.num b.norm.1, FloatSlot.num b.norm.2.1, FloatSlot.num b.norm.2.2,
            FloatSlot.num b.texcoord, FloatSlot.num 0] ∧
      (vb.addVertexNormTex (x, y, z) b.norm b.texcoord)._pt_data = vb._pt_data
        ++ [FloatSlot.num x, FloatSlot.num y, FloatSlot.num z,
            FloatSlot.num b.norm.1, FloatSlot.num b.norm.2.1, FloatSlot.num b.norm.2.2,
            FloatSlot.num b.texcoord, FloatSlot.num 0]) := by
  have hpts := GlBuilder.glVertex3d_pts b x y z
  refine ⟨?_, ?_, ?_, ?_, ?_, ?_⟩
  · intro hl hc ht hv
    rw [hpts]
    simp [GlBuilder.vertexRecord, GlBuilder.normalPart, GlBuilder.attrPart,
      GlBuilder.padPart, VertexBuffer.addVertex, hl, hc, ht, hv]
  · intro hl hc hv
    rw [hpts]
    simp [GlBuilder.vertexRecord, GlBuilder.normalPart, GlBuilder.attrPart,
      GlBuilder.padPart, VertexBuffer.addVertexColor, hl, hc, hv]
  · intro hl hc ht hv
    rw [hpts]
    simp [GlBuilder.vertexRecord, GlBuilder.normalPart, GlBuilder.attrPart,
      GlBuilder.padPart, VertexBuffer.addVertexTex, hl, hc, ht, hv]
  · intro hl hc ht hv
    rw [hpts]
    simp [GlBuilder.vertexRecord, GlBuilder.normalPart, GlBuilder.attrPart,
      GlBuilder.padPart, VertexBuffer.addVertexNorm, hl, hc, ht, hv]
  · intro hl hc hv
    rw [hpts]
    simp [GlBuilder.vertexRecord, GlBuilder.normalPart, GlBuilder.attrPart,
      GlBuilder.padPart, VertexBuffer.addVertexNormColor, hl, hc, hv]
  · intro hl hc ht hv
    rw [hpts]
    simp [GlBuilder.vertexRecord, GlBuilder.normalPart, GlBuilder.attrPart,
      GlBuilder.padPart, VertexBuffer.addVertexNormTex, hl, hc, ht, hv]

/-- C30 at a fresh builder after `glBegin(GL_TRIANGLES)` and `glColor4fv`, and
at an empty buffer of layout `LAYOUT_VTX_NORMAL_COLOR`: both append the same
8 floats for the vertex `(1, 2, 3)`. -/
theorem builder_buffer_same_record_witness :
    ((((GlBuilder.new 0 (0, 0, 1) (0, 0, 0, 0) 0).glBegin GL_TRIANGLES).glColor4fv (1, 0, 0, 1)).glVertex3d
        1 2 3).pts
      = ((VertexBuffer.new LAYOUT_VTX_NORMAL_COLOR 1).addVertexNormColor (1, 2, 3) (0, 0, 1)
          (1, 0, 0, 1))._pt_data :=
  have h := (builder_buffer_same_record
    (((GlBuilder.new 0 (0, 0, 1) (0, 0, 0, 0) 0).glBegin GL_TRIANGLES).glColor4fv (1, 0, 0, 1))
    (VertexBuffer.new LAYOUT_VTX_NORMAL_COLOR 1) 1 2 3).2.2.2.2.1 (by decide) (by decide) rfl
  h.1.trans h.2.symm

/-! ## Theorems: the choice of the shader dialect -/

/-- C21: on the desktop target the dialect follows the fixed table.  The API
versions 2.0, 2.1, 3.0, 3.1, 3.2 give 110, 120, 130, 140, 150; every version
with `100 * major + 10 * minor` at least 330 gives that value; every version
below 330 whose major is neither 2 nor 3 makes `compileShaders` return false
without a dialect; and `compileShaders` compiles with the selected dialect. -/
theorem desktop_dialect_table (ver_major ver_minor : ℤ)
    (link_default has_feedback link_feedback : Bool) :
    Shader.selectGlslVersion false 2 0 = some 110 ∧
    Shader.selectGlslVersion false 2 1 = some 120 ∧
    Shader.selectGlslVersion false 3 0 = some 130 ∧
    Shader.selectGlslVersion false 3 1 = some 140 ∧
    Shader.selectGlslVersion false 3 2 = some 150 ∧
    (330 ≤ 100 * ver_major + 10 * ver_minor →
      Shader.selectGlslVersion false ver_major ver_minor
        = some (100 * ver_major + 10 * ver_minor)) ∧
    (100 * ver_major + 10 * ver_minor < 330 → ver_major ≠ 2 → ver_major ≠ 3 →
      Shader.selectGlslVersion false ver_major ver_minor = none ∧
      Shader.compileShaders false ver_major ver_minor link_default has_feedback link_feedback
        = { ok := false, glsl_ver := none }) ∧
    ((Shader.compileShaders false ver_major ver_minor link_default has_feedback
        link_feedback).ok = true →
      (Shader.compileShaders false ver_major ver_minor link_default has_feedback
        link_feedback).glsl_ver = Shader.selectGlslVersion false ver_major ver_minor ∧
      Shader.selectGlslVersion false ver_major ver_minor ≠ none) := by
  refine ⟨by decide, by decide, by decide, by decide, by decide, ?_, ?_, ?_⟩
  · intro h
    have h' : ¬ (ver_major * 100 + ver_minor * 10 < 330) := by omega
    simp only [Shader.selectGlslVersion, Bool.not_false, if_true, h', if_false]
    congr 1
    ring
  · intro h h2 h3
    have h' : ver_major * 100 + ver_minor * 10 < 330 := by omega
    have hs : Shader.selectGlslVersion false ver_major ver_minor = none := by
      simp [Shader.selectGlslVersion, h', h2, h3]
    exact ⟨hs, by simp [Shader.compileShaders, hs]⟩
  · intro hok
    cases hs : Shader.selectGlslVersion false ver_major ver_minor with
    | none => simp [Shader.compileShaders, hs] at hok
    | some v =>
      refine ⟨?_, by simp⟩
      unfold Shader.compileShaders
      rw [hs]
      cases link_default <;> cases has_feedback <;> cases link_feedback <;> simp

/-- C21 at the API versions 4.1, which gives the dialect 410, and 1.5, for
which `compileShaders` fails. -/
theorem desktop_dialect_table_witness :
    Shader.selectGlslVersion false 4 1 = some 410 ∧
    Shader.compileShaders false 1 5 true true true = { ok := false, glsl_ver := none } ∧
    (Shader.compileShaders false 3 1 true false false).glsl_ver = some 140 :=
  ⟨(desktop_dialect_table 4 1 true true true).2.2.2.2.2.1 (by decide),
   ((desktop_dialect_table 1 5 true true true).2.2.2.2.2.2.1 (by decide) (by decide)
      (by decide)).2,
   ((desktop_dialect_table 3 1 true false false).2.2.2.2.2.2.2 (by decide)).1.trans
      (by decide)⟩

/-- C22 refuted: on the web target the API version 2.0 gives the dialect 100
and the API version 3.0 the dialect 300, so the dialect is not the same for
every detected version. -/
theorem web_dialect_not_fixed :
    Shader.selectGlslVersion true 2 0 = some 100 ∧
    Shader.selectGlslVersion true 3 0 = some 300 ∧
    (Shader.compileShaders true 2 0 true false false).glsl_ver
      ≠ (Shader.compileShaders true 3 0 true false false).glsl_ver := by
  decide

/-- C22 as amended: on the web target the dialect is one of two fixed values,
100 when `100 * major + 10 * minor` is below 300 and 300 otherwise, and the
selection never fails; `compileShaders` compiles with that dialect whatever
the outcome of linking. -/
theorem web_dialect_two_values (ver_major ver_minor : ℤ)
    (link_default has_feedback link_feedback : Bool) :
    Shader.selectGlslVersion true ver_major ver_minor
      = some (if 100 * ver_major + 10 * ver_minor < 300 then 100 else 300) ∧
    (Shader.compileShaders true ver_major ver_minor link_default has_feedback
        link_feedback).glsl_ver
      = some (if 100 * ver_major + 10 * ver_minor < 300 then 100 else 300) := by
  have hs : Shader.selectGlslVersion true ver_major ver_minor
      = some (if 100 * ver_major + 10 * ver_minor < 300 then 100 else 300) := by
    have e : ver_major * 100 + ver_minor * 10 = 100 * ver_major + 10 * ver_minor := by ring
    simp only [Shader.selectGlslVersion, Bool.not_true, e]
    split_ifs <;> simp_all
  refine ⟨hs, ?_⟩
  unfold Shader.compileShaders
  rw [hs]
  cases link_default <;> cases has_feedback <;> cases link_feedback <;> simp

/-! ## Theorems: `formatShaderString` -/

/-- The output declaration for dialects between 130 and 330 holds no
occurrence of `gl_FragColor`: the replacement leaves it alone. -/
theorem Shader.fragColorDecl_kept (s : Shader.Text) :
    Shader.regexReplace (Shader.fragColorDecl ++ s) Shader.kwGlFragColor Shader.kwFragColor
      = Shader.fragColorDecl
        ++ Shader.regexReplace s Shader.kwGlFragColor Shader.kwFragColor := by
  simp [Shader.regexReplace, Shader.replaceFrom, Shader.startsWith, Shader.fragColorDecl,
    Shader.kwGlFragColor]

/-- The output declaration for dialects between 130 and 330 holds no
occurrence of `texture2D`. -/
theorem Shader.fragColorDecl_kept_texture (s : Shader.Text) :
    Shader.regexReplace (Shader.fragColorDecl ++ s) Shader.kwTexture2D Shader.kwTexture
      = Shader.fragColorDecl ++ Shader.regexReplace s Shader.kwTexture2D Shader.kwTexture := by
  simp [Shader.regexReplace, Shader.replaceFrom, Shader.startsWith, Shader.fragColorDecl,
    Shader.kwTexture2D]

/-- The output declaration for dialects from 330 on holds no occurrence of
`gl_FragColor`. -/
theorem Shader.fragColorDeclLocation_kept (s : Shader.Text) :
    Shader.regexReplace (Shader.fragColorDeclLocation ++ s) Shader.kwGlFragColor
        Shader.kwFragColor
      = Shader.fragColorDeclLocation
        ++ Shader.regexReplace s Shader.kwGlFragColor Shader.kwFragColor := by
  simp [Shader.regexReplace, Shader.replaceFrom, Shader.startsWith,
    Shader.fragColorDeclLocation, Shader.kwGlFragColor]

/-- The output declaration for dialects from 330 on holds no occurrence of
`texture2D`. -/
theorem Shader.fragColorDeclLocation_kept_texture (s : Shader.Text) :
    Shader.regexReplace (Shader.fragColorDeclLocation ++ s) Shader.kwTexture2D
        Shader.kwTexture
      = Shader.fragColorDeclLocation
        ++ Shader.regexReplace s Shader.kwTexture2D Shader.kwTexture := by
  simp [Shader.regexReplace, Shader.replaceFrom, Shader.startsWith,
    Shader.fragColorDeclLocation, Shader.kwTexture2D]

/-- C23 refuted at the dialect 130 itself: a fragment shader keeps its
`gl_FragColor` and gets no output declaration, although `varying` and
`texture2D` are rewritten; at the dialect 140 the same source gets both. -/
theorem fragColor_kept_at_130 :
    Shader.formatShaderString Shader.sampleFragments false Shader.sampleFragmentSource
        GL_FRAGMENT_SHADER 130
      = "#version 130\nin vec4 c; gl_FragColor = texture(t, c.xy);".toList ∧
    Shader.formatShaderString Shader.sampleFragments false Shader.sampleFragmentSource
        GL_FRAGMENT_SHADER 140
      = "#version 140\nout vec4 fragColor;\nin vec4 c; fragColor = texture(t, c.xy);".toList := by
  decide

/-- C23 as amended: below the dialect 130 the result is the version header
followed by the placeholder-substituted source; from 130 on a vertex shader
has `attribute`, `varying` and `texture2D` rewritten; a fragment shader has
`varying` and `texture2D` rewritten at every dialect from 130 on, but
`gl_FragColor` rewritten and the output declaration prepended only above 130
(the plain declaration below 330, the one with a location from 330 on), and at
130 itself neither; any other shader type from 130 on gives the empty text. -/
theorem formatShaderString_rewrites (frag : Shader.Fragments) (web : Bool)
    (shader_string : Shader.Text) (shader_type : GLenum) (glsl_version : ℤ) :
    (glsl_version < 130 →
      Shader.formatShaderString frag web shader_string shader_type glsl_version
        = Shader.versionHeader web glsl_version
          ++ Shader.substitutePlaceholders frag shader_string) ∧
    (130 ≤ glsl_version → shader_type = GL_VERTEX_SHADER →
      Shader.formatShaderString frag web shader_string shader_type glsl_version
        = Shader.versionHeader web glsl_version
          ++ Shader.regexReplace (Shader.regexReplace (Shader.regexReplace
              (Shader.substitutePlaceholders frag shader_string)
              Shader.kwAttribute Shader.kwIn) Shader.kwVarying Shader.kwOut)
              Shader.kwTexture2D Shader.kwTexture) ∧
    (130 < glsl_version → glsl_version < 330 → shader_type = GL_FRAGMENT_SHADER →
      Shader.formatShaderString frag web shader_string shader_type glsl_version
        = Shader.versionHeader web glsl_version ++ Shader.fragColorDecl
          ++ Shader.regexReplace (Shader.regexReplace (Shader.regexReplace
              (Shader.substitutePlaceholders frag shader_string)
              Shader.kwVarying Shader.kwIn) Shader.kwGlFragColor Shader.kwFragColor)
              Shader.kwTexture2D Shader.kwTexture) ∧
    (330 ≤ glsl_version → shader_type = GL_FRAGMENT_SHADER →
      Shader.formatShaderString frag web shader_string shader_type glsl_version
        = Shader.versionHeader web glsl_version ++ Shader.fragColorDeclLocation
          ++ Shader.regexReplace (Shader.regexReplace (Shader.regexReplace
              (Shader.substitutePlaceholders frag shader_string)
              Shader.kwVarying Shader.kwIn) Shader.kwGlFragColor Shader.kwFragColor)
              Shader.kwTexture2D Shader.kwTexture) ∧
    (glsl_version = 130 → shader_type = GL_FRAGMENT_SHADER →
      Shader.formatShaderString frag web shader_string shader_type glsl_version
        = Shader.versionHeader web glsl_version
          ++ Shader.regexReplace (Shader.regexReplace
              (Shader.substitutePlaceholders frag shader_string)
              Shader.kwVarying Shader.kwIn) Shader.kwTexture2D Shader.kwTexture) ∧
    (130 ≤ glsl_version → shader_type ≠ GL_VERTEX_SHADER →
      shader_type ≠ GL_FRAGMENT_SHADER →
      Shader.formatShaderString frag web shader_string shader_type glsl_version = []) := by
  have hvf : GL_FRAGMENT_SHADER ≠ GL_VERTEX_SHADER := by decide
  refine ⟨?_, ?_, ?_, ?_, ?_, ?_⟩
  · intro h
    have h' : ¬ (glsl_version ≥ 130) := by omega
    simp only [Shader.formatShaderString, h', if_false, Shader.versionHeader,
      Shader.substitutePlaceholders]
  · intro h ht
    have h' : glsl_version ≥ 130 := h
    simp only [Shader.formatShaderString, h', if_true, ht, Shader.versionHeader,
      Shader.substitutePlaceholders]
  · intro h1 h2 ht
    have h' : glsl_version ≥ 130 := by omega
    have h'' : glsl_version > 130 ∧ glsl_version < 330 := ⟨h1, h2⟩
    simp only [Shader.formatShaderString, h', if_true, ht, hvf, if_false, h'', and_self,
      Shader.versionHeader, Shader.substitutePlaceholders, Shader.fragColorDecl_kept,
      Shader.fragColorDecl_kept_texture, List.append_assoc]
  · intro h1 ht
    have h' : glsl_version ≥ 130 := by omega
    have h'' : ¬ (glsl_version > 130 ∧ glsl_version < 330) := by omega
    have h3 : glsl_version ≥ 330 := h1
    simp only [Shader.formatShaderString, h', if_true, ht, hvf, if_false, h'', h3,
      Shader.versionHeader, Shader.substitutePlaceholders, Shader.fragColorDeclLocation_kept,
      Shader.fragColorDeclLocation_kept_texture, List.append_assoc]
  · intro h1 ht
    subst h1
    simp only [Shader.formatShaderString, ht, hvf, if_false, Shader.versionHeader,
      Shader.substitutePlaceholders]
    simp
  · intro h hv hf
    have h' : glsl_version ≥ 130 := h
    simp only [Shader.formatShaderString, h', if_true, hv, hf, if_false]

/-- C23 as amended, at the sample vertex shader in the dialect 150 and at the
sample fragment shader in the dialects 120 and 330. -/
theorem formatShaderString_rewrites_witness :
    Shader.formatShaderString Shader.sampleFragments false Shader.sampleVertexSource
        GL_VERTEX_SHADER 150
      = "#version 150\nin vec3 v; out vec4 c;".toList ∧
    Shader.formatShaderString Shader.sampleFragments false Shader.sampleFragmentSource
        GL_FRAGMENT_SHADER 120
      = "#version 120\nvarying vec4 c; gl_FragColor = texture2D(t, c.xy);".toList ∧
    Shader.formatShaderString Shader.sampleFragments false Shader.sampleFragmentSource
        GL_FRAGMENT_SHADER 330
      = ("#version 330\nlayout(location = 0) out vec4 fragColor;\n".toList
          ++ "in vec4 c; fragColor = texture(t, c.xy);".toList) :=
  ⟨((formatShaderString_rewrites Shader.sampleFragments false Shader.sampleVertexSource
      GL_VERTEX_SHADER 150).2.1 (by decide) rfl).trans (by decide),
   ((formatShaderString_rewrites Shader.sampleFragments false Shader.sampleFragmentSource
      GL_FRAGMENT_SHADER 120).1 (by decide)).trans (by decide),
   ((formatShaderString_rewrites Shader.sampleFragments false Shader.sampleFragmentSource
      GL_FRAGMENT_SHADER 330).2.2.2.1 (by decide) rfl).trans (by decide)⟩

/-! ## Theorems: `bufferToDevice` and `drawDeviceBuffer` -/

/-- C24 refuted for a buffer without vertices: the call returns at once, so
that no buffer is created although the handle is zero, and no data call is
issued. -/
theorem bufferToDevice_empty_no_commands :
    bufferToDevice LAYOUT_VTX_NORMAL sampleEmptyBuffer 7 = (sampleEmptyBuffer, []) ∧
    (bufferToDevice LAYOUT_VTX_NORMAL sampleEmptyBuffer 7).1.handle = 0 := by
  decide

/-- C24 as amended: a call of `bufferToDevice(layout, buf)` for a buffer with
at least one vertex creates a buffer and stores its handle if and only if the
handle is still zero, and otherwise keeps the handle; it then binds the
buffer, issues the data call of size zero and after it the data call of
`count * stride` bytes.  A call for a buffer without vertices changes nothing
and issues no command. -/
theorem bufferToDevice_sequence (layout : array_layout) (buf : IVertexBuffer) (fresh : ℕ) :
    (buf.count ≠ 0 → buf.handle = 0 →
      bufferToDevice layout buf fresh
        = ({ buf with handle := fresh },
           [GLCmd.glGenBuffers fresh, GLCmd.glBindBuffer fresh, GLCmd.glBufferData 0 false,
            GLCmd.glBufferData (buf.count * buf.stride) true])) ∧
    (buf.count ≠ 0 → buf.handle ≠ 0 →
      bufferToDevice layout buf fresh
        = (buf,
           [GLCmd.glBindBuffer buf.handle, GLCmd.glBufferData 0 false,
            GLCmd.glBufferData (buf.count * buf.stride) true])) ∧
    (buf.count = 0 → bufferToDevice layout buf fresh = (buf, [])) := by
  refine ⟨?_, ?_, ?_⟩
  · intro hc hh
    simp [bufferToDevice, hc, hh]
  · intro hc hh
    simp [bufferToDevice, hc, hh]
  · intro hc
    simp [bufferToDevice, hc]

/-- C24 as amended, at a buffer of 3 vertices of 32 bytes: the first call
creates the buffer 7 and uploads 96 bytes after the zero-size call, and a
second call keeps the handle 7. -/
theorem bufferToDevice_sequence_witness :
    bufferToDevice LAYOUT_VTX_NORMAL_COLOR sampleFreshBuffer 7
      = ({ sampleFreshBuffer with handle := 7 },
         [GLCmd.glGenBuffers 7, GLCmd.glBindBuffer 7, GLCmd.glBufferData 0 false,
          GLCmd.glBufferData 96 true]) ∧
    bufferToDevice LAYOUT_VTX_NORMAL_COLOR { sampleFreshBuffer with handle := 7 } 8
      = ({ sampleFreshBuffer with handle := 7 },
         [GLCmd.glBindBuffer 7, GLCmd.glBufferData 0 false, GLCmd.glBufferData 96 true]) :=
  ⟨(bufferToDevice_sequence LAYOUT_VTX_NORMAL_COLOR sampleFreshBuffer 7).1 (by decide) rfl,
   (bufferToDevice_sequence LAYOUT_VTX_NORMAL_COLOR { sampleFreshBuffer with handle := 7 }
      8).2.1 (by decide) (by decide)⟩

/-- The draw of a vertex buffer restores the set of enabled arrays when none
of the slots of the layouts was enabled beforehand. -/
theorem drawDeviceBuffer_restores (layout : array_layout) (buf : IVertexBuffer)
    (enabled : Finset ShaderAttrib)
    (hv : ATTR_VERTEX ∉ enabled) (hn : ATTR_NORMAL ∉ enabled) (hc : ATTR_COLOR ∉ enabled)
    (ht : ATTR_TEXCOORD0 ∉ enabled) :
    enabledAfter enabled (drawDeviceBuffer layout buf) = enabled := by
  unfold drawDeviceBuffer
  split_ifs with h1 h2 h3
  · rfl
  · rfl
  · cases layout <;>
      simp [enabledAfter, drawDeviceBufferImpl, setupVtxAttrLayout, clearVtxAttrLayout,
        attrSetup, attrClear, hasNorm, hasColor, hasTexCoord, GLCmd.enabledStep,
        Finset.erase_insert, hv, hn, hc, ht] <;>
      (ext a; cases a <;> simp [hv, hn, hc, ht])
  · cases layout <;>
      simp [enabledAfter, drawDeviceBufferImpl, setupVtxAttrLayout, clearVtxAttrLayout,
        attrSetup, attrClear, hasNorm, hasColor, hasTexCoord, GLCmd.enabledStep,
        Finset.erase_insert, hv, hn, hc, ht] <;>
      (ext a; cases a <;> simp [hv, hn, hc, ht])

/-- C25 at a failing input: started with no array enabled, each of the six
layout draws ends with no array enabled, but the draw of a text buffer, in the
current and in the older renderer, ends with the position array `ATTR_VERTEX`
still enabled: it enables three arrays and disables only the two glyph
arrays. -/
theorem text_draw_leaves_vertex_enabled :
    (∀ (layout : array_layout) (buf : IVertexBuffer),
      enabledAfter ∅ (drawDeviceBuffer layout buf) = ∅) ∧
    enabledAfter ∅ (drawDeviceBufferText sampleTextBuffer) = {ATTR_VERTEX} ∧
    enabledAfter ∅ (drawDeviceBufferTextOld sampleTextBuffer) = {ATTR_VERTEX} ∧
    (drawDeviceBufferText sampleTextBuffer).filter
        (fun c => c = GLCmd.glDisableVertexAttribArray ATTR_VERTEX) = [] := by
  refine ⟨?_, by decide, by decide, by decide⟩
  intro layout buf
  exact drawDeviceBuffer_restores layout buf ∅ (by simp) (by simp) (by simp) (by simp)

/-! ## Theorems: the expansion of text -/

/-- The array `tris` is the rectangle of the glyph, flattened. -/
theorem glyphQuad_flatten (e : TextEntry) (x y : ℚ) (g : Glyph) (tex_w tex_h : ℚ) :
    (glyphQuad e (x + g.bear_x) (y + g.bear_y) g tex_w tex_h).flatten
      = glyphTris e (x + g.bear_x) (-y - g.bear_y) g tex_w tex_h := by
  have h1 : -(-y - g.bear_y) = y + g.bear_y := by ring
  simp only [glyphQuad, glyphVertex, glyphTris, h1, List.flatten, List.cons_append,
    List.nil_append]

/-- The expansion of a character of a text is not changed by appending to the
text. -/
theorem glyphExpansion_append (font : GlVisFont) (e : TextEntry) (cs : List Char) (c : Char)
    (i : ℕ) (hi : i < cs.length) :
    glyphExpansion font e (cs ++ [c]) i = glyphExpansion font e cs i := by
  have ht : (cs ++ [c]).take i = cs.take i := List.take_append_of_le_length hi.le
  have hg : (cs ++ [c]).getD i default = cs.getD i default := by
    simp [List.getD, List.getElem?_append_left hi]
  simp only [glyphExpansion, penX, penY, ht, hg]

/-- The state of the character loop after the text `cs`, started at the pen
position `(0, 0)`. -/
theorem textCharStep_foldl (font : GlVisFont) (e : TextEntry) (buf_data : List ℚ)
    (cs : List Char) :
    cs.foldl (textCharStep font font.atlasWidth font.atlasHeight e) (0, 0, buf_data)
      = (penX font cs cs.length, penY font cs cs.length,
         buf_data ++ ((List.range cs.length).map
           (fun i => (glyphExpansion font e cs i).flatten)).flatten) := by
  induction cs using List.reverseRecOn with
  | nil => simp [penX, penY]
  | append_singleton cs c ih =>
    have hmap : (List.range cs.length).map
          (fun i => (glyphExpansion font e (cs ++ [c]) i).flatten)
        = (List.range cs.length).map (fun i => (glyphExpansion font e cs i).flatten) := by
      apply List.map_congr_left
      intro i hi
      rw [glyphExpansion_append font e cs c i (List.mem_range.mp hi)]
    have hlast : glyphExpansion font e (cs ++ [c]) cs.length
        = if (font.GetTexChar c).w = 0 ∨ (font.GetTexChar c).h = 0 then []
          else glyphQuad e (penX font cs cs.length + (font.GetTexChar c).bear_x)
            (penY font cs cs.length + (font.GetTexChar c).bear_y) (font.GetTexChar c)
            font.atlasWidth font.atlasHeight := by
      simp [glyphExpansion, penX, penY, List.getD]
    have hx : penX font (cs ++ [c]) (cs ++ [c]).length
        = penX font cs cs.length + (font.GetTexChar c).adv_x := by
      simp [penX]
    have hy : penY font (cs ++ [c]) (cs ++ [c]).length
        = penY font cs cs.length + (font.GetTexChar c).adv_y := by
      simp [penY]
    rw [List.foldl_append, ih, List.foldl_cons, List.foldl_nil, hx, hy]
    simp only [List.length_append, List.length_singleton, List.range_succ, List.map_append,
      List.map_cons, List.map_nil, List.flatten_append, hmap, hlast]
    unfold textCharStep
    by_cases hz : (font.GetTexChar c).w = 0 ∨ (font.GetTexChar c).h = 0
    · simp [hz]
    · simp only [hz, if_false, glyphQuad_flatten]
      simp

/-- A loop that appends to the data the floats of each entry yields the
floats of the entries in order. -/
theorem foldl_append_flatten {α β : Type} (G : α → List β) (f : List β → α → List β)
    (hf : ∀ buf a, f buf a = buf ++ G a) (es : List α) (init : List β) :
    es.foldl f init = init ++ (es.map G).flatten := by
  induction es generalizing init with
  | nil => simp
  | cons a es ih => simp [List.foldl_cons, hf, ih, List.append_assoc]

/-- C26: `bufferToDevice(TextBuffer)` uploads, entry after entry and character
after character, the expansion of each character.  A character whose glyph has
non-zero width and height expands to exactly 6 vertices of 8 floats, the
triangles top-left, top-right, bottom-left and top-right, bottom-left,
bottom-right of the rectangle with left edge `penX + bear_x`, top edge
`penY + bear_y`, width `w` and height `h`, anchored at the position of the
entry; a glyph of zero width or height expands to nothing; and `penX`, `penY`
are the sums of `adv_x`, `adv_y` over all preceding characters of the text,
skipped ones included. -/
theorem text_glyph_expansion (font : GlVisFont) (t_buf : DeviceTextBuffer) (fresh : ℕ)
    (e : TextEntry) (i : ℕ) :
    textBufferData font t_buf = (t_buf.entries.map (entryExpansion font)).flatten ∧
    (bufferToDeviceText font t_buf fresh).2.1
      = (t_buf.entries.map (entryExpansion font)).flatten ∧
    ((font.GetTexChar (e.text.toList.getD i default)).w ≠ 0 →
      (font.GetTexChar (e.text.toList.getD i default)).h ≠ 0 →
      glyphExpansion font e e.text.toList i
        = glyphQuad e
            (penX font e.text.toList i + (font.GetTexChar (e.text.toList.getD i default)).bear_x)
            (penY font e.text.toList i + (font.GetTexChar (e.text.toList.getD i default)).bear_y)
            (font.GetTexChar (e.text.toList.getD i default)) font.atlasWidth font.atlasHeight ∧
      (glyphExpansion font e e.text.toList i).length = 6 ∧
      (∀ v ∈ glyphExpansion font e e.text.toList i,
        v.length = 8 ∧ v.take 3 = [e.rx, e.ry, e.rz])) ∧
    ((font.GetTexChar (e.text.toList.getD i default)).w = 0 ∨
        (font.GetTexChar (e.text.toList.getD i default)).h = 0 →
      glyphExpansion font e e.text.toList i = []) ∧
    penX font e.text.toList i
      = ((e.text.toList.take i).map (fun c => (font.GetTexChar c).adv_x)).sum ∧
    penY font e.text.toList i
      = ((e.text.toList.take i).map (fun c => (font.GetTexChar c).adv_y)).sum := by
  have hdata : textBufferData font t_buf = (t_buf.entries.map (entryExpansion font)).flatten := by
    unfold textBufferData
    rw [foldl_append_flatten (entryExpansion font)
      (textEntryStep font font.atlasWidth font.atlasHeight) _ t_buf.entries []]
    · simp
    · intro buf a
      simp only [textEntryStep, textCharStep_foldl, entryExpansion]
  refine ⟨hdata, ?_, ?_, ?_, rfl, rfl⟩
  · rw [← hdata]
    unfold bufferToDeviceText
    by_cases h : (textBufferData font t_buf).length = 0 <;> simp [h]
  · intro hw hh
    have hq : glyphExpansion font e e.text.toList i
        = glyphQuad e
            (penX font e.text.toList i + (font.GetTexChar (e.text.toList.getD i default)).bear_x)
            (penY font e.text.toList i + (font.GetTexChar (e.text.toList.getD i default)).bear_y)
            (font.GetTexChar (e.text.toList.getD i default)) font.atlasWidth
            font.atlasHeight := by
      simp only [glyphExpansion, hw, hh, or_self, if_false]
    rw [hq]
    refine ⟨rfl, rfl, ?_⟩
    intro v hv
    simp only [glyphQuad, List.mem_cons, List.mem_singleton, List.not_mem_nil, or_false] at hv
    rcases hv with rfl | rfl | rfl | rfl | rfl | rfl <;> exact ⟨rfl, rfl⟩
  · intro hz
    simp only [glyphExpansion, hz, if_true]

/-- C26 at the text "a b" in the sample font, anchored at `(7, 8, 9)`: the
blank is skipped but advances the pen, so that the second glyph starts at
`penX = 5 + 3`, with its left edge at 9 and its top edge at 4. -/
theorem text_glyph_expansion_witness :
    glyphExpansion sampleFont ⟨7, 8, 9, "a b", none, none⟩ "a b".toList 1 = [] ∧
    glyphExpansion sampleFont ⟨7, 8, 9, "a b", none, none⟩ "a b".toList 2
      = [[7, 8, 9, 9, 4, 1 / 4, 0, 0], [7, 8, 9, 11, 4, 1 / 2, 0, 0],
         [7, 8, 9, 9, 0, 1 / 4, 1 / 2, 0], [7, 8, 9, 11, 4, 1 / 2, 0, 0],
         [7, 8, 9, 9, 0, 1 / 4, 1 / 2, 0], [7, 8, 9, 11, 0, 1 / 2, 1 / 2, 0]] :=
  ⟨(text_glyph_expansion sampleFont ⟨0, [], 0, 32⟩ 1 ⟨7, 8, 9, "a b", none, none⟩ 1).2.2.2.1
      (by simp [sampleFont, sampleBlank, sampleLetter]),
   ((text_glyph_expansion sampleFont ⟨0, [], 0, 32⟩ 1 ⟨7, 8, 9, "a b", none, none⟩ 2).2.2.1
      (by simp [sampleFont, sampleBlank, sampleLetter]) (by simp [sampleFont, sampleBlank, sampleLetter])).1.trans
      (by
        have ha : ¬ ('a' = Char.ofNat 32) := by decide
        have hb : ¬ ('b' = Char.ofNat 32) := by decide
        norm_num [glyphQuad, glyphVertex, penX, penY, sampleFont, sampleBlank, sampleLetter, ha,
          hb])⟩

/-! ## Theorems: the colour formula of the clip routines -/

/-- With equal `w` at both ends the perspective-correct expression at the
fraction `s` is the linear interpolation at `s`, channel by channel. -/
theorem perspectiveCorrect_equal_w (s w cp cq : ℚ) (hw : w ≠ 0) :
    ((1 - s) * cp / w + s * cq / w) / ((1 - s) / w + s / w) = cp + s * (cq - cp) := by
  have h1 : (1 - s) / w + s / w = 1 / w := by
    field_simp
  have h2 : (1 - s) * cp / w + s * cq / w = (cp + s * (cq - cp)) / w := by
    field_simp
    ring
  rw [h1, h2]
  field_simp

/-- C12 as amended: on every crossing edge with positive `w` at both ends the
colour of the synthesized vertex, in the triangle routine and in the line
routine, is `(C_p * k_q - C_q * k_p) / (k_q - k_p)` with `k = d / w` for each
endpoint, where `k_q - k_p` is not zero.  This is the linear interpolation of
the endpoint colours in device space, `(1 - s) * C_p + s * C_q` at the
device-space fraction `s = d_p * w_q / (d_p * w_q - d_q * w_p)` of the
intersection point.  When `w_p = w_q` that fraction is the clip-space fraction
`d_p / (d_p - d_q)` and the colour is the perspective-correct one. -/
theorem clip_color_formula (half_w half_h : ℚ) (p q : ShaderXfbVertex)
    (hwp : 0 < p.pos.w) (hwq : 0 < q.pos.w) (hc : Crossing p q) :
    (clipVertex half_w half_h p q).color
      = ((p.color.scale (q.clipCoord / q.pos.w)).sub
          (q.color.scale (p.clipCoord / p.pos.w))).divScalar
          (q.clipCoord / q.pos.w - p.clipCoord / p.pos.w) ∧
    (XFBPostTransform (lineClipVert p q) half_w half_h).color
      = (clipVertex half_w half_h p q).color ∧
    q.clipCoord / q.pos.w - p.clipCoord / p.pos.w ≠ 0 ∧
    (clipVertex half_w half_h p q).color.x
      = (p.color.x * (q.clipCoord / q.pos.w) - q.color.x * (p.clipCoord / p.pos.w))
        / (q.clipCoord / q.pos.w - p.clipCoord / p.pos.w) ∧
    (clipVertex half_w half_h p q).color
      = Vec4.lerp p.color q.color (deviceFraction p q) ∧
    (p.pos.w = q.pos.w →
      deviceFraction p q = clipFraction p q ∧
      (clipVertex half_w half_h p q).color
        = perspectiveCorrect (deviceFraction p q) p.color p.pos.w q.color q.pos.w ∧
      (clipVertex half_w half_h p q).color
        = Vec4.lerp p.color q.color (clipFraction p q)) := by
  have hlin : (clipVertex half_w half_h p q).color
      = Vec4.lerp p.color q.color (deviceFraction p q) := by
    rw [clipVertex_color]
    exact clip_color_device_linear p q hwp hwq hc
  refine ⟨rfl, rfl, clip_color_denominator_ne_zero p q hwp hwq hc, rfl, hlin, ?_⟩
  intro hw
  have hq0 : q.pos.w ≠ 0 := ne_of_gt hwq
  have hfr : deviceFraction p q = clipFraction p q := by
    unfold deviceFraction clipFraction
    rw [hw, ← sub_mul, mul_div_mul_right _ _ hq0]
  refine ⟨hfr, ?_, ?_⟩
  · rw [hlin, hw]
    simp only [perspectiveCorrect, Vec4.lerp, perspectiveCorrect_equal_w _ _ _ _ hq0]
  · rw [hlin, hfr]

/-- C12 as amended, at the edge from `P` (`w = 1`) to `Q` (`w = 2`), where the
colour is the device-space interpolation at 4/5, and at the edge from `A` to
`C` (both `w = 1`), where it is also the perspective-correct colour. -/
theorem clip_color_formula_witness :
    (clipVertex 1 1 sampleP sampleQ).color
      = Vec4.lerp sampleP.color sampleQ.color (deviceFraction sampleP sampleQ) ∧
    deviceFraction sampleP sampleQ = 4 / 5 ∧
    (clipVertex 1 1 sampleA sampleC).color
      = perspectiveCorrect (deviceFraction sampleA sampleC) sampleA.color sampleA.pos.w
          sampleC.color sampleC.pos.w :=
  ⟨(clip_color_formula 1 1 sampleP sampleQ (by norm_num [sampleP]) (by norm_num [sampleQ])
      (Or.inl ⟨by norm_num [sampleP], by norm_num [sampleQ]⟩)).2.2.2.2.1,
   by norm_num [deviceFraction, sampleP, sampleQ],
   ((clip_color_formula 1 1 sampleA sampleC (by norm_num [sampleA]) (by norm_num [sampleC])
      (Or.inl ⟨by norm_num [sampleA], by norm_num [sampleC]⟩)).2.2.2.2.2 rfl).2.1⟩

end gl3
